import Mathlib

/-!
# SCIRun: scheduler, field erosion, plugin manager and colour maps

A shallow embedding of four source files and the properties proved about them.

* `Dataflow/Engine/Scheduler/BoostGraphSerialScheduler.cc`: the body of
  `BoostGraphSerialScheduler::schedule` is translated from the source.  The network snapshot,
  the graph analyzer and the execution policies are declared in headers that are not among the
  source files at hand; they are modelled from the written specification and every such
  definition says so in its doc comment.
* `Core/Algorithms/Legacy/Fields/FilterFieldData/ErodeFieldData.cc`: `runImpl`, the two
  erosion routines and `run`.
* `Core/ImportExport/GenericIEPlugin.h`: the static plugin table and its accessors.
* `Core/Datatypes/ColorMap.cc`: the colour strategies, the factory and the colour map.

Definitions come first, theorems after them.
-/

namespace SCIRun

/-! ## Data model -/

/-- Modelled from the spec: the stable identifier of a module (the `ModuleId` type is declared
in a header that is not among the source files).  Identifiers are totally ordered; the ordinal
is what the tie-break of the topological sort compares. -/
abbrev ModuleId := Nat

/-- Modelled from the spec: a module as the scheduler reads it (§3 Module): its stable
identifier, its input and output port slots (only their number is kept, the scheduler never
looks inside a slot) and the needs-execution flag set by the surrounding system. -/
structure ModuleState where
  id : ModuleId
  inputPorts : Nat
  outputPorts : Nat
  needsExecution : Bool
  deriving DecidableEq, Repr

/-- Modelled from the spec: a connection (§3 Connection), a directed edge from an output port
of the source module to an input port of the destination module. -/
structure Connection where
  sourceModule : ModuleId
  outputPort : Nat
  destModule : ModuleId
  inputPort : Nat
  deriving DecidableEq, Repr

/-- Modelled from the spec: the read-only network snapshot (`NetworkStateInterface`), a
queryable list of modules and a queryable list of connections (§6). -/
structure NetworkState where
  modules : List ModuleState
  connections : List Connection
  deriving DecidableEq, Repr

/-- Modelled from the spec: the structural errors of §7; a cycle error names one implicated
module, a dangling-connection error names the offending connection. -/
inductive StructuralError where
  | cycleDetected (implicated : ModuleId)
  | danglingConnection (c : Connection)
  deriving DecidableEq, Repr

/-- Modelled from the spec: the dependency graph (§3) over the dense vertex-index space
`0..vertexCount-1`, with one edge per connected module pair. -/
structure DependencyGraph where
  vertexCount : Nat
  edges : List (Nat × Nat)
  deriving DecidableEq, Repr

/-- The value `schedule` returns: an ordered list of module identifiers
(`ModuleExecutionOrder(list)` in the source). -/
structure ModuleExecutionOrder where
  list : List ModuleId
  deriving DecidableEq, Repr

/-- Identifiers of the modules of a snapshot, in enumeration order. -/
def NetworkState.moduleIds (network : NetworkState) : List ModuleId :=
  network.modules.map (fun m => m.id)

/-! ## Graph construction -/

/-- Modelled from the spec: the forward lookup from module identifier to dense vertex index
(§4.1 construction step); `none` when the identifier is not a module of the snapshot. -/
def vertexOf (ids : List ModuleId) (m : ModuleId) : Option Nat :=
  if m ∈ ids then some (ids.indexOf m) else none

/-- Modelled from the spec: the reverse lookup from dense vertex index back to module
identifier (§4.1 construction step).  An index outside `0..N-1` has no module; the fallback
value is never used for a vertex the analyzer emits. -/
def idAt (ids : List ModuleId) (v : Nat) : ModuleId :=
  ids.getD v 0

/-- Modelled from the spec: the graph edge of one connection.  A connection that references an
identifier absent from the snapshot is a dangling connection and fails fast (§7). -/
def edgeOf (ids : List ModuleId) (c : Connection) : Except StructuralError (Nat × Nat) :=
  match vertexOf ids c.sourceModule, vertexOf ids c.destModule with
  | some u, some v => Except.ok (u, v)
  | _, _ => Except.error (StructuralError.danglingConnection c)

/-- Modelled from the spec: the edge set of the dependency graph, one edge per connection, with
several connections between the same module pair collapsed to a single edge (§3). -/
def collectEdges (ids : List ModuleId) : List Connection → Except StructuralError (List (Nat × Nat))
  | [] => Except.ok []
  | c :: cs =>
    match edgeOf ids c with
    | Except.error err => Except.error err
    | Except.ok e =>
      match collectEdges ids cs with
      | Except.error err => Except.error err
      | Except.ok es => Except.ok (if e ∈ es then es else e :: es)

/-! ## Kahn's algorithm with the identifier tie-break -/

/-- Modelled from the spec: the working state of Kahn's algorithm (§4.1), an in-degree counter
per vertex and the vertices emitted so far, in emission order. -/
structure KahnState where
  inDegree : Nat → Nat
  emitted : List Nat

/-- Modelled from the spec: the in-degree of a vertex before anything is emitted. -/
def initialInDegree (g : DependencyGraph) (w : Nat) : Nat :=
  g.edges.countP (fun e => e.2 = w)

/-- Modelled from the spec: the not-yet-emitted vertices whose in-degree counter is zero. -/
def zeroInDegree (g : DependencyGraph) (s : KahnState) : List Nat :=
  (List.range g.vertexCount).filter (fun v => decide (v ∉ s.emitted) && decide (s.inDegree v = 0))

/-- Modelled from the spec: the tie-break (§4.1): among the candidates, the vertex with the
smallest key; the key is the stable identifier of the vertex's module. -/
def pickSmallest (key : Nat → ModuleId) : List Nat → Option Nat
  | [] => none
  | v :: rest =>
    match pickSmallest key rest with
    | none => some v
    | some w => if key w < key v then some w else some v

/-- Modelled from the spec: emitting a vertex appends it to the sequence and decrements the
in-degree counter of each of its successors. -/
def emit (g : DependencyGraph) (s : KahnState) (v : Nat) : KahnState :=
  { inDegree := fun w => if (v, w) ∈ g.edges then s.inDegree w - 1 else s.inDegree w
    emitted := s.emitted ++ [v] }

/-- Modelled from the spec: the loop of Kahn's algorithm: repeatedly select a zero-in-degree
vertex among the not-yet-emitted ones, emit it, and stop when none remains. -/
def kahnLoop (g : DependencyGraph) (key : Nat → ModuleId) : Nat → KahnState → KahnState
  | 0, s => s
  | fuel + 1, s =>
    match pickSmallest key (zeroInDegree g s) with
    | none => s
    | some v => kahnLoop g key fuel (emit g s v)

/-- Modelled from the spec: the vertex sequence Kahn's algorithm emits; one round per vertex is
enough to emit every vertex of an acyclic graph. -/
def kahn (g : DependencyGraph) (key : Nat → ModuleId) : List Nat :=
  (kahnLoop g key g.vertexCount { inDegree := initialInDegree g, emitted := [] }).emitted

/-- Modelled from the spec: the cycle check by Kahn's in-degree counters (§4.1): the graph has a
cycle exactly when the loop stops before every vertex is emitted. -/
def hasCycle (g : DependencyGraph) (key : Nat → ModuleId) : Bool :=
  decide ((kahn g key).length < g.vertexCount)

/-- Modelled from the spec: a vertex on a cycle, found from a blocked vertex by walking
backwards along edges between blocked vertices; after as many steps as the graph has vertices
the walk is on a cycle (`cycleVertex_on_cycle`). -/
def walkBack (g : DependencyGraph) (done : List Nat) : Nat → Nat → Nat
  | 0, v => v
  | fuel + 1, v =>
    match g.edges.find? (fun e => decide (e.2 = v) && decide (e.1 ∉ done)) with
    | none => v
    | some e => walkBack g done fuel e.1

/-- Modelled from the spec: the vertex reported by a cycle error. -/
def cycleVertex (g : DependencyGraph) (done : List Nat) : Nat :=
  match (List.range g.vertexCount).find? (fun v => decide (v ∉ done)) with
  | none => 0
  | some v => walkBack g done g.vertexCount v

/-! ## Execution policies -/

/-- Modelled from the spec: the execution policies of §4.2, a closed set of two variants. -/
inductive ExecutionPolicy where
  | executeAll
  | executeAffected
  deriving DecidableEq, Repr

/-- The policy object `ExecuteAllModules::Instance()` that `schedule` passes to the analyzer. -/
def ExecuteAllModules.Instance : ExecutionPolicy := ExecutionPolicy.executeAll

/-- Modelled from the spec: the vertices whose module has its needs-execution flag set. -/
def flaggedVertices (network : NetworkState) : List Nat :=
  (List.range network.modules.length).filter
    (fun v => match network.modules[v]? with
              | some m => m.needsExecution
              | none => false)

/-- Modelled from the spec: one round of propagation along dependency edges: a vertex is kept
when it is already affected or is the target of an edge whose source is affected. -/
def expandAffected (g : DependencyGraph) (s : List Nat) : List Nat :=
  (List.range g.vertexCount).filter
    (fun w => decide (w ∈ s) || g.edges.any (fun e => decide (e.1 ∈ s) && decide (e.2 = w)))

/-- Modelled from the spec: repeated propagation. -/
def propagate (g : DependencyGraph) : Nat → List Nat → List Nat
  | 0, s => s
  | rounds + 1, s => propagate g rounds (expandAffected g s)

/-- Modelled from the spec: the affected vertices (§4.2 Execute-Affected): the flagged ones and
everything reachable from them along dependency edges. -/
def affectedVertices (network : NetworkState) (g : DependencyGraph) : List Nat :=
  propagate g g.vertexCount (flaggedVertices network)

/-- Modelled from the spec: the inclusion test `isIncluded` of §4.2, asked once per module
(addressed by its vertex). -/
def ExecutionPolicy.isIncluded (policy : ExecutionPolicy) (network : NetworkState)
    (g : DependencyGraph) (v : Nat) : Bool :=
  match policy with
  | ExecutionPolicy.executeAll => true
  | ExecutionPolicy.executeAffected => decide (v ∈ affectedVertices network g)

/-! ## The graph analyzer -/

/-- Modelled from the spec: what a constructed `NetworkGraphAnalyzer` holds (§4.1 output): the
reverse lookup from vertex index to module identifier, the dependency graph and the vertex
sequence. -/
structure NetworkGraphAnalyzer where
  moduleIdLookup : List ModuleId
  graph : DependencyGraph
  order : List Nat
  deriving DecidableEq, Repr

/-- Modelled from the spec: `moduleAt`, the reverse lookup from vertex index to module
identifier. -/
def NetworkGraphAnalyzer.moduleAt (a : NetworkGraphAnalyzer) (vertex : Nat) : ModuleId :=
  idAt a.moduleIdLookup vertex

/-- Modelled from the spec: the vertex sequence delimited by `topologicalBegin()` and
`topologicalEnd()`. -/
def NetworkGraphAnalyzer.topologicalRange (a : NetworkGraphAnalyzer) : List Nat :=
  a.order

/-- Modelled from the spec: construction of the analyzer (§4.1).  The modules become the
vertices `0..N-1`, the connections become edges (a dangling connection fails), the graph is
checked for cycles, sorted by Kahn's algorithm, and the execution policy is applied as a
post-pass over the full topological order.  The third constructor argument asks for the order
to be computed at construction; `schedule` always passes `true`, and the spec does not describe
an analyzer built without it, whose range the model leaves empty. -/
def NetworkGraphAnalyzer.create (network : NetworkState) (policy : ExecutionPolicy)
    (precompute : Bool) : Except StructuralError NetworkGraphAnalyzer :=
  let ids := network.moduleIds
  match collectEdges ids network.connections with
  | Except.error err => Except.error err
  | Except.ok edges =>
    let g : DependencyGraph := { vertexCount := ids.length, edges := edges }
    let key : Nat → ModuleId := idAt ids
    if precompute then
      if hasCycle g key then
        Except.error (StructuralError.cycleDetected (key (cycleVertex g (kahn g key))))
      else
        Except.ok { moduleIdLookup := ids, graph := g,
                    order := (kahn g key).filter (fun v => policy.isIncluded network g v) }
    else
      Except.ok { moduleIdLookup := ids, graph := g, order := [] }

/-! ## The scheduler (translated from the source) -/

/-- The body of `BoostGraphSerialScheduler::schedule`: build the analyzer with the
`ExecuteAllModules` policy and precomputation on, map `moduleAt` over the topological range
into a fresh list, and wrap the list in a `ModuleExecutionOrder`.  An exception thrown by the
analyzer's constructor propagates to the caller. -/
def BoostGraphSerialScheduler.schedule (network : NetworkState) :
    Except StructuralError ModuleExecutionOrder :=
  match NetworkGraphAnalyzer.create network ExecuteAllModules.Instance true with
  | Except.error err => Except.error err
  | Except.ok graphAnalyzer =>
    let list : List ModuleId :=
      graphAnalyzer.topologicalRange.map (fun vertex => graphAnalyzer.moduleAt vertex)
    Except.ok (ModuleExecutionOrder.mk list)

/-- Shorthand for a module with the given identifier and flag, one input and one output port. -/
def mkModule (id : ModuleId) (flag : Bool) : ModuleState :=
  { id := id, inputPorts := 1, outputPorts := 1, needsExecution := flag }

/-- Shorthand for a connection between port 0 of two modules. -/
def mkConn (src dst : ModuleId) : Connection :=
  { sourceModule := src, outputPort := 0, destModule := dst, inputPort := 0 }

/-! ## Specification predicates: Kahn's algorithm -/

/-- A vertex is ready after the prefix `pre`: it is a vertex of the graph, it is not in `pre`,
and every one of its predecessors is in `pre`. -/
def Ready (g : DependencyGraph) (pre : List Nat) (v : Nat) : Prop :=
  v < g.vertexCount ∧ v ∉ pre ∧ ∀ u, (u, v) ∈ g.edges → u ∈ pre

/-- The vertex `v` is the tie-break choice after `pre`: it is ready and no ready vertex has a
smaller key. -/
def Selected (g : DependencyGraph) (key : Nat → ModuleId) (pre : List Nat) (v : Nat) : Prop :=
  Ready g pre v ∧ ∀ x, Ready g pre x → key v ≤ key x

/-- Every element of the sequence is the tie-break choice after the elements before it. -/
def KahnTrace (g : DependencyGraph) (key : Nat → ModuleId) (l : List Nat) : Prop :=
  ∀ pre v post, l = pre ++ v :: post → Selected g key pre v

/-- The counter of every vertex is the number of its incoming edges from vertices that are not
yet emitted. -/
def CounterInv (g : DependencyGraph) (s : KahnState) : Prop :=
  ∀ w, s.inDegree w =
    g.edges.countP (fun e => decide (e.2 = w) && decide (e.1 ∉ s.emitted))

/-! ## Specification predicates: cycles in the dependency graph -/

/-- The edge relation of the dependency graph. -/
def EdgeRel (g : DependencyGraph) (u v : Nat) : Prop := (u, v) ∈ g.edges

/-- The dependency graph has no cycle: no vertex reaches itself along one or more edges. -/
def GraphAcyclic (g : DependencyGraph) : Prop :=
  ∀ v, ¬ Relation.TransGen (EdgeRel g) v v

/-- Both ends of every edge are vertices of the graph. -/
def EdgesInRange (g : DependencyGraph) : Prop :=
  ∀ e ∈ g.edges, e.1 < g.vertexCount ∧ e.2 < g.vertexCount

/-- A vertex is blocked after `done`: it is a vertex of the graph that is not in `done`. -/
def Blocked (g : DependencyGraph) (done : List Nat) (v : Nat) : Prop :=
  v < g.vertexCount ∧ v ∉ done

/-! ## Specification predicates: the network seen as a graph -/

/-- Some connection of the snapshot leads from module `a` to module `b`. -/
def Connected (network : NetworkState) (a b : ModuleId) : Prop :=
  ∃ c ∈ network.connections, c.sourceModule = a ∧ c.destModule = b

/-- The dependency graph of the snapshot contains a cycle: some module reaches itself along
one or more connections (a self-loop is the case of one connection). -/
def HasDependencyCycle (network : NetworkState) : Prop :=
  ∃ m, Relation.TransGen (Connected network) m m

/-- The snapshot is acyclic. -/
def Acyclic (network : NetworkState) : Prop := ¬ HasDependencyCycle network

/-- Every connection joins two modules of the snapshot. -/
def NoDangling (network : NetworkState) : Prop :=
  ∀ c ∈ network.connections,
    c.sourceModule ∈ network.moduleIds ∧ c.destModule ∈ network.moduleIds

/-- The data-model invariant of §3: module identifiers are unique within a network. -/
def UniqueIds (network : NetworkState) : Prop := network.moduleIds.Nodup

instance (network : NetworkState) : Decidable (NoDangling network) := by
  unfold NoDangling; infer_instance

instance (network : NetworkState) : Decidable (UniqueIds network) := by
  unfold UniqueIds; infer_instance

/-- The dependency graph the analyzer builds from a snapshot whose edges were collected. -/
def graphOf (network : NetworkState) (edges : List (Nat × Nat)) : DependencyGraph :=
  { vertexCount := network.moduleIds.length, edges := edges }

/-! ## Example snapshots -/

/-- Two unconnected pairs A→B and C→D with identifiers A=1, B=2, C=3, D=4. -/
def twoPairs : NetworkState :=
  { modules := [mkModule 1 false, mkModule 2 false, mkModule 3 false, mkModule 4 false]
    connections := [mkConn 1 2, mkConn 3 4] }

/-- Two unconnected pairs A→B and C→D with identifiers A=1, B=4, C=2, D=3, the modules
enumerated as B, D, C, A. -/
def twoPairsInterleaved : NetworkState :=
  { modules := [mkModule 4 false, mkModule 3 false, mkModule 2 false, mkModule 1 false]
    connections := [mkConn 1 4, mkConn 2 3] }

/-- The cycle A→B→C→A. -/
def threeCycle : NetworkState :=
  { modules := [mkModule 1 false, mkModule 2 false, mkModule 3 false]
    connections := [mkConn 1 2, mkConn 2 3, mkConn 3 1] }

/-- A module connected to its own input, downstream of another module. -/
def selfLoop : NetworkState :=
  { modules := [mkModule 1 false, mkModule 2 false]
    connections := [mkConn 1 2, mkConn 2 2] }

/-- A snapshot with a stale connection to a removed module. -/
def staleConnection : NetworkState :=
  { modules := [mkModule 10 false, mkModule 2 false, mkModule 3 false]
    connections := [mkConn 10 2, mkConn 3 11] }

/-! ## Successive calls -/

/-- Modelled from the spec: the state of the process that a call of `schedule` can reach besides
its argument and that outlives the call.  The member function is `const` and its body names no
data member of the scheduler; the analyzer and the list are locals that end with the call (§3:
the dependency graph "is rebuilt on every scheduling pass", it "is never persisted").  What
remains is the process-wide policy object behind `ExecuteAllModules::Instance()`, an accessor
declared in a header that is not among the source files: the slot is empty until the accessor is
first called and holds a policy object from then on. -/
structure ProcessState where
  executeAllInstance : Option ExecutionPolicy
  deriving DecidableEq, Repr

/-- Modelled from the spec: the accessor `ExecuteAllModules::Instance()` as an operation on the
process state.  The first call constructs the Execute-All policy object (§4.2; the default of
§4.3) and stores it; every later call hands out the stored object, whatever it is. -/
def ExecuteAllModules.InstanceIn (state : ProcessState) : ExecutionPolicy × ProcessState :=
  match state.executeAllInstance with
  | some policy => (policy, state)
  | none => (ExecutionPolicy.executeAll, { executeAllInstance := some ExecutionPolicy.executeAll })

/-- The body of `BoostGraphSerialScheduler::schedule` as an operation on the process state: the
policy handed to the analyzer is the object the accessor returns in the current state, and the
state after the call is the one the accessor left, also when the analyzer's constructor
throws.  The result is not taken to be `schedule network`; that it is, from every state a
history of calls can reach, is `scheduleIn_of_sound`. -/
def BoostGraphSerialScheduler.scheduleIn (state : ProcessState) (network : NetworkState) :
    Except StructuralError ModuleExecutionOrder × ProcessState :=
  match ExecuteAllModules.InstanceIn state with
  | (policy, state') =>
    match NetworkGraphAnalyzer.create network policy true with
    | Except.error err => (Except.error err, state')
    | Except.ok graphAnalyzer =>
      let list : List ModuleId :=
        graphAnalyzer.topologicalRange.map (fun vertex => graphAnalyzer.moduleAt vertex)
      (Except.ok (ModuleExecutionOrder.mk list), state')

/-- A module is ready after the modules `emitted`: it is a module of the snapshot that is not
yet emitted and the source of every connection into it is emitted. -/
def ModuleReady (network : NetworkState) (emitted : List ModuleId) (m : ModuleId) : Prop :=
  m ∈ network.moduleIds ∧ m ∉ emitted ∧
    ∀ c ∈ network.connections, c.destModule = m → c.sourceModule ∈ emitted

/-! ## Specification predicates: the Execute-Affected policy -/

/-- The set is closed under the edges of the graph. -/
def EdgeClosed (g : DependencyGraph) (s : List Nat) : Prop :=
  ∀ u ∈ s, ∀ w, (u, w) ∈ g.edges → w ∈ s

/-- The closure rule of §4.2 in terms of modules: the module's own flag is set, or it is
reachable along one or more connections from a module of the snapshot whose flag is set. -/
def Affected (network : NetworkState) (m : ModuleState) : Prop :=
  m.needsExecution = true ∨
    ∃ f ∈ network.modules, f.needsExecution = true ∧
      Relation.TransGen (Connected network) f.id m.id

/-- A chain with clean modules downstream of a flagged one: A→B→C with only A flagged. -/
def flaggedChain : NetworkState :=
  { modules := [mkModule 1 true, mkModule 2 false, mkModule 3 false]
    connections := [mkConn 1 2, mkConn 2 3] }

/-- A chain with a clean module upstream of a flagged one: A→B→C with only B flagged. -/
def cleanUpstream : NetworkState :=
  { modules := [mkModule 1 false, mkModule 2 true, mkModule 3 false]
    connections := [mkConn 1 2, mkConn 2 3] }

/-! ## ErodeFieldData: data model

`Core/Algorithms/Legacy/Fields/FilterFieldData/ErodeFieldData.cc`.  The field, mesh and
algorithm base classes are declared in headers that are not among the source files; what the
translated functions read from them is kept as plain data. -/

/-- The answers of `FieldInformation` about a field.  The class is declared elsewhere; each
predicate the source asks is taken as given, with no relation assumed between them. -/
structure FieldInformation where
  is_nonlinear : Bool
  is_nodata : Bool
  is_scalar : Bool
  is_constantdata : Bool
  is_lineardata : Bool
  is_char : Bool
  is_unsigned_char : Bool
  is_short : Bool
  is_unsigned_short : Bool
  is_int : Bool
  is_unsigned_int : Bool
  is_longlong : Bool
  is_unsigned_longlong : Bool
  is_float : Bool
  is_double : Bool
  deriving DecidableEq, Repr

/-- The part of `VMesh` the erosion routines read after `synchronize`: for every node and for
every element the list of its neighbours (`get_neighbors`); `size` is the number of entries. -/
structure VMesh where
  nodeNeighbors : List (List Nat)
  elemNeighbors : List (List Nat)
  deriving DecidableEq, Repr

/-- A field as the algorithm reads it: what `FieldInformation` answers about it, its mesh and
its data array (`fdata_pointer`).  The scalar values of every `DATA` type are kept as exact
rationals. -/
structure Field where
  info : FieldInformation
  vmesh : VMesh
  fdata : List ℚ
  deriving DecidableEq, Repr

/-- The handle type `FieldHandle`: a shared pointer, null or pointing to a field. -/
abbrev FieldHandle := Option Field

/-- The template argument `DATA` of the erosion routines. -/
inductive ScalarType where
  | char | unsigned_char | short | unsigned_short | int | unsigned_int
  | longlong | unsigned_longlong | float | double
  deriving DecidableEq, Repr

/-- The two erosion routines. -/
inductive ErosionRoutine where
  | ErodeFieldDataElemV (DATA : ScalarType)
  | ErodeFieldDataNodeV (DATA : ScalarType)
  deriving DecidableEq, Repr

/-- The algorithm object: its one parameter `Variables::MaxIterations`, read with `toInt()`. -/
structure ErodeFieldDataAlgo where
  MaxIterations : Int
  deriving DecidableEq, Repr

/-- The constructor `ErodeFieldDataAlgo::ErodeFieldDataAlgo()`: `MaxIterations` is 2. -/
def ErodeFieldDataAlgo.new : ErodeFieldDataAlgo := { MaxIterations := 2 }

/-- Whether the two `deep_clone` calls of an erosion routine return a field or null.
`deep_clone` is declared elsewhere; a clone is a copy of the field, or null. -/
structure CloneOutcome where
  outputOk : Bool
  bufferOk : Bool
  deriving DecidableEq, Repr

/-- The call `input1->deep_clone()` wrapped in a handle. -/
def Field.deep_clone (ok : Bool) (field : Field) : FieldHandle :=
  if ok then some field else none

/-- What a call of `runImpl` or of an erosion routine leaves behind: the returned flag, the
output handle (a reference parameter), the messages passed to `error`, and the erosion routine
that was entered, if any. -/
structure RunImplResult where
  returned : Bool
  output : FieldHandle
  errors : List String
  entered : Option ErosionRoutine
  deriving DecidableEq, Repr

/-! ## ErodeFieldData: the erosion routines -/

/-- The inner loop of an erosion routine: `val = idata[idx]`, then for every neighbour
`nval = idata[nodes[j]]; if (nval < val) val = nval`.  A read outside the array, undefined in
the source, reads 0. -/
def erodeValue (idata : List ℚ) (neighbors : List Nat) (idx : Nat) : ℚ :=
  neighbors.foldl
    (fun val j => if idata.getD j 0 < val then idata.getD j 0 else val)
    (idata.getD idx 0)

/-- One pass `for (idx = 0; idx < sz; ++idx) odata[idx] = val` over the nodes or elements,
reading the buffer `idata` and writing the output array `odata`. -/
def erodePass (neighbors : List (List Nat)) (idata odata : List ℚ) : List ℚ :=
  (List.range neighbors.length).foldl
    (fun od idx => od.set idx (erodeValue idata (neighbors.getD idx []) idx))
    odata

/-- The outer loop `for (p = 0; p < num_iter; p++)`: one pass, then
`buffer->vfield()->copy_values(output->vfield())`.  Returns the buffer and output arrays. -/
def erodeLoop (neighbors : List (List Nat)) : Nat → List ℚ → List ℚ → List ℚ × List ℚ
  | 0, idata, odata => (idata, odata)
  | p + 1, idata, odata =>
    let odata1 := erodePass neighbors idata odata
    erodeLoop neighbors p odata1 odata1

/-- The routine `detail::ErodeFieldDataNodeV<DATA>`. -/
def detail.ErodeFieldDataNodeV (DATA : ScalarType) (algo : ErodeFieldDataAlgo)
    (clone : CloneOutcome) (input1 : Field) (_output : FieldHandle) : RunImplResult :=
  let num_iter := algo.MaxIterations
  let entered := some (ErosionRoutine.ErodeFieldDataNodeV DATA)
  match input1.deep_clone clone.outputOk with
  | none =>
    { returned := false, output := none, errors := ["Could not allocate output field"],
      entered := entered }
  | some output =>
    match input1.deep_clone clone.bufferOk with
    | none =>
      { returned := false, output := some output,
        errors := ["Could not allocate buffer field"], entered := entered }
    | some buffer =>
      let arrays := erodeLoop output.vmesh.nodeNeighbors num_iter.toNat buffer.fdata output.fdata
      { returned := true, output := some { output with fdata := arrays.2 }, errors := [],
        entered := entered }

/-- The routine `detail::ErodeFieldDataElemV<DATA>`. -/
def detail.ErodeFieldDataElemV (DATA : ScalarType) (algo : ErodeFieldDataAlgo)
    (clone : CloneOutcome) (input1 : Field) (_output : FieldHandle) : RunImplResult :=
  let num_iter := algo.MaxIterations
  let entered := some (ErosionRoutine.ErodeFieldDataElemV DATA)
  match input1.deep_clone clone.outputOk with
  | none =>
    { returned := false, output := none, errors := ["Could not allocate output field"],
      entered := entered }
  | some output =>
    match input1.deep_clone clone.bufferOk with
    | none =>
      { returned := false, output := some output,
        errors := ["Could not allocate buffer field"], entered := entered }
    | some buffer =>
      let arrays := erodeLoop output.vmesh.elemNeighbors num_iter.toNat buffer.fdata output.fdata
      { returned := true, output := some { output with fdata := arrays.2 }, errors := [],
        entered := entered }

/-! ## ErodeFieldData: `runImpl` and `run` -/

/-- The type dispatch of `runImpl`, the same chain of tests for constant and for linear data:
the first scalar type the field information reports. -/
def runImplTypeDispatch (fi : FieldInformation) : Option ScalarType :=
  if fi.is_char then some ScalarType.char
  else if fi.is_unsigned_char then some ScalarType.unsigned_char
  else if fi.is_short then some ScalarType.short
  else if fi.is_unsigned_short then some ScalarType.unsigned_short
  else if fi.is_int then some ScalarType.int
  else if fi.is_unsigned_int then some ScalarType.unsigned_int
  else if fi.is_longlong then some ScalarType.longlong
  else if fi.is_unsigned_longlong then some ScalarType.unsigned_longlong
  else if fi.is_float then some ScalarType.float
  else if fi.is_double then some ScalarType.double
  else none

/-- The function `ErodeFieldDataAlgo::runImpl(input, output)`: the four checks in source
order, each reporting its error and returning false, then the dispatch on constant or linear
data and on the scalar type; `return (false)` when nothing matches. -/
def ErodeFieldDataAlgo.runImpl (algo : ErodeFieldDataAlgo) (clone : CloneOutcome)
    (input : FieldHandle) (output : FieldHandle) : RunImplResult :=
  match input with
  | none =>
    { returned := false, output := output, errors := ["No input field"], entered := none }
  | some field =>
    let fi := field.info
    if fi.is_nonlinear then
      { returned := false, output := output,
        errors := ["This function has not yet been defined for non-linear elements"],
        entered := none }
    else if fi.is_nodata then
      { returned := false, output := output,
        errors := ["There is no data defined in the input field"], entered := none }
    else if !fi.is_scalar then
      { returned := false, output := output,
        errors := ["The field data is not scalar data"], entered := none }
    else if fi.is_constantdata then
      match runImplTypeDispatch fi with
      | some DATA => detail.ErodeFieldDataElemV DATA algo clone field output
      | none => { returned := false, output := output, errors := [], entered := none }
    else if fi.is_lineardata then
      match runImplTypeDispatch fi with
      | some DATA => detail.ErodeFieldDataNodeV DATA algo clone field output
      | none => { returned := false, output := output, errors := [], entered := none }
    else
      { returned := false, output := output, errors := [], entered := none }

/-- The names `Variables::InputField`, `Variables::OutputField` and the others of
`AlgorithmVariableNames.h` (declared elsewhere). -/
inductive AlgorithmParameterName where
  | InputField
  | OutputField
  | MaxIterations
  | named (name : String)
  deriving DecidableEq, Repr

/-- The argument of `run`: `input.get<Field>(name)` is the field handle stored under a name.
The class is declared elsewhere; the lookup is taken as given. -/
structure AlgorithmInput where
  get : AlgorithmParameterName → FieldHandle

/-- The value of `run`: the entries assigned with `output[name] = handle`. -/
structure AlgorithmOutput where
  entries : List (AlgorithmParameterName × FieldHandle)
  deriving DecidableEq, Repr

/-- The assignment `output[name] = handle` of the map-like `AlgorithmOutput`. -/
def AlgorithmOutput.assign (output : AlgorithmOutput) (name : AlgorithmParameterName)
    (handle : FieldHandle) : AlgorithmOutput :=
  { entries := (name, handle) :: output.entries.filter (fun e => decide (e.1 ≠ name)) }

/-- The entry stored under a name, if any. -/
def AlgorithmOutput.entry (output : AlgorithmOutput) (name : AlgorithmParameterName) :
    Option FieldHandle :=
  (output.entries.find? (fun e => decide (e.1 = name))).map (fun e => e.2)

/-- The exception thrown by `THROW_ALGORITHM_PROCESSING_ERROR`. -/
inductive AlgorithmError where
  | AlgorithmProcessingException (message : String)
  deriving DecidableEq, Repr

/-- The function `ErodeFieldDataAlgo::run(input)`: read the input field, call `runImpl` with a
fresh null output handle, throw when it returns false, otherwise store the output handle under
`Variables::OutputField`.  The second component holds the messages `runImpl` reported. -/
def ErodeFieldDataAlgo.run (algo : ErodeFieldDataAlgo) (clone : CloneOutcome)
    (input : AlgorithmInput) : Except AlgorithmError AlgorithmOutput × List String :=
  let field := input.get AlgorithmParameterName.InputField
  let outputField : FieldHandle := none
  let r := algo.runImpl clone field outputField
  if !r.returned then
    (Except.error (AlgorithmError.AlgorithmProcessingException
      "False returned on legacy run call."), r.errors)
  else
    let output : AlgorithmOutput := { entries := [] }
    (Except.ok (output.assign AlgorithmParameterName.OutputField r.output), r.errors)

/-- A field over a path of three nodes with data 5, 1, 7 stored at the nodes. -/
def pathField : Field :=
  { info := { is_nonlinear := false, is_nodata := false, is_scalar := true,
              is_constantdata := false, is_lineardata := true,
              is_char := false, is_unsigned_char := false, is_short := false,
              is_unsigned_short := false, is_int := false, is_unsigned_int := false,
              is_longlong := false, is_unsigned_longlong := false, is_float := false,
              is_double := true }
    vmesh := { nodeNeighbors := [[1], [0, 2], [1]], elemNeighbors := [[1], [0]] }
    fdata := [5, 1, 7] }

/-- The same field reported as holding vector data on non-linear elements. -/
def vectorField : Field :=
  { pathField with info := { pathField.info with is_nonlinear := true, is_scalar := false } }

/-! ## GenericIEPluginManager

`Core/ImportExport/GenericIEPlugin.h`.  The class keeps one static pointer `pluginTable_` to a
`std::map` from plugin names to plugin pointers.  The mutex only serialises callers and is left
out of the sequential model. -/

/-- A plugin pointer `GenericIEPluginInterface<Data>*`, as an address; 0 is the null pointer. -/
abbrev PluginPtr := Nat

/-- The table type `PluginMap = std::map<std::string, GenericIEPluginInterface<Data>*>`: its
entries in iteration order. -/
structure PluginMap where
  entries : List (String × PluginPtr)
  deriving DecidableEq, Repr

/-- The keys of the table. -/
def PluginMap.keys (table : PluginMap) : List String :=
  table.entries.map (fun e => e.1)

/-- The member `find(name)` of the table: the entry with that key, or `end()`. -/
def PluginMap.find (table : PluginMap) (name : String) : Option (String × PluginPtr) :=
  table.entries.find? (fun e => decide (e.1 = name))

/-- The member `size()` of the table. -/
def PluginMap.size (table : PluginMap) : Nat :=
  table.entries.length

/-- The static state of `GenericIEPluginManager<Data>`: the pointer `pluginTable_`, null until
the table is created. -/
structure GenericIEPluginManager where
  pluginTable_ : Option PluginMap
  deriving DecidableEq, Repr

/-- The function `createMap()`: allocate an empty table unless one exists. -/
def GenericIEPluginManager.createMap (self : GenericIEPluginManager) : GenericIEPluginManager :=
  match self.pluginTable_ with
  | none => { pluginTable_ := some { entries := [] } }
  | some _ => self

/-- The function `getMap()`: create the table when needed and return it with the new state. -/
def GenericIEPluginManager.getMap (self : GenericIEPluginManager) :
    PluginMap × GenericIEPluginManager :=
  match self.pluginTable_ with
  | some table => (table, self)
  | none => ({ entries := [] }, self.createMap)

/-- The function `destroyMap()`: delete the table and reset the pointer. -/
def GenericIEPluginManager.destroyMap (_self : GenericIEPluginManager) :
    GenericIEPluginManager :=
  { pluginTable_ := none }

/-- The function `numPlugins()`: `pluginTable_ ? pluginTable_->size() : 0`. -/
def GenericIEPluginManager.numPlugins (self : GenericIEPluginManager) : Nat :=
  match self.pluginTable_ with
  | some table => table.size
  | none => 0

/-- The function `get_importer_list(results)`: append every key of the table to `results`. -/
def GenericIEPluginManager.get_importer_list (self : GenericIEPluginManager)
    (results : List String) : List String :=
  match self.pluginTable_ with
  | none => results
  | some table => results ++ table.keys

/-- The function `get_exporter_list(results)`: the same loop as `get_importer_list`. -/
def GenericIEPluginManager.get_exporter_list (self : GenericIEPluginManager)
    (results : List String) : List String :=
  match self.pluginTable_ with
  | none => results
  | some table => results ++ table.keys

/-- The function `get_plugin(name)`: null without a table, null when `find` reaches `end()`,
otherwise `loc->second`. -/
def GenericIEPluginManager.get_plugin (self : GenericIEPluginManager) (name : String) :
    PluginPtr :=
  match self.pluginTable_ with
  | none => 0
  | some table =>
    match table.find name with
    | none => 0
    | some loc => loc.2

/-- A table with two registered plugins. -/
def exampleTable : PluginMap :=
  { entries := [("Matlab", 4096), ("NrrdFile", 8192)] }

/-! ## ColorMap: numbers

`Core/Datatypes/ColorMap.cc`.  A `double` is modelled by its exact value: a rational, one of
the two infinities, or NaN.  Arithmetic on finite values is exact (rounding and the sign of
zero are not modelled); comparisons, `std::min`, `std::max` and `std::isnan` follow the C++
definitions, so that a NaN operand behaves as in the source. -/

/-- A `double`: NaN, an infinity, or a finite value. -/
inductive Double where
  | nan
  | negInf
  | posInf
  | fin (q : ℚ)
  deriving DecidableEq, Repr

/-- Unary minus. -/
def Double.neg : Double → Double
  | Double.nan => Double.nan
  | Double.negInf => Double.posInf
  | Double.posInf => Double.negInf
  | Double.fin q => Double.fin (-q)

/-- Addition. -/
def Double.add : Double → Double → Double
  | Double.nan, _ => Double.nan
  | _, Double.nan => Double.nan
  | Double.posInf, Double.negInf => Double.nan
  | Double.negInf, Double.posInf => Double.nan
  | Double.posInf, _ => Double.posInf
  | _, Double.posInf => Double.posInf
  | Double.negInf, _ => Double.negInf
  | _, Double.negInf => Double.negInf
  | Double.fin a, Double.fin b => Double.fin (a + b)

/-- Subtraction. -/
def Double.sub (a b : Double) : Double := a.add b.neg

/-- The product of an infinity with a finite value `q`. -/
def Double.infTimes (positive : Bool) (q : ℚ) : Double :=
  if q = 0 then Double.nan
  else if decide (0 < q) = positive then Double.posInf else Double.negInf

/-- Multiplication. -/
def Double.mul : Double → Double → Double
  | Double.nan, _ => Double.nan
  | _, Double.nan => Double.nan
  | Double.posInf, Double.posInf => Double.posInf
  | Double.negInf, Double.negInf => Double.posInf
  | Double.posInf, Double.negInf => Double.negInf
  | Double.negInf, Double.posInf => Double.negInf
  | Double.posInf, Double.fin q => Double.infTimes true q
  | Double.negInf, Double.fin q => Double.infTimes false q
  | Double.fin q, Double.posInf => Double.infTimes true q
  | Double.fin q, Double.negInf => Double.infTimes false q
  | Double.fin a, Double.fin b => Double.fin (a * b)

/-- Division; a zero divisor counts as positive zero. -/
def Double.div : Double → Double → Double
  | Double.nan, _ => Double.nan
  | _, Double.nan => Double.nan
  | Double.posInf, Double.fin q => if 0 ≤ q then Double.posInf else Double.negInf
  | Double.negInf, Double.fin q => if 0 ≤ q then Double.negInf else Double.posInf
  | Double.fin _, Double.posInf => Double.fin 0
  | Double.fin _, Double.negInf => Double.fin 0
  | Double.fin a, Double.fin b =>
    if b = 0 then
      if a = 0 then Double.nan else if 0 < a then Double.posInf else Double.negInf
    else Double.fin (a / b)
  | _, _ => Double.nan

instance : Neg Double := ⟨Double.neg⟩

instance : Add Double := ⟨Double.add⟩

instance : Sub Double := ⟨Double.sub⟩

instance : Mul Double := ⟨Double.mul⟩

instance : Div Double := ⟨Double.div⟩

/-- The comparison `a < b`; false when an operand is NaN. -/
def Double.lt : Double → Double → Bool
  | Double.fin a, Double.fin b => decide (a < b)
  | Double.negInf, Double.fin _ => true
  | Double.negInf, Double.posInf => true
  | Double.fin _, Double.posInf => true
  | _, _ => false

/-- The comparison `a <= b`; false when an operand is NaN. -/
def Double.le : Double → Double → Bool
  | Double.fin a, Double.fin b => decide (a ≤ b)
  | Double.negInf, Double.nan => false
  | Double.negInf, _ => true
  | Double.fin _, Double.posInf => true
  | Double.posInf, Double.posInf => true
  | _, _ => false

/-- The test `std::isnan`. -/
def Double.isnan : Double → Bool
  | Double.nan => true
  | _ => false

/-- The function `std::max(a, b)`, which is `(a < b) ? b : a`. -/
def Double.max (a b : Double) : Double := if a.lt b then b else a

/-- The function `std::min(a, b)`, which is `(b < a) ? b : a`. -/
def Double.min (a b : Double) : Double := if b.lt a then b else a

/-- The conversion `static_cast<double>` of an `int`. -/
def Double.ofInt (i : Int) : Double := Double.fin i

/-- The conversion `static_cast<double>` of a `size_t`. -/
def Double.ofSize (n : Nat) : Double := Double.fin n

/-- The value of a finite double, and 0 for NaN and the infinities. -/
def Double.value : Double → ℚ
  | Double.fin q => q
  | _ => 0

/-- A finite value with its fraction discarded (rounded toward zero). -/
def truncate (q : ℚ) : Int :=
  if 0 ≤ q then Rat.floor q else -Rat.floor (-q)

/-- The colour type `ColorRGB` (declared elsewhere): red, green, blue and alpha, read with
`r()`, `g()`, `b()`; `ColorRGB(r, g, b, a)` stores its four arguments. -/
structure ColorRGB where
  r : Double
  g : Double
  b : Double
  a : Double
  deriving DecidableEq, Repr

/-- What the translation takes from outside the source files: the macro `M_PI_2`, the library
functions `std::tan` and `std::pow`, the alpha that the three-argument constructor
`ColorRGB(r, g, b)` stores, and the values a C++ implementation produces where the language
leaves them undefined (a `double` to `int` conversion whose result is not representable, a
vector element read outside its bounds).  Every theorem below holds for all of them. -/
structure Externals where
  M_PI_2 : Double
  tan : Double → Double
  pow : Double → Double → Double
  defaultAlpha : Double
  unrepresentableInt : Double → Int
  outOfBoundsDouble : Int → Double
  outOfBoundsColor : Int → ColorRGB

/-- The constructor `ColorRGB(r, g, b)`. -/
def ColorRGB.rgb (env : Externals) (r g b : Double) : ColorRGB :=
  { r := r, g := g, b := b, a := env.defaultAlpha }

/-- The conversion `static_cast<int>` (also written `int(m)`) of a `double`: the value rounded
toward zero when that is an `int`. -/
def Double.toInt (env : Externals) (d : Double) : Int :=
  match d with
  | Double.fin q =>
    if -2147483648 ≤ truncate q ∧ truncate q ≤ 2147483647 then truncate q
    else env.unrepresentableInt d
  | _ => env.unrepresentableInt d

/-- The element `v[i]` of a `std::vector<double>`. -/
def readDouble (env : Externals) (v : List Double) (i : Int) : Double :=
  if 0 ≤ i ∧ i < v.length then v.getD i.toNat (env.outOfBoundsDouble i)
  else env.outOfBoundsDouble i

/-- The element `v[i]` of a `std::vector<ColorRGB>`. -/
def readColor (env : Externals) (v : List ColorRGB) (i : Int) : ColorRGB :=
  if 0 ≤ i ∧ i < v.length then v.getD i.toNat (env.outOfBoundsColor i)
  else env.outOfBoundsColor i

/-! ## ColorMap: the colour strategies given by formulas -/

/-- The function `detail::Rainbow::getColorMapVal`:
Blue -> Dark Cyan -> Green -> Orange -> Red. -/
def detail.Rainbow.getColorMapVal (env : Externals) (f : Double) : ColorRGB :=
  if f.lt (Double.fin 0.25) then
    ColorRGB.rgb env (Double.fin 0) (f * Double.fin 3) (Double.fin 1 - f)
  else if (Double.fin 0.25).le f && f.lt (Double.fin 0.5) then
    ColorRGB.rgb env (Double.fin 0) (f + Double.fin 0.5) (Double.fin 1.5 - f * Double.fin 3)
  else if (Double.fin 0.5).le f && f.lt (Double.fin 0.75) then
    ColorRGB.rgb env (Double.fin 4 * f - Double.fin 2) (Double.fin 2 - Double.fin 2 * f)
      (Double.fin 0)
  else
    ColorRGB.rgb env (Double.fin 1) (Double.fin 2 - Double.fin 2 * f) (Double.fin 0)

/-- The function `detail::OldRainbow::getColorMapVal`:
Blue -> Cyan -> Green -> Yellow -> Red. -/
def detail.OldRainbow.getColorMapVal (env : Externals) (f : Double) : ColorRGB :=
  if f.lt (Double.fin 0.25) then
    ColorRGB.rgb env (Double.fin 0) (Double.fin 4 * f) (Double.fin 1)
  else if (Double.fin 0.25).le f && f.lt (Double.fin 0.5) then
    ColorRGB.rgb env (Double.fin 0) (Double.fin 1) ((Double.fin 0.5 - f) * Double.fin 4)
  else if (Double.fin 0.5).le f && f.lt (Double.fin 0.75) then
    ColorRGB.rgb env ((f - Double.fin 0.5) * Double.fin 4) (Double.fin 1) (Double.fin 0)
  else
    ColorRGB.rgb env (Double.fin 1) ((Double.fin 1 - f) * Double.fin 4) (Double.fin 0)

/-- The function `detail::Blackbody::getColorMapVal`. -/
def detail.Blackbody.getColorMapVal (env : Externals) (f : Double) : ColorRGB :=
  if f.lt (Double.fin 0.333333) then
    ColorRGB.rgb env (f * Double.fin 3) (Double.fin 0) (Double.fin 0)
  else if f.lt (Double.fin 0.6666666) then
    ColorRGB.rgb env (Double.fin 1) ((f - Double.fin 0.333333) * Double.fin 3) (Double.fin 0)
  else
    ColorRGB.rgb env (Double.fin 1) (Double.fin 1) ((f - Double.fin 0.6666666) * Double.fin 3)

/-- The function `detail::Grayscale::getColorMapVal`. -/
def detail.Grayscale.getColorMapVal (env : Externals) (f : Double) : ColorRGB :=
  ColorRGB.rgb env f f f

/-- The function `detail::OrangeBlackLime::getColorMapVal`. -/
def detail.OrangeBlackLime.getColorMapVal (env : Externals) (f : Double) : ColorRGB :=
  if f.lt (Double.fin 0.5) then
    ColorRGB.rgb env ((Double.fin 0.5 - f) * Double.fin 2) (Double.fin 0.5 - f) (Double.fin 0)
  else
    ColorRGB.rgb env (Double.fin 0) ((f - Double.fin 0.5) * Double.fin 2) (Double.fin 0)

/-- The function `detail::BPSeismic::getColorMapVal`. -/
def detail.BPSeismic.getColorMapVal (env : Externals) (f : Double) : ColorRGB :=
  if f.lt (Double.fin 0.5) then
    ColorRGB.rgb env (f * Double.fin 2) (f * Double.fin 2) (Double.fin 1)
  else
    ColorRGB.rgb env (Double.fin 1) ((Double.fin 1 - f) * Double.fin 2)
      ((Double.fin 1 - f) * Double.fin 2)

/-- The function `detail::Darkhue::getColorMapVal`. -/
def detail.Darkhue.getColorMapVal (env : Externals) (f : Double) : ColorRGB :=
  if f.lt (Double.fin 0.25) then
    ColorRGB.rgb env (Double.fin 0) (Double.fin 0) ((f * Double.fin 4) * Double.fin 0.333333)
  else if (Double.fin 0.25).le f && f.lt (Double.fin 0.5) then
    ColorRGB.rgb env ((f - Double.fin 0.25) * Double.fin 2) (Double.fin 0)
      (f + ((Double.fin 0.5 - f) * Double.fin 0.333333))
  else if (Double.fin 0.5).le f && f.lt (Double.fin 0.75) then
    ColorRGB.rgb env (f + (f - Double.fin 0.5)) (Double.fin 0)
      (f - ((f - Double.fin 0.5) * Double.fin 3))
  else
    ColorRGB.rgb env (Double.fin 1) ((f - Double.fin 0.75) * Double.fin 4)
      ((f - Double.fin 0.75) * Double.fin 2.6666666)

/-! ## ColorMap: the colour strategies given by tables -/

/-- The function `mix(a, b, c)`. -/
def mix (a b c : Double) : Double :=
  a * (Double.fin 1 - c) + b * c

/-- The elements of a static colour vector, each built with `ColorRGB(r, g, b)`. -/
def colorVector (env : Externals) (v : List (ℚ × ℚ × ℚ)) : List ColorRGB :=
  v.map (fun c => ColorRGB.rgb env (Double.fin c.1) (Double.fin c.2.1) (Double.fin c.2.2))

/-- The function `readColorFromArray(v, f)`. -/
def readColorFromArray (env : Externals) (v : List ColorRGB) (f : Double) : ColorRGB :=
  let segments : Int := (v.length : Int) - 1
  let m : Double := f * Double.ofInt segments
  let index : Int := m.toInt env
  let c0 := readColor env v index
  let c1 := readColor env v (min (index + 1) segments)
  let m1 : Double := m - Double.ofInt index
  ColorRGB.rgb env (mix c0.r c1.r m1) (mix c0.g c1.g m1) (mix c0.b c1.b m1)

/-- The static vector `v` of `detail::PinkWhiteBlue::getColorMapVal`, as red, green, blue triples. -/
def detail.PinkWhiteBlue.v : List (ℚ × ℚ × ℚ) :=
  [
    (0.800000, 0.000000, 0.600000), (0.807843, 0.058824, 0.623529), (0.815686, 0.125490, 0.643137), (0.823529, 0.188235, 0.666667),
    (0.827451, 0.254902, 0.686275), (0.835294, 0.317647, 0.709804), (0.843137, 0.384314, 0.729412), (0.850980, 0.447059, 0.752941),
    (0.858824, 0.513726, 0.772549), (0.866667, 0.576471, 0.796078), (0.874510, 0.643137, 0.815686), (0.878431, 0.705882, 0.839216),
    (0.886275, 0.768627, 0.858824), (0.894118, 0.835294, 0.882353), (1.000000, 1.000000, 1.000000), (0.835294, 0.835294, 1.000000),
    (0.768627, 0.768627, 1.000000), (0.705882, 0.705882, 1.000000), (0.643137, 0.643137, 1.000000), (0.576471, 0.576471, 1.000000),
    (0.513726, 0.513726, 1.000000), (0.447059, 0.447059, 1.000000), (0.384314, 0.384314, 1.000000), (0.317647, 0.317647, 1.000000),
    (0.254902, 0.254902, 1.000000), (0.188235, 0.188235, 1.000000), (0.125490, 0.125490, 1.000000), (0.058824, 0.058824, 1.000000),
    (0.000000, 0.000000, 1.000000)
  ]

/-- The static vector `v` of `detail::Lighthue::getColorMapVal`, as red, green, blue triples. -/
def detail.Lighthue.v : List (ℚ × ℚ × ℚ) :=
  [
    (0.25098, 0.25098, 0.25098), (0.25098, 0.313725, 0.329412), (0.25098, 0.309804, 0.360784), (0.25098, 0.282353, 0.435294),
    (0.25098, 0.25098, 0.4), (0.313725, 0.25098, 0.423529), (0.313725, 0.25098, 0.423529), (0.360784, 0.25098, 0.431373),
    (0.462745, 0.25098, 0.47451), (0.513725, 0.25098, 0.454902), (0.521569, 0.25098, 0.392157), (0.596078, 0.25098, 0.329412),
    (0.682353, 0.270588, 0.270588), (0.701961, 0.309804, 0.25098), (0.741176, 0.392157, 0.25098), (0.752941, 0.596078, 0.321569),
    (0.752941, 0.701961, 0.384314), (0.741176, 0.752941, 0.486275), (0.721569, 0.74902, 0.592157)
  ]

/-- The static vector `v` of `detail::Don::getColorMapVal`, as red, green, blue triples. -/
def detail.Don.v : List (ℚ × ℚ × ℚ) :=
  [
    (0, 0.352941, 1), (0.2, 0.407843, 1), (0.403922, 0.458824, 1), (0.65098, 0.513725, 0.960784),
    (0.709804, 0.509804, 0.847059), (0.752941, 0.505882, 0.729412), (0.772549, 0.501961, 0.67451), (0.901961, 0.494118, 0.384314),
    (0.941176, 0.494118, 0.192157), (1, 0.521569, 0)
  ]

/-- The static vector `v` of `detail::RedTint::getColorMapVal`, as red, green, blue triples. -/
def detail.RedTint.v : List (ℚ × ℚ × ℚ) :=
  [
    (0.0784314, 0, 0), (1, 0.921569, 0.921569)
  ]

/-- The static vector `v` of `detail::OrangeTint::getColorMapVal`, as red, green, blue triples. -/
def detail.OrangeTint.v : List (ℚ × ℚ × ℚ) :=
  [
    (0.0784314, 0.0392157, 0), (1, 0.960784, 0.921569)
  ]

/-- The static vector `v` of `detail::YellowTint::getColorMapVal`, as red, green, blue triples. -/
def detail.YellowTint.v : List (ℚ × ℚ × ℚ) :=
  [
    (0.0784314, 0.0784314, 0), (1, 1, 0.921569)
  ]

/-- The static vector `v` of `detail::GreenTint::getColorMapVal`, as red, green, blue triples. -/
def detail.GreenTint.v : List (ℚ × ℚ × ℚ) :=
  [
    (0, 0.0784314, 0), (0.921569, 1, 0.921569)
  ]

/-- The static vector `v` of `detail::CyanTint::getColorMapVal`, as red, green, blue triples. -/
def detail.CyanTint.v : List (ℚ × ℚ × ℚ) :=
  [
    (0, 0.0784314, 0.0784314), (0.921569, 1, 1)
  ]

/-- The static vector `v` of `detail::BlueTint::getColorMapVal`, as red, green, blue triples. -/
def detail.BlueTint.v : List (ℚ × ℚ × ℚ) :=
  [
    (0, 0, 0.0784314), (0.921569, 0.921569, 1)
  ]

/-- The static vector `v` of `detail::PurpleTint::getColorMapVal`, as red, green, blue triples. -/
def detail.PurpleTint.v : List (ℚ × ℚ × ℚ) :=
  [
    (0.0392157, 0, 0.0784314), (0.960784, 0.921569, 1)
  ]

/-- The static vector `v` of `detail::Turbo::getColorMapVal`, as red, green, blue triples. -/
def detail.Turbo.v : List (ℚ × ℚ × ℚ) :=
  [
    (0.18995, 0.07176, 0.23217), (0.19483, 0.08339, 0.26149), (0.19956, 0.09498, 0.29024), (0.20415, 0.10652, 0.31844),
    (0.20860, 0.11802, 0.34607), (0.21291, 0.12947, 0.37314), (0.21708, 0.14087, 0.39964), (0.22111, 0.15223, 0.42558),
    (0.22500, 0.16354, 0.45096), (0.22875, 0.17481, 0.47578), (0.23236, 0.18603, 0.50004), (0.23582, 0.19720, 0.52373),
    (0.23915, 0.20833, 0.54686), (0.24234, 0.21941, 0.56942), (0.24539, 0.23044, 0.59142), (0.24830, 0.24143, 0.61286),
    (0.25107, 0.25237, 0.63374), (0.25369, 0.26327, 0.65406), (0.25618, 0.27412, 0.67381), (0.25853, 0.28492, 0.69300),
    (0.26074, 0.29568, 0.71162), (0.26280, 0.30639, 0.72968), (0.26473, 0.31706, 0.74718), (0.26652, 0.32768, 0.76412),
    (0.26816, 0.33825, 0.78050), (0.26967, 0.34878, 0.79631), (0.27103, 0.35926, 0.81156), (0.27226, 0.36970, 0.82624),
    (0.27334, 0.38008, 0.84037), (0.27429, 0.39043, 0.85393), (0.27509, 0.40072, 0.86692), (0.27576, 0.41097, 0.87936),
    (0.27628, 0.42118, 0.89123), (0.27667, 0.43134, 0.90254), (0.27691, 0.44145, 0.91328), (0.27701, 0.45152, 0.92347),
    (0.27698, 0.46153, 0.93309), (0.27680, 0.47151, 0.94214), (0.27648, 0.48144, 0.95064), (0.27603, 0.49132, 0.95857),
    (0.27543, 0.50115, 0.96594), (0.27469, 0.51094, 0.97275), (0.27381, 0.52069, 0.97899), (0.27273, 0.53040, 0.98461),
    (0.27106, 0.54015, 0.98930), (0.26878, 0.54995, 0.99303), (0.26592, 0.55979, 0.99583), (0.26252, 0.56967, 0.99773),
    (0.25862, 0.57958, 0.99876), (0.25425, 0.58950, 0.99896), (0.24946, 0.59943, 0.99835), (0.24427, 0.60937, 0.99697),
    (0.23874, 0.61931, 0.99485), (0.23288, 0.62923, 0.99202), (0.22676, 0.63913, 0.98851), (0.22039, 0.64901, 0.98436),
    (0.21382, 0.65886, 0.97959), (0.20708, 0.66866, 0.97423), (0.20021, 0.67842, 0.96833), (0.19326, 0.68812, 0.96190),
    (0.18625, 0.69775, 0.95498), (0.17923, 0.70732, 0.94761), (0.17223, 0.71680, 0.93981), (0.16529, 0.72620, 0.93161),
    (0.15844, 0.73551, 0.92305), (0.15173, 0.74472, 0.91416), (0.14519, 0.75381, 0.90496), (0.13886, 0.76279, 0.89550),
    (0.13278, 0.77165, 0.88580), (0.12698, 0.78037, 0.87590), (0.12151, 0.78896, 0.86581), (0.11639, 0.79740, 0.85559),
    (0.11167, 0.80569, 0.84525), (0.10738, 0.81381, 0.83484), (0.10357, 0.82177, 0.82437), (0.10026, 0.82955, 0.81389),
    (0.09750, 0.83714, 0.80342), (0.09532, 0.84455, 0.79299), (0.09377, 0.85175, 0.78264), (0.09287, 0.85875, 0.77240),
    (0.09267, 0.86554, 0.76230), (0.09320, 0.87211, 0.75237), (0.09451, 0.87844, 0.74265), (0.09662, 0.88454, 0.73316),
    (0.09958, 0.89040, 0.72393), (0.10342, 0.89600, 0.71500), (0.10815, 0.90142, 0.70599), (0.11374, 0.90673, 0.69651),
    (0.12014, 0.91193, 0.68660), (0.12733, 0.91701, 0.67627), (0.13526, 0.92197, 0.66556), (0.14391, 0.92680, 0.65448),
    (0.15323, 0.93151, 0.64308), (0.16319, 0.93609, 0.63137), (0.17377, 0.94053, 0.61938), (0.18491, 0.94484, 0.60713),
    (0.19659, 0.94901, 0.59466), (0.20877, 0.95304, 0.58199), (0.22142, 0.95692, 0.56914), (0.23449, 0.96065, 0.55614),
    (0.24797, 0.96423, 0.54303), (0.26180, 0.96765, 0.52981), (0.27597, 0.97092, 0.51653), (0.29042, 0.97403, 0.50321),
    (0.30513, 0.97697, 0.48987), (0.32006, 0.97974, 0.47654), (0.33517, 0.98234, 0.46325), (0.35043, 0.98477, 0.45002),
    (0.36581, 0.98702, 0.43688), (0.38127, 0.98909, 0.42386), (0.39678, 0.99098, 0.41098), (0.41229, 0.99268, 0.39826),
    (0.42778, 0.99419, 0.38575), (0.44321, 0.99551, 0.37345), (0.45854, 0.99663, 0.36140), (0.47375, 0.99755, 0.34963),
    (0.48879, 0.99828, 0.33816), (0.50362, 0.99879, 0.32701), (0.51822, 0.99910, 0.31622), (0.53255, 0.99919, 0.30581),
    (0.54658, 0.99907, 0.29581), (0.56026, 0.99873, 0.28623), (0.57357, 0.99817, 0.27712), (0.58646, 0.99739, 0.26849),
    (0.59891, 0.99638, 0.26038), (0.61088, 0.99514, 0.25280), (0.62233, 0.99366, 0.24579), (0.63323, 0.99195, 0.23937),
    (0.64362, 0.98999, 0.23356), (0.65394, 0.98775, 0.22835), (0.66428, 0.98524, 0.22370), (0.67462, 0.98246, 0.21960),
    (0.68494, 0.97941, 0.21602), (0.69525, 0.97610, 0.21294), (0.70553, 0.97255, 0.21032), (0.71577, 0.96875, 0.20815),
    (0.72596, 0.96470, 0.20640), (0.73610, 0.96043, 0.20504), (0.74617, 0.95593, 0.20406), (0.75617, 0.95121, 0.20343),
    (0.76608, 0.94627, 0.20311), (0.77591, 0.94113, 0.20310), (0.78563, 0.93579, 0.20336), (0.79524, 0.93025, 0.20386),
    (0.80473, 0.92452, 0.20459), (0.81410, 0.91861, 0.20552), (0.82333, 0.91253, 0.20663), (0.83241, 0.90627, 0.20788),
    (0.84133, 0.89986, 0.20926), (0.85010, 0.89328, 0.21074), (0.85868, 0.88655, 0.21230), (0.86709, 0.87968, 0.21391),
    (0.87530, 0.87267, 0.21555), (0.88331, 0.86553, 0.21719), (0.89112, 0.85826, 0.21880), (0.89870, 0.85087, 0.22038),
    (0.90605, 0.84337, 0.22188), (0.91317, 0.83576, 0.22328), (0.92004, 0.82806, 0.22456), (0.92666, 0.82025, 0.22570),
    (0.93301, 0.81236, 0.22667), (0.93909, 0.80439, 0.22744), (0.94489, 0.79634, 0.22800), (0.95039, 0.78823, 0.22831),
    (0.95560, 0.78005, 0.22836), (0.96049, 0.77181, 0.22811), (0.96507, 0.76352, 0.22754), (0.96931, 0.75519, 0.22663),
    (0.97323, 0.74682, 0.22536), (0.97679, 0.73842, 0.22369), (0.98000, 0.73000, 0.22161), (0.98289, 0.72140, 0.21918),
    (0.98549, 0.71250, 0.21650), (0.98781, 0.70330, 0.21358), (0.98986, 0.69382, 0.21043), (0.99163, 0.68408, 0.20706),
    (0.99314, 0.67408, 0.20348), (0.99438, 0.66386, 0.19971), (0.99535, 0.65341, 0.19577), (0.99607, 0.64277, 0.19165),
    (0.99654, 0.63193, 0.18738), (0.99675, 0.62093, 0.18297), (0.99672, 0.60977, 0.17842), (0.99644, 0.59846, 0.17376),
    (0.99593, 0.58703, 0.16899), (0.99517, 0.57549, 0.16412), (0.99419, 0.56386, 0.15918), (0.99297, 0.55214, 0.15417),
    (0.99153, 0.54036, 0.14910), (0.98987, 0.52854, 0.14398), (0.98799, 0.51667, 0.13883), (0.98590, 0.50479, 0.13367),
    (0.98360, 0.49291, 0.12849), (0.98108, 0.48104, 0.12332), (0.97837, 0.46920, 0.11817), (0.97545, 0.45740, 0.11305),
    (0.97234, 0.44565, 0.10797), (0.96904, 0.43399, 0.10294), (0.96555, 0.42241, 0.09798), (0.96187, 0.41093, 0.09310),
    (0.95801, 0.39958, 0.08831), (0.95398, 0.38836, 0.08362), (0.94977, 0.37729, 0.07905), (0.94538, 0.36638, 0.07461),
    (0.94084, 0.35566, 0.07031), (0.93612, 0.34513, 0.06616), (0.93125, 0.33482, 0.06218), (0.92623, 0.32473, 0.05837),
    (0.92105, 0.31489, 0.05475), (0.91572, 0.30530, 0.05134), (0.91024, 0.29599, 0.04814), (0.90463, 0.28696, 0.04516),
    (0.89888, 0.27824, 0.04243), (0.89298, 0.26981, 0.03993), (0.88691, 0.26152, 0.03753), (0.88066, 0.25334, 0.03521),
    (0.87422, 0.24526, 0.03297), (0.86760, 0.23730, 0.03082), (0.86079, 0.22945, 0.02875), (0.85380, 0.22170, 0.02677),
    (0.84662, 0.21407, 0.02487), (0.83926, 0.20654, 0.02305), (0.83172, 0.19912, 0.02131), (0.82399, 0.19182, 0.01966),
    (0.81608, 0.18462, 0.01809), (0.80799, 0.17753, 0.01660), (0.79971, 0.17055, 0.01520), (0.79125, 0.16368, 0.01387),
    (0.78260, 0.15693, 0.01264), (0.77377, 0.15028, 0.01148), (0.76476, 0.14374, 0.01041), (0.75556, 0.13731, 0.00942),
    (0.74617, 0.13098, 0.00851), (0.73661, 0.12477, 0.00769), (0.72686, 0.11867, 0.00695), (0.71692, 0.11268, 0.00629),
    (0.70680, 0.10680, 0.00571), (0.69650, 0.10102, 0.00522), (0.68602, 0.09536, 0.00481), (0.67535, 0.08980, 0.00449),
    (0.66449, 0.08436, 0.00424), (0.65345, 0.07902, 0.00408), (0.64223, 0.07380, 0.00401), (0.63082, 0.06868, 0.00401),
    (0.61923, 0.06367, 0.00410), (0.60746, 0.05878, 0.00427), (0.59550, 0.05399, 0.00453), (0.58336, 0.04931, 0.00486),
    (0.57103, 0.04474, 0.00529), (0.55852, 0.04028, 0.00579), (0.54583, 0.03593, 0.00638), (0.53295, 0.03169, 0.00705),
    (0.51989, 0.02756, 0.00780), (0.50664, 0.02354, 0.00863), (0.49321, 0.01963, 0.00955), (0.47960, 0.01583, 0.01055)
  ]

/-- The static vector `v` of `detail::Magma::getColorMapVal`, as red, green, blue triples. -/
def detail.Magma.v : List (ℚ × ℚ × ℚ) :=
  [
    (0.001462, 0.000466, 0.013866), (0.002258, 0.001295, 0.018331), (0.003279, 0.002305, 0.023708), (0.004512, 0.003490, 0.029965),
    (0.005950, 0.004843, 0.037130), (0.007588, 0.006356, 0.044973), (0.009426, 0.008022, 0.052844), (0.011465, 0.009828, 0.060750),
    (0.013708, 0.011771, 0.068667), (0.016156, 0.013840, 0.076603), (0.018815, 0.016026, 0.084584), (0.021692, 0.018320, 0.092610),
    (0.024792, 0.020715, 0.100676), (0.028123, 0.023201, 0.108787), (0.031696, 0.025765, 0.116965), (0.035520, 0.028397, 0.125209),
    (0.039608, 0.031090, 0.133515), (0.043830, 0.033830, 0.141886), (0.048062, 0.036607, 0.150327), (0.052320, 0.039407, 0.158841),
    (0.056615, 0.042160, 0.167446), (0.060949, 0.044794, 0.176129), (0.065330, 0.047318, 0.184892), (0.069764, 0.049726, 0.193735),
    (0.074257, 0.052017, 0.202660), (0.078815, 0.054184, 0.211667), (0.083446, 0.056225, 0.220755), (0.088155, 0.058133, 0.229922),
    (0.092949, 0.059904, 0.239164), (0.097833, 0.061531, 0.248477), (0.102815, 0.063010, 0.257854), (0.107899, 0.064335, 0.267289),
    (0.113094, 0.065492, 0.276784), (0.118405, 0.066479, 0.286321), (0.123833, 0.067295, 0.295879), (0.129380, 0.067935, 0.305443),
    (0.135053, 0.068391, 0.315000), (0.140858, 0.068654, 0.324538), (0.146785, 0.068738, 0.334011), (0.152839, 0.068637, 0.343404),
    (0.159018, 0.068354, 0.352688), (0.165308, 0.067911, 0.361816), (0.171713, 0.067305, 0.370771), (0.178212, 0.066576, 0.379497),
    (0.184801, 0.065732, 0.387973), (0.191460, 0.064818, 0.396152), (0.198177, 0.063862, 0.404009), (0.204935, 0.062907, 0.411514),
    (0.211718, 0.061992, 0.418647), (0.218512, 0.061158, 0.425392), (0.225302, 0.060445, 0.431742), (0.232077, 0.059889, 0.437695),
    (0.238826, 0.059517, 0.443256), (0.245543, 0.059352, 0.448436), (0.252220, 0.059415, 0.453248), (0.258857, 0.059706, 0.457710),
    (0.265447, 0.060237, 0.461840), (0.271994, 0.060994, 0.465660), (0.278493, 0.061978, 0.469190), (0.284951, 0.063168, 0.472451),
    (0.291366, 0.064553, 0.475462), (0.297740, 0.066117, 0.478243), (0.304081, 0.067835, 0.480812), (0.310382, 0.069702, 0.483186),
    (0.316654, 0.071690, 0.485380), (0.322899, 0.073782, 0.487408), (0.329114, 0.075972, 0.489287), (0.335308, 0.078236, 0.491024),
    (0.341482, 0.080564, 0.492631), (0.347636, 0.082946, 0.494121), (0.353773, 0.085373, 0.495501), (0.359898, 0.087831, 0.496778),
    (0.366012, 0.090314, 0.497960), (0.372116, 0.092816, 0.499053), (0.378211, 0.095332, 0.500067), (0.384299, 0.097855, 0.501002),
    (0.390384, 0.100379, 0.501864), (0.396467, 0.102902, 0.502658), (0.402548, 0.105420, 0.503386), (0.408629, 0.107930, 0.504052),
    (0.414709, 0.110431, 0.504662), (0.420791, 0.112920, 0.505215), (0.426877, 0.115395, 0.505714), (0.432967, 0.117855, 0.506160),
    (0.439062, 0.120298, 0.506555), (0.445163, 0.122724, 0.506901), (0.451271, 0.125132, 0.507198), (0.457386, 0.127522, 0.507448),
    (0.463508, 0.129893, 0.507652), (0.469640, 0.132245, 0.507809), (0.475780, 0.134577, 0.507921), (0.481929, 0.136891, 0.507989),
    (0.488088, 0.139186, 0.508011), (0.494258, 0.141462, 0.507988), (0.500438, 0.143719, 0.507920), (0.506629, 0.145958, 0.507806),
    (0.512831, 0.148179, 0.507648), (0.519045, 0.150383, 0.507443), (0.525270, 0.152569, 0.507192), (0.531507, 0.154739, 0.506895),
    (0.537755, 0.156894, 0.506551), (0.544015, 0.159033, 0.506159), (0.550287, 0.161158, 0.505719), (0.556571, 0.163269, 0.505230),
    (0.562866, 0.165368, 0.504692), (0.569172, 0.167454, 0.504105), (0.575490, 0.169530, 0.503466), (0.581819, 0.171596, 0.502777),
    (0.588158, 0.173652, 0.502035), (0.594508, 0.175701, 0.501241), (0.600868, 0.177743, 0.500394), (0.607238, 0.179779, 0.499492),
    (0.613617, 0.181811, 0.498536), (0.620005, 0.183840, 0.497524), (0.626401, 0.185867, 0.496456), (0.632805, 0.187893, 0.495332),
    (0.639216, 0.189921, 0.494150), (0.645633, 0.191952, 0.492910), (0.652056, 0.193986, 0.491611), (0.658483, 0.196027, 0.490253),
    (0.664915, 0.198075, 0.488836), (0.671349, 0.200133, 0.487358), (0.677786, 0.202203, 0.485819), (0.684224, 0.204286, 0.484219),
    (0.690661, 0.206384, 0.482558), (0.697098, 0.208501, 0.480835), (0.703532, 0.210638, 0.479049), (0.709962, 0.212797, 0.477201),
    (0.716387, 0.214982, 0.475290), (0.722805, 0.217194, 0.473316), (0.729216, 0.219437, 0.471279), (0.735616, 0.221713, 0.469180),
    (0.742004, 0.224025, 0.467018), (0.748378, 0.226377, 0.464794), (0.754737, 0.228772, 0.462509), (0.761077, 0.231214, 0.460162),
    (0.767398, 0.233705, 0.457755), (0.773695, 0.236249, 0.455289), (0.779968, 0.238851, 0.452765), (0.786212, 0.241514, 0.450184),
    (0.792427, 0.244242, 0.447543), (0.798608, 0.247040, 0.444848), (0.804752, 0.249911, 0.442102), (0.810855, 0.252861, 0.439305),
    (0.816914, 0.255895, 0.436461), (0.822926, 0.259016, 0.433573), (0.828886, 0.262229, 0.430644), (0.834791, 0.265540, 0.427671),
    (0.840636, 0.268953, 0.424666), (0.846416, 0.272473, 0.421631), (0.852126, 0.276106, 0.418573), (0.857763, 0.279857, 0.415496),
    (0.863320, 0.283729, 0.412403), (0.868793, 0.287728, 0.409303), (0.874176, 0.291859, 0.406205), (0.879464, 0.296125, 0.403118),
    (0.884651, 0.300530, 0.400047), (0.889731, 0.305079, 0.397002), (0.894700, 0.309773, 0.393995), (0.899552, 0.314616, 0.391037),
    (0.904281, 0.319610, 0.388137), (0.908884, 0.324755, 0.385308), (0.913354, 0.330052, 0.382563), (0.917689, 0.335500, 0.379915),
    (0.921884, 0.341098, 0.377376), (0.925937, 0.346844, 0.374959), (0.929845, 0.352734, 0.372677), (0.933606, 0.358764, 0.370541),
    (0.937221, 0.364929, 0.368567), (0.940687, 0.371224, 0.366762), (0.944006, 0.377643, 0.365136), (0.947180, 0.384178, 0.363701),
    (0.950210, 0.390820, 0.362468), (0.953099, 0.397563, 0.361438), (0.955849, 0.404400, 0.360619), (0.958464, 0.411324, 0.360014),
    (0.960949, 0.418323, 0.359630), (0.963310, 0.425390, 0.359469), (0.965549, 0.432519, 0.359529), (0.967671, 0.439703, 0.359810),
    (0.969680, 0.446936, 0.360311), (0.971582, 0.454210, 0.361030), (0.973381, 0.461520, 0.361965), (0.975082, 0.468861, 0.363111),
    (0.976690, 0.476226, 0.364466), (0.978210, 0.483612, 0.366025), (0.979645, 0.491014, 0.367783), (0.981000, 0.498428, 0.369734),
    (0.982279, 0.505851, 0.371874), (0.983485, 0.513280, 0.374198), (0.984622, 0.520713, 0.376698), (0.985693, 0.528148, 0.379371),
    (0.986700, 0.535582, 0.382210), (0.987646, 0.543015, 0.385210), (0.988533, 0.550446, 0.388365), (0.989363, 0.557873, 0.391671),
    (0.990138, 0.565296, 0.395122), (0.990871, 0.572706, 0.398714), (0.991558, 0.580107, 0.402441), (0.992196, 0.587502, 0.406299),
    (0.992785, 0.594891, 0.410283), (0.993326, 0.602275, 0.414390), (0.993834, 0.609644, 0.418613), (0.994309, 0.616999, 0.422950),
    (0.994738, 0.624350, 0.427397), (0.995122, 0.631696, 0.431951), (0.995480, 0.639027, 0.436607), (0.995810, 0.646344, 0.441361),
    (0.996096, 0.653659, 0.446213), (0.996341, 0.660969, 0.451160), (0.996580, 0.668256, 0.456192), (0.996775, 0.675541, 0.461314),
    (0.996925, 0.682828, 0.466526), (0.997077, 0.690088, 0.471811), (0.997186, 0.697349, 0.477182), (0.997254, 0.704611, 0.482635),
    (0.997325, 0.711848, 0.488154), (0.997351, 0.719089, 0.493755), (0.997351, 0.726324, 0.499428), (0.997341, 0.733545, 0.505167),
    (0.997285, 0.740772, 0.510983), (0.997228, 0.747981, 0.516859), (0.997138, 0.755190, 0.522806), (0.997019, 0.762398, 0.528821),
    (0.996898, 0.769591, 0.534892), (0.996727, 0.776795, 0.541039), (0.996571, 0.783977, 0.547233), (0.996369, 0.791167, 0.553499),
    (0.996162, 0.798348, 0.559820), (0.995932, 0.805527, 0.566202), (0.995680, 0.812706, 0.572645), (0.995424, 0.819875, 0.579140),
    (0.995131, 0.827052, 0.585701), (0.994851, 0.834213, 0.592307), (0.994524, 0.841387, 0.598983), (0.994222, 0.848540, 0.605696),
    (0.993866, 0.855711, 0.612482), (0.993545, 0.862859, 0.619299), (0.993170, 0.870024, 0.626189), (0.992831, 0.877168, 0.633109),
    (0.992440, 0.884330, 0.640099), (0.992089, 0.891470, 0.647116), (0.991688, 0.898627, 0.654202), (0.991332, 0.905763, 0.661309),
    (0.990930, 0.912915, 0.668481), (0.990570, 0.920049, 0.675675), (0.990175, 0.927196, 0.682926), (0.989815, 0.934329, 0.690198),
    (0.989434, 0.941470, 0.697519), (0.989077, 0.948604, 0.704863), (0.988717, 0.955742, 0.712242), (0.988367, 0.962878, 0.719649),
    (0.988033, 0.970012, 0.727077), (0.987691, 0.977154, 0.734536), (0.987387, 0.984288, 0.742002), (0.987053, 0.991438, 0.749504)
  ]

/-- The static vector `v` of `detail::Inferno::getColorMapVal`, as red, green, blue triples. -/
def detail.Inferno.v : List (ℚ × ℚ × ℚ) :=
  [
    (0.001462, 0.000466, 0.013866), (0.002267, 0.001270, 0.018570), (0.003299, 0.002249, 0.024239), (0.004547, 0.003392, 0.030909),
    (0.006006, 0.004692, 0.038558), (0.007676, 0.006136, 0.046836), (0.009561, 0.007713, 0.055143), (0.011663, 0.009417, 0.063460),
    (0.013995, 0.011225, 0.071862), (0.016561, 0.013136, 0.080282), (0.019373, 0.015133, 0.088767), (0.022447, 0.017199, 0.097327),
    (0.025793, 0.019331, 0.105930), (0.029432, 0.021503, 0.114621), (0.033385, 0.023702, 0.123397), (0.037668, 0.025921, 0.132232),
    (0.042253, 0.028139, 0.141141), (0.046915, 0.030324, 0.150164), (0.051644, 0.032474, 0.159254), (0.056449, 0.034569, 0.168414),
    (0.061340, 0.036590, 0.177642), (0.066331, 0.038504, 0.186962), (0.071429, 0.040294, 0.196354), (0.076637, 0.041905, 0.205799),
    (0.081962, 0.043328, 0.215289), (0.087411, 0.044556, 0.224813), (0.092990, 0.045583, 0.234358), (0.098702, 0.046402, 0.243904),
    (0.104551, 0.047008, 0.253430), (0.110536, 0.047399, 0.262912), (0.116656, 0.047574, 0.272321), (0.122908, 0.047536, 0.281624),
    (0.129285, 0.047293, 0.290788), (0.135778, 0.046856, 0.299776), (0.142378, 0.046242, 0.308553), (0.149073, 0.045468, 0.317085),
    (0.155850, 0.044559, 0.325338), (0.162689, 0.043554, 0.333277), (0.169575, 0.042489, 0.340874), (0.176493, 0.041402, 0.348111),
    (0.183429, 0.040329, 0.354971), (0.190367, 0.039309, 0.361447), (0.197297, 0.038400, 0.367535), (0.204209, 0.037632, 0.373238),
    (0.211095, 0.037030, 0.378563), (0.217949, 0.036615, 0.383522), (0.224763, 0.036405, 0.388129), (0.231538, 0.036405, 0.392400),
    (0.238273, 0.036621, 0.396353), (0.244967, 0.037055, 0.400007), (0.251620, 0.037705, 0.403378), (0.258234, 0.038571, 0.406485),
    (0.264810, 0.039647, 0.409345), (0.271347, 0.040922, 0.411976), (0.277850, 0.042353, 0.414392), (0.284321, 0.043933, 0.416608),
    (0.290763, 0.045644, 0.418637), (0.297178, 0.047470, 0.420491), (0.303568, 0.049396, 0.422182), (0.309935, 0.051407, 0.423721),
    (0.316282, 0.053490, 0.425116), (0.322610, 0.055634, 0.426377), (0.328921, 0.057827, 0.427511), (0.335217, 0.060060, 0.428524),
    (0.341500, 0.062325, 0.429425), (0.347771, 0.064616, 0.430217), (0.354032, 0.066925, 0.430906), (0.360284, 0.069247, 0.431497),
    (0.366529, 0.071579, 0.431994), (0.372768, 0.073915, 0.432400), (0.379001, 0.076253, 0.432719), (0.385228, 0.078591, 0.432955),
    (0.391453, 0.080927, 0.433109), (0.397674, 0.083257, 0.433183), (0.403894, 0.085580, 0.433179), (0.410113, 0.087896, 0.433098),
    (0.416331, 0.090203, 0.432943), (0.422549, 0.092501, 0.432714), (0.428768, 0.094790, 0.432412), (0.434987, 0.097069, 0.432039),
    (0.441207, 0.099338, 0.431594), (0.447428, 0.101597, 0.431080), (0.453651, 0.103848, 0.430498), (0.459875, 0.106089, 0.429846),
    (0.466100, 0.108322, 0.429125), (0.472328, 0.110547, 0.428334), (0.478558, 0.112764, 0.427475), (0.484789, 0.114974, 0.426548),
    (0.491022, 0.117179, 0.425552), (0.497257, 0.119379, 0.424488), (0.503493, 0.121575, 0.423356), (0.509730, 0.123769, 0.422156),
    (0.515967, 0.125960, 0.420887), (0.522206, 0.128150, 0.419549), (0.528444, 0.130341, 0.418142), (0.534683, 0.132534, 0.416667),
    (0.540920, 0.134729, 0.415123), (0.547157, 0.136929, 0.413511), (0.553392, 0.139134, 0.411829), (0.559624, 0.141346, 0.410078),
    (0.565854, 0.143567, 0.408258), (0.572081, 0.145797, 0.406369), (0.578304, 0.148039, 0.404411), (0.584521, 0.150294, 0.402385),
    (0.590734, 0.152563, 0.400290), (0.596940, 0.154848, 0.398125), (0.603139, 0.157151, 0.395891), (0.609330, 0.159474, 0.393589),
    (0.615513, 0.161817, 0.391219), (0.621685, 0.164184, 0.388781), (0.627847, 0.166575, 0.386276), (0.633998, 0.168992, 0.383704),
    (0.640135, 0.171438, 0.381065), (0.646260, 0.173914, 0.378359), (0.652369, 0.176421, 0.375586), (0.658463, 0.178962, 0.372748),
    (0.664540, 0.181539, 0.369846), (0.670599, 0.184153, 0.366879), (0.676638, 0.186807, 0.363849), (0.682656, 0.189501, 0.360757),
    (0.688653, 0.192239, 0.357603), (0.694627, 0.195021, 0.354388), (0.700576, 0.197851, 0.351113), (0.706500, 0.200728, 0.347777),
    (0.712396, 0.203656, 0.344383), (0.718264, 0.206636, 0.340931), (0.724103, 0.209670, 0.337424), (0.729909, 0.212759, 0.333861),
    (0.735683, 0.215906, 0.330245), (0.741423, 0.219112, 0.326576), (0.747127, 0.222378, 0.322856), (0.752794, 0.225706, 0.319085),
    (0.758422, 0.229097, 0.315266), (0.764010, 0.232554, 0.311399), (0.769556, 0.236077, 0.307485), (0.775059, 0.239667, 0.303526),
    (0.780517, 0.243327, 0.299523), (0.785929, 0.247056, 0.295477), (0.791293, 0.250856, 0.291390), (0.796607, 0.254728, 0.287264),
    (0.801871, 0.258674, 0.283099), (0.807082, 0.262692, 0.278898), (0.812239, 0.266786, 0.274661), (0.817341, 0.270954, 0.270390),
    (0.822386, 0.275197, 0.266085), (0.827372, 0.279517, 0.261750), (0.832299, 0.283913, 0.257383), (0.837165, 0.288385, 0.252988),
    (0.841969, 0.292933, 0.248564), (0.846709, 0.297559, 0.244113), (0.851384, 0.302260, 0.239636), (0.855992, 0.307038, 0.235133),
    (0.860533, 0.311892, 0.230606), (0.865006, 0.316822, 0.226055), (0.869409, 0.321827, 0.221482), (0.873741, 0.326906, 0.216886),
    (0.878001, 0.332060, 0.212268), (0.882188, 0.337287, 0.207628), (0.886302, 0.342586, 0.202968), (0.890341, 0.347957, 0.198286),
    (0.894305, 0.353399, 0.193584), (0.898192, 0.358911, 0.188860), (0.902003, 0.364492, 0.184116), (0.905735, 0.370140, 0.179350),
    (0.909390, 0.375856, 0.174563), (0.912966, 0.381636, 0.169755), (0.916462, 0.387481, 0.164924), (0.919879, 0.393389, 0.160070),
    (0.923215, 0.399359, 0.155193), (0.926470, 0.405389, 0.150292), (0.929644, 0.411479, 0.145367), (0.932737, 0.417627, 0.140417),
    (0.935747, 0.423831, 0.135440), (0.938675, 0.430091, 0.130438), (0.941521, 0.436405, 0.125409), (0.944285, 0.442772, 0.120354),
    (0.946965, 0.449191, 0.115272), (0.949562, 0.455660, 0.110164), (0.952075, 0.462178, 0.105031), (0.954506, 0.468744, 0.099874),
    (0.956852, 0.475356, 0.094695), (0.959114, 0.482014, 0.089499), (0.961293, 0.488716, 0.084289), (0.963387, 0.495462, 0.079073),
    (0.965397, 0.502249, 0.073859), (0.967322, 0.509078, 0.068659), (0.969163, 0.515946, 0.063488), (0.970919, 0.522853, 0.058367),
    (0.972590, 0.529798, 0.053324), (0.974176, 0.536780, 0.048392), (0.975677, 0.543798, 0.043618), (0.977092, 0.550850, 0.039050),
    (0.978422, 0.557937, 0.034931), (0.979666, 0.565057, 0.031409), (0.980824, 0.572209, 0.028508), (0.981895, 0.579392, 0.026250),
    (0.982881, 0.586606, 0.024661), (0.983779, 0.593849, 0.023770), (0.984591, 0.601122, 0.023606), (0.985315, 0.608422, 0.024202),
    (0.985952, 0.615750, 0.025592), (0.986502, 0.623105, 0.027814), (0.986964, 0.630485, 0.030908), (0.987337, 0.637890, 0.034916),
    (0.987622, 0.645320, 0.039886), (0.987819, 0.652773, 0.045581), (0.987926, 0.660250, 0.051750), (0.987945, 0.667748, 0.058329),
    (0.987874, 0.675267, 0.065257), (0.987714, 0.682807, 0.072489), (0.987464, 0.690366, 0.079990), (0.987124, 0.697944, 0.087731),
    (0.986694, 0.705540, 0.095694), (0.986175, 0.713153, 0.103863), (0.985566, 0.720782, 0.112229), (0.984865, 0.728427, 0.120785),
    (0.984075, 0.736087, 0.129527), (0.983196, 0.743758, 0.138453), (0.982228, 0.751442, 0.147565), (0.981173, 0.759135, 0.156863),
    (0.980032, 0.766837, 0.166353), (0.978806, 0.774545, 0.176037), (0.977497, 0.782258, 0.185923), (0.976108, 0.789974, 0.196018),
    (0.974638, 0.797692, 0.206332), (0.973088, 0.805409, 0.216877), (0.971468, 0.813122, 0.227658), (0.969783, 0.820825, 0.238686),
    (0.968041, 0.828515, 0.249972), (0.966243, 0.836191, 0.261534), (0.964394, 0.843848, 0.273391), (0.962517, 0.851476, 0.285546),
    (0.960626, 0.859069, 0.298010), (0.958720, 0.866624, 0.310820), (0.956834, 0.874129, 0.323974), (0.954997, 0.881569, 0.337475),
    (0.953215, 0.888942, 0.351369), (0.951546, 0.896226, 0.365627), (0.950018, 0.903409, 0.380271), (0.948683, 0.910473, 0.395289),
    (0.947594, 0.917399, 0.410665), (0.946809, 0.924168, 0.426373), (0.946392, 0.930761, 0.442367), (0.946403, 0.937159, 0.458592),
    (0.946903, 0.943348, 0.474970), (0.947937, 0.949318, 0.491426), (0.949545, 0.955063, 0.507860), (0.951740, 0.960587, 0.524203),
    (0.954529, 0.965896, 0.540361), (0.957896, 0.971003, 0.556275), (0.961812, 0.975924, 0.571925), (0.966249, 0.980678, 0.587206),
    (0.971162, 0.985282, 0.602154), (0.976511, 0.989753, 0.616760), (0.982257, 0.994109, 0.631017), (0.988362, 0.998364, 0.644924)
  ]

/-- The static vector `v` of `detail::Plasma::getColorMapVal`, as red, green, blue triples. -/
def detail.Plasma.v : List (ℚ × ℚ × ℚ) :=
  [
    (0.050383, 0.029803, 0.527975), (0.063536, 0.028426, 0.533124), (0.075353, 0.027206, 0.538007), (0.086222, 0.026125, 0.542658),
    (0.096379, 0.025165, 0.547103), (0.105980, 0.024309, 0.551368), (0.115124, 0.023556, 0.555468), (0.123903, 0.022878, 0.559423),
    (0.132381, 0.022258, 0.563250), (0.140603, 0.021687, 0.566959), (0.148607, 0.021154, 0.570562), (0.156421, 0.020651, 0.574065),
    (0.164070, 0.020171, 0.577478), (0.171574, 0.019706, 0.580806), (0.178950, 0.019252, 0.584054), (0.186213, 0.018803, 0.587228),
    (0.193374, 0.018354, 0.590330), (0.200445, 0.017902, 0.593364), (0.207435, 0.017442, 0.596333), (0.214350, 0.016973, 0.599239),
    (0.221197, 0.016497, 0.602083), (0.227983, 0.016007, 0.604867), (0.234715, 0.015502, 0.607592), (0.241396, 0.014979, 0.610259),
    (0.248032, 0.014439, 0.612868), (0.254627, 0.013882, 0.615419), (0.261183, 0.013308, 0.617911), (0.267703, 0.012716, 0.620346),
    (0.274191, 0.012109, 0.622722), (0.280648, 0.011488, 0.625038), (0.287076, 0.010855, 0.627295), (0.293478, 0.010213, 0.629490),
    (0.299855, 0.009561, 0.631624), (0.306210, 0.008902, 0.633694), (0.312543, 0.008239, 0.635700), (0.318856, 0.007576, 0.637640),
    (0.325150, 0.006915, 0.639512), (0.331426, 0.006261, 0.641316), (0.337683, 0.005618, 0.643049), (0.343925, 0.004991, 0.644710),
    (0.350150, 0.004382, 0.646298), (0.356359, 0.003798, 0.647810), (0.362553, 0.003243, 0.649245), (0.368733, 0.002724, 0.650601),
    (0.374897, 0.002245, 0.651876), (0.381047, 0.001814, 0.653068), (0.387183, 0.001434, 0.654177), (0.393304, 0.001114, 0.655199),
    (0.399411, 0.000859, 0.656133), (0.405503, 0.000678, 0.656977), (0.411580, 0.000577, 0.657730), (0.417642, 0.000564, 0.658390),
    (0.423689, 0.000646, 0.658956), (0.429719, 0.000831, 0.659425), (0.435734, 0.001127, 0.659797), (0.441732, 0.001540, 0.660069),
    (0.447714, 0.002080, 0.660240), (0.453677, 0.002755, 0.660310), (0.459623, 0.003574, 0.660277), (0.465550, 0.004545, 0.660139),
    (0.471457, 0.005678, 0.659897), (0.477344, 0.006980, 0.659549), (0.483210, 0.008460, 0.659095), (0.489055, 0.010127, 0.658534),
    (0.494877, 0.011990, 0.657865), (0.500678, 0.014055, 0.657088), (0.506454, 0.016333, 0.656202), (0.512206, 0.018833, 0.655209),
    (0.517933, 0.021563, 0.654109), (0.523633, 0.024532, 0.652901), (0.529306, 0.027747, 0.651586), (0.534952, 0.031217, 0.650165),
    (0.540570, 0.034950, 0.648640), (0.546157, 0.038954, 0.647010), (0.551715, 0.043136, 0.645277), (0.557243, 0.047331, 0.643443),
    (0.562738, 0.051545, 0.641509), (0.568201, 0.055778, 0.639477), (0.573632, 0.060028, 0.637349), (0.579029, 0.064296, 0.635126),
    (0.584391, 0.068579, 0.632812), (0.589719, 0.072878, 0.630408), (0.595011, 0.077190, 0.627917), (0.600266, 0.081516, 0.625342),
    (0.605485, 0.085854, 0.622686), (0.610667, 0.090204, 0.619951), (0.615812, 0.094564, 0.617140), (0.620919, 0.098934, 0.614257),
    (0.625987, 0.103312, 0.611305), (0.631017, 0.107699, 0.608287), (0.636008, 0.112092, 0.605205), (0.640959, 0.116492, 0.602065),
    (0.645872, 0.120898, 0.598867), (0.650746, 0.125309, 0.595617), (0.655580, 0.129725, 0.592317), (0.660374, 0.134144, 0.588971),
    (0.665129, 0.138566, 0.585582), (0.669845, 0.142992, 0.582154), (0.674522, 0.147419, 0.578688), (0.679160, 0.151848, 0.575189),
    (0.683758, 0.156278, 0.571660), (0.688318, 0.160709, 0.568103), (0.692840, 0.165141, 0.564522), (0.697324, 0.169573, 0.560919),
    (0.701769, 0.174005, 0.557296), (0.706178, 0.178437, 0.553657), (0.710549, 0.182868, 0.550004), (0.714883, 0.187299, 0.546338),
    (0.719181, 0.191729, 0.542663), (0.723444, 0.196158, 0.538981), (0.727670, 0.200586, 0.535293), (0.731862, 0.205013, 0.531601),
    (0.736019, 0.209439, 0.527908), (0.740143, 0.213864, 0.524216), (0.744232, 0.218288, 0.520524), (0.748289, 0.222711, 0.516834),
    (0.752312, 0.227133, 0.513149), (0.756304, 0.231555, 0.509468), (0.760264, 0.235976, 0.505794), (0.764193, 0.240396, 0.502126),
    (0.768090, 0.244817, 0.498465), (0.771958, 0.249237, 0.494813), (0.775796, 0.253658, 0.491171), (0.779604, 0.258078, 0.487539),
    (0.783383, 0.262500, 0.483918), (0.787133, 0.266922, 0.480307), (0.790855, 0.271345, 0.476706), (0.794549, 0.275770, 0.473117),
    (0.798216, 0.280197, 0.469538), (0.801855, 0.284626, 0.465971), (0.805467, 0.289057, 0.462415), (0.809052, 0.293491, 0.458870),
    (0.812612, 0.297928, 0.455338), (0.816144, 0.302368, 0.451816), (0.819651, 0.306812, 0.448306), (0.823132, 0.311261, 0.444806),
    (0.826588, 0.315714, 0.441316), (0.830018, 0.320172, 0.437836), (0.833422, 0.324635, 0.434366), (0.836801, 0.329105, 0.430905),
    (0.840155, 0.333580, 0.427455), (0.843484, 0.338062, 0.424013), (0.846788, 0.342551, 0.420579), (0.850066, 0.347048, 0.417153),
    (0.853319, 0.351553, 0.413734), (0.856547, 0.356066, 0.410322), (0.859750, 0.360588, 0.406917), (0.862927, 0.365119, 0.403519),
    (0.866078, 0.369660, 0.400126), (0.869203, 0.374212, 0.396738), (0.872303, 0.378774, 0.393355), (0.875376, 0.383347, 0.389976),
    (0.878423, 0.387932, 0.386600), (0.881443, 0.392529, 0.383229), (0.884436, 0.397139, 0.379860), (0.887402, 0.401762, 0.376494),
    (0.890340, 0.406398, 0.373130), (0.893250, 0.411048, 0.369768), (0.896131, 0.415712, 0.366407), (0.898984, 0.420392, 0.363047),
    (0.901807, 0.425087, 0.359688), (0.904601, 0.429797, 0.356329), (0.907365, 0.434524, 0.352970), (0.910098, 0.439268, 0.349610),
    (0.912800, 0.444029, 0.346251), (0.915471, 0.448807, 0.342890), (0.918109, 0.453603, 0.339529), (0.920714, 0.458417, 0.336166),
    (0.923287, 0.463251, 0.332801), (0.925825, 0.468103, 0.329435), (0.928329, 0.472975, 0.326067), (0.930798, 0.477867, 0.322697),
    (0.933232, 0.482780, 0.319325), (0.935630, 0.487712, 0.315952), (0.937990, 0.492667, 0.312575), (0.940313, 0.497642, 0.309197),
    (0.942598, 0.502639, 0.305816), (0.944844, 0.507658, 0.302433), (0.947051, 0.512699, 0.299049), (0.949217, 0.517763, 0.295662),
    (0.951344, 0.522850, 0.292275), (0.953428, 0.527960, 0.288883), (0.955470, 0.533093, 0.285490), (0.957469, 0.538250, 0.282096),
    (0.959424, 0.543431, 0.278701), (0.961336, 0.548636, 0.275305), (0.963203, 0.553865, 0.271909), (0.965024, 0.559118, 0.268513),
    (0.966798, 0.564396, 0.265118), (0.968526, 0.569700, 0.261721), (0.970205, 0.575028, 0.258325), (0.971835, 0.580382, 0.254931),
    (0.973416, 0.585761, 0.251540), (0.974947, 0.591165, 0.248151), (0.976428, 0.596595, 0.244767), (0.977856, 0.602051, 0.241387),
    (0.979233, 0.607532, 0.238013), (0.980556, 0.613039, 0.234646), (0.981826, 0.618572, 0.231287), (0.983041, 0.624131, 0.227937),
    (0.984199, 0.629718, 0.224595), (0.985301, 0.635330, 0.221265), (0.986345, 0.640969, 0.217948), (0.987332, 0.646633, 0.214648),
    (0.988260, 0.652325, 0.211364), (0.989128, 0.658043, 0.208100), (0.989935, 0.663787, 0.204859), (0.990681, 0.669558, 0.201642),
    (0.991365, 0.675355, 0.198453), (0.991985, 0.681179, 0.195295), (0.992541, 0.687030, 0.192170), (0.993032, 0.692907, 0.189084),
    (0.993456, 0.698810, 0.186041), (0.993814, 0.704741, 0.183043), (0.994103, 0.710698, 0.180097), (0.994324, 0.716681, 0.177208),
    (0.994474, 0.722691, 0.174381), (0.994553, 0.728728, 0.171622), (0.994561, 0.734791, 0.168938), (0.994495, 0.740880, 0.166335),
    (0.994355, 0.746995, 0.163821), (0.994141, 0.753137, 0.161404), (0.993851, 0.759304, 0.159092), (0.993482, 0.765499, 0.156891),
    (0.993033, 0.771720, 0.154808), (0.992505, 0.777967, 0.152855), (0.991897, 0.784239, 0.151042), (0.991209, 0.790537, 0.149377),
    (0.990439, 0.796859, 0.147870), (0.989587, 0.803205, 0.146529), (0.988648, 0.809579, 0.145357), (0.987621, 0.815978, 0.144363),
    (0.986509, 0.822401, 0.143557), (0.985314, 0.828846, 0.142945), (0.984031, 0.835315, 0.142528), (0.982653, 0.841812, 0.142303),
    (0.981190, 0.848329, 0.142279), (0.979644, 0.854866, 0.142453), (0.977995, 0.861432, 0.142808), (0.976265, 0.868016, 0.143351),
    (0.974443, 0.874622, 0.144061), (0.972530, 0.881250, 0.144923), (0.970533, 0.887896, 0.145919), (0.968443, 0.894564, 0.147014),
    (0.966271, 0.901249, 0.148180), (0.964021, 0.907950, 0.149370), (0.961681, 0.914672, 0.150520), (0.959276, 0.921407, 0.151566),
    (0.956808, 0.928152, 0.152409), (0.954287, 0.934908, 0.152921), (0.951726, 0.941671, 0.152925), (0.949151, 0.948435, 0.152178),
    (0.946602, 0.955190, 0.150328), (0.944152, 0.961916, 0.146861), (0.941896, 0.968590, 0.140956), (0.940015, 0.975158, 0.131326)
  ]

/-- The static vector `v` of `detail::Viridis::getColorMapVal`, as red, green, blue triples. -/
def detail.Viridis.v : List (ℚ × ℚ × ℚ) :=
  [
    (0.267004, 0.004874, 0.329415), (0.268510, 0.009605, 0.335427), (0.269944, 0.014625, 0.341379), (0.271305, 0.019942, 0.347269),
    (0.272594, 0.025563, 0.353093), (0.273809, 0.031497, 0.358853), (0.274952, 0.037752, 0.364543), (0.276022, 0.044167, 0.370164),
    (0.277018, 0.050344, 0.375715), (0.277941, 0.056324, 0.381191), (0.278791, 0.062145, 0.386592), (0.279566, 0.067836, 0.391917),
    (0.280267, 0.073417, 0.397163), (0.280894, 0.078907, 0.402329), (0.281446, 0.084320, 0.407414), (0.281924, 0.089666, 0.412415),
    (0.282327, 0.094955, 0.417331), (0.282656, 0.100196, 0.422160), (0.282910, 0.105393, 0.426902), (0.283091, 0.110553, 0.431554),
    (0.283197, 0.115680, 0.436115), (0.283229, 0.120777, 0.440584), (0.283187, 0.125848, 0.444960), (0.283072, 0.130895, 0.449241),
    (0.282884, 0.135920, 0.453427), (0.282623, 0.140926, 0.457517), (0.282290, 0.145912, 0.461510), (0.281887, 0.150881, 0.465405),
    (0.281412, 0.155834, 0.469201), (0.280868, 0.160771, 0.472899), (0.280255, 0.165693, 0.476498), (0.279574, 0.170599, 0.479997),
    (0.278826, 0.175490, 0.483397), (0.278012, 0.180367, 0.486697), (0.277134, 0.185228, 0.489898), (0.276194, 0.190074, 0.493001),
    (0.275191, 0.194905, 0.496005), (0.274128, 0.199721, 0.498911), (0.273006, 0.204520, 0.501721), (0.271828, 0.209303, 0.504434),
    (0.270595, 0.214069, 0.507052), (0.269308, 0.218818, 0.509577), (0.267968, 0.223549, 0.512008), (0.266580, 0.228262, 0.514349),
    (0.265145, 0.232956, 0.516599), (0.263663, 0.237631, 0.518762), (0.262138, 0.242286, 0.520837), (0.260571, 0.246922, 0.522828),
    (0.258965, 0.251537, 0.524736), (0.257322, 0.256130, 0.526563), (0.255645, 0.260703, 0.528312), (0.253935, 0.265254, 0.529983),
    (0.252194, 0.269783, 0.531579), (0.250425, 0.274290, 0.533103), (0.248629, 0.278775, 0.534556), (0.246811, 0.283237, 0.535941),
    (0.244972, 0.287675, 0.537260), (0.243113, 0.292092, 0.538516), (0.241237, 0.296485, 0.539709), (0.239346, 0.300855, 0.540844),
    (0.237441, 0.305202, 0.541921), (0.235526, 0.309527, 0.542944), (0.233603, 0.313828, 0.543914), (0.231674, 0.318106, 0.544834),
    (0.229739, 0.322361, 0.545706), (0.227802, 0.326594, 0.546532), (0.225863, 0.330805, 0.547314), (0.223925, 0.334994, 0.548053),
    (0.221989, 0.339161, 0.548752), (0.220057, 0.343307, 0.549413), (0.218130, 0.347432, 0.550038), (0.216210, 0.351535, 0.550627),
    (0.214298, 0.355619, 0.551184), (0.212395, 0.359683, 0.551710), (0.210503, 0.363727, 0.552206), (0.208623, 0.367752, 0.552675),
    (0.206756, 0.371758, 0.553117), (0.204903, 0.375746, 0.553533), (0.203063, 0.379716, 0.553925), (0.201239, 0.383670, 0.554294),
    (0.199430, 0.387607, 0.554642), (0.197636, 0.391528, 0.554969), (0.195860, 0.395433, 0.555276), (0.194100, 0.399323, 0.555565),
    (0.192357, 0.403199, 0.555836), (0.190631, 0.407061, 0.556089), (0.188923, 0.410910, 0.556326), (0.187231, 0.414746, 0.556547),
    (0.185556, 0.418570, 0.556753), (0.183898, 0.422383, 0.556944), (0.182256, 0.426184, 0.557120), (0.180629, 0.429975, 0.557282),
    (0.179019, 0.433756, 0.557430), (0.177423, 0.437527, 0.557565), (0.175841, 0.441290, 0.557685), (0.174274, 0.445044, 0.557792),
    (0.172719, 0.448791, 0.557885), (0.171176, 0.452530, 0.557965), (0.169646, 0.456262, 0.558030), (0.168126, 0.459988, 0.558082),
    (0.166617, 0.463708, 0.558119), (0.165117, 0.467423, 0.558141), (0.163625, 0.471133, 0.558148), (0.162142, 0.474838, 0.558140),
    (0.160665, 0.478540, 0.558115), (0.159194, 0.482237, 0.558073), (0.157729, 0.485932, 0.558013), (0.156270, 0.489624, 0.557936),
    (0.154815, 0.493313, 0.557840), (0.153364, 0.497000, 0.557724), (0.151918, 0.500685, 0.557587), (0.150476, 0.504369, 0.557430),
    (0.149039, 0.508051, 0.557250), (0.147607, 0.511733, 0.557049), (0.146180, 0.515413, 0.556823), (0.144759, 0.519093, 0.556572),
    (0.143343, 0.522773, 0.556295), (0.141935, 0.526453, 0.555991), (0.140536, 0.530132, 0.555659), (0.139147, 0.533812, 0.555298),
    (0.137770, 0.537492, 0.554906), (0.136408, 0.541173, 0.554483), (0.135066, 0.544853, 0.554029), (0.133743, 0.548535, 0.553541),
    (0.132444, 0.552216, 0.553018), (0.131172, 0.555899, 0.552459), (0.129933, 0.559582, 0.551864), (0.128729, 0.563265, 0.551229),
    (0.127568, 0.566949, 0.550556), (0.126453, 0.570633, 0.549841), (0.125394, 0.574318, 0.549086), (0.124395, 0.578002, 0.548287),
    (0.123463, 0.581687, 0.547445), (0.122606, 0.585371, 0.546557), (0.121831, 0.589055, 0.545623), (0.121148, 0.592739, 0.544641),
    (0.120565, 0.596422, 0.543611), (0.120092, 0.600104, 0.542530), (0.119738, 0.603785, 0.541400), (0.119512, 0.607464, 0.540218),
    (0.119423, 0.611141, 0.538982), (0.119483, 0.614817, 0.537692), (0.119699, 0.618490, 0.536347), (0.120081, 0.622161, 0.534946),
    (0.120638, 0.625828, 0.533488), (0.121380, 0.629492, 0.531973), (0.122312, 0.633153, 0.530398), (0.123444, 0.636809, 0.528763),
    (0.124780, 0.640461, 0.527068), (0.126326, 0.644107, 0.525311), (0.128087, 0.647749, 0.523491), (0.130067, 0.651384, 0.521608),
    (0.132268, 0.655014, 0.519661), (0.134692, 0.658636, 0.517649), (0.137339, 0.662252, 0.515571), (0.140210, 0.665859, 0.513427),
    (0.143303, 0.669459, 0.511215), (0.146616, 0.673050, 0.508936), (0.150148, 0.676631, 0.506589), (0.153894, 0.680203, 0.504172),
    (0.157851, 0.683765, 0.501686), (0.162016, 0.687316, 0.499129), (0.166383, 0.690856, 0.496502), (0.170948, 0.694384, 0.493803),
    (0.175707, 0.697900, 0.491033), (0.180653, 0.701402, 0.488189), (0.185783, 0.704891, 0.485273), (0.191090, 0.708366, 0.482284),
    (0.196571, 0.711827, 0.479221), (0.202219, 0.715272, 0.476084), (0.208030, 0.718701, 0.472873), (0.214000, 0.722114, 0.469588),
    (0.220124, 0.725509, 0.466226), (0.226397, 0.728888, 0.462789), (0.232815, 0.732247, 0.459277), (0.239374, 0.735588, 0.455688),
    (0.246070, 0.738910, 0.452024), (0.252899, 0.742211, 0.448284), (0.259857, 0.745492, 0.444467), (0.266941, 0.748751, 0.440573),
    (0.274149, 0.751988, 0.436601), (0.281477, 0.755203, 0.432552), (0.288921, 0.758394, 0.428426), (0.296479, 0.761561, 0.424223),
    (0.304148, 0.764704, 0.419943), (0.311925, 0.767822, 0.415586), (0.319809, 0.770914, 0.411152), (0.327796, 0.773980, 0.406640),
    (0.335885, 0.777018, 0.402049), (0.344074, 0.780029, 0.397381), (0.352360, 0.783011, 0.392636), (0.360741, 0.785964, 0.387814),
    (0.369214, 0.788888, 0.382914), (0.377779, 0.791781, 0.377939), (0.386433, 0.794644, 0.372886), (0.395174, 0.797475, 0.367757),
    (0.404001, 0.800275, 0.362552), (0.412913, 0.803041, 0.357269), (0.421908, 0.805774, 0.351910), (0.430983, 0.808473, 0.346476),
    (0.440137, 0.811138, 0.340967), (0.449368, 0.813768, 0.335384), (0.458674, 0.816363, 0.329727), (0.468053, 0.818921, 0.323998),
    (0.477504, 0.821444, 0.318195), (0.487026, 0.823929, 0.312321), (0.496615, 0.826376, 0.306377), (0.506271, 0.828786, 0.300362),
    (0.515992, 0.831158, 0.294279), (0.525776, 0.833491, 0.288127), (0.535621, 0.835785, 0.281908), (0.545524, 0.838039, 0.275626),
    (0.555484, 0.840254, 0.269281), (0.565498, 0.842430, 0.262877), (0.575563, 0.844566, 0.256415), (0.585678, 0.846661, 0.249897),
    (0.595839, 0.848717, 0.243329), (0.606045, 0.850733, 0.236712), (0.616293, 0.852709, 0.230052), (0.626579, 0.854645, 0.223353),
    (0.636902, 0.856542, 0.216620), (0.647257, 0.858400, 0.209861), (0.657642, 0.860219, 0.203082), (0.668054, 0.861999, 0.196293),
    (0.678489, 0.863742, 0.189503), (0.688944, 0.865448, 0.182725), (0.699415, 0.867117, 0.175971), (0.709898, 0.868751, 0.169257),
    (0.720391, 0.870350, 0.162603), (0.730889, 0.871916, 0.156029), (0.741388, 0.873449, 0.149561), (0.751884, 0.874951, 0.143228),
    (0.762373, 0.876424, 0.137064), (0.772852, 0.877868, 0.131109), (0.783315, 0.879285, 0.125405), (0.793760, 0.880678, 0.120005),
    (0.804182, 0.882046, 0.114965), (0.814576, 0.883393, 0.110347), (0.824940, 0.884720, 0.106217), (0.835270, 0.886029, 0.102646),
    (0.845561, 0.887322, 0.099702), (0.855810, 0.888601, 0.097452), (0.866013, 0.889868, 0.095953), (0.876168, 0.891125, 0.095250),
    (0.886271, 0.892374, 0.095374), (0.896320, 0.893616, 0.096335), (0.906311, 0.894855, 0.098125), (0.916242, 0.896091, 0.100717),
    (0.926106, 0.897330, 0.104071), (0.935904, 0.898570, 0.108131), (0.945636, 0.899815, 0.112838), (0.955300, 0.901065, 0.118128),
    (0.964894, 0.902323, 0.123941), (0.974417, 0.903590, 0.130215), (0.983868, 0.904867, 0.136897), (0.993248, 0.906157, 0.143936)
  ]

/-- The static vector `v` of `detail::Cividis::getColorMapVal`, as red, green, blue triples. -/
def detail.Cividis.v : List (ℚ × ℚ × ℚ) :=
  [
    (0.000000, 0.135112, 0.304751), (0.000000, 0.138068, 0.311105), (0.000000, 0.141013, 0.317579), (0.000000, 0.143951, 0.323982),
    (0.000000, 0.146877, 0.330479), (0.000000, 0.149791, 0.337065), (0.000000, 0.152673, 0.343704), (0.000000, 0.155377, 0.350500),
    (0.000000, 0.157932, 0.357521), (0.000000, 0.160495, 0.364534), (0.000000, 0.163058, 0.371608), (0.000000, 0.165621, 0.378769),
    (0.000000, 0.168204, 0.385902), (0.000000, 0.170800, 0.393100), (0.000000, 0.173420, 0.400353), (0.000000, 0.176082, 0.407577),
    (0.000000, 0.178802, 0.414764), (0.000000, 0.181610, 0.421859), (0.000000, 0.184550, 0.428802), (0.000000, 0.186915, 0.435532),
    (0.000000, 0.188769, 0.439563), (0.000000, 0.190950, 0.441085), (0.000000, 0.193366, 0.441561), (0.003602, 0.195911, 0.441564),
    (0.017852, 0.198528, 0.441248), (0.032110, 0.201199, 0.440785), (0.046205, 0.203903, 0.440196), (0.058378, 0.206629, 0.439531),
    (0.068968, 0.209372, 0.438863), (0.078624, 0.212122, 0.438105), (0.087465, 0.214879, 0.437342), (0.095645, 0.217643, 0.436593),
    (0.103401, 0.220406, 0.435790), (0.110658, 0.223170, 0.435067), (0.117612, 0.225935, 0.434308), (0.124291, 0.228697, 0.433547),
    (0.130669, 0.231458, 0.432840), (0.136830, 0.234216, 0.432148), (0.142852, 0.236972, 0.431404), (0.148638, 0.239724, 0.430752),
    (0.154261, 0.242475, 0.430120), (0.159733, 0.245221, 0.429528), (0.165113, 0.247965, 0.428908), (0.170362, 0.250707, 0.428325),
    (0.175490, 0.253444, 0.427790), (0.180503, 0.256180, 0.427299), (0.185453, 0.258914, 0.426788), (0.190303, 0.261644, 0.426329),
    (0.195057, 0.264372, 0.425924), (0.199764, 0.267099, 0.425497), (0.204385, 0.269823, 0.425126), (0.208926, 0.272546, 0.424809),
    (0.213431, 0.275266, 0.424480), (0.217863, 0.277985, 0.424206), (0.222264, 0.280702, 0.423914), (0.226598, 0.283419, 0.423678),
    (0.230871, 0.286134, 0.423498), (0.235120, 0.288848, 0.423304), (0.239312, 0.291562, 0.423167), (0.243485, 0.294274, 0.423014),
    (0.247605, 0.296986, 0.422917), (0.251675, 0.299698, 0.422873), (0.255731, 0.302409, 0.422814), (0.259740, 0.305120, 0.422810),
    (0.263738, 0.307831, 0.422789), (0.267693, 0.310542, 0.422821), (0.271639, 0.313253, 0.422837), (0.275513, 0.315965, 0.422979),
    (0.279411, 0.318677, 0.423031), (0.283240, 0.321390, 0.423211), (0.287065, 0.324103, 0.423373), (0.290884, 0.326816, 0.423517),
    (0.294669, 0.329531, 0.423716), (0.298421, 0.332247, 0.423973), (0.302169, 0.334963, 0.424213), (0.305886, 0.337681, 0.424512),
    (0.309601, 0.340399, 0.424790), (0.313287, 0.343120, 0.425120), (0.316941, 0.345842, 0.425512), (0.320595, 0.348565, 0.425889),
    (0.324250, 0.351289, 0.426250), (0.327875, 0.354016, 0.426670), (0.331474, 0.356744, 0.427144), (0.335073, 0.359474, 0.427605),
    (0.338673, 0.362206, 0.428053), (0.342246, 0.364939, 0.428559), (0.345793, 0.367676, 0.429127), (0.349341, 0.370414, 0.429685),
    (0.352892, 0.373153, 0.430226), (0.356418, 0.375896, 0.430823), (0.359916, 0.378641, 0.431501), (0.363446, 0.381388, 0.432075),
    (0.366923, 0.384139, 0.432796), (0.370430, 0.386890, 0.433428), (0.373884, 0.389646, 0.434209), (0.377371, 0.392404, 0.434890),
    (0.380830, 0.395164, 0.435653), (0.384268, 0.397928, 0.436475), (0.387705, 0.400694, 0.437305), (0.391151, 0.403464, 0.438096),
    (0.394568, 0.406236, 0.438986), (0.397991, 0.409011, 0.439848), (0.401418, 0.411790, 0.440708), (0.404820, 0.414572, 0.441642),
    (0.408226, 0.417357, 0.442570), (0.411607, 0.420145, 0.443577), (0.414992, 0.422937, 0.444578), (0.418383, 0.425733, 0.445560),
    (0.421748, 0.428531, 0.446640), (0.425120, 0.431334, 0.447692), (0.428462, 0.434140, 0.448864), (0.431817, 0.436950, 0.449982),
    (0.435168, 0.439763, 0.451134), (0.438504, 0.442580, 0.452341), (0.441810, 0.445402, 0.453659), (0.445148, 0.448226, 0.454885),
    (0.448447, 0.451053, 0.456264), (0.451759, 0.453887, 0.457582), (0.455072, 0.456718, 0.458976), (0.458366, 0.459552, 0.460457),
    (0.461616, 0.462405, 0.461969), (0.464947, 0.465241, 0.463395), (0.468254, 0.468083, 0.464908), (0.471501, 0.470960, 0.466357),
    (0.474812, 0.473832, 0.467681), (0.478186, 0.476699, 0.468845), (0.481622, 0.479573, 0.469767), (0.485141, 0.482451, 0.470384),
    (0.488697, 0.485318, 0.471008), (0.492278, 0.488198, 0.471453), (0.495913, 0.491076, 0.471751), (0.499552, 0.493960, 0.472032),
    (0.503185, 0.496851, 0.472305), (0.506866, 0.499743, 0.472432), (0.510540, 0.502643, 0.472550), (0.514226, 0.505546, 0.472640),
    (0.517920, 0.508454, 0.472707), (0.521643, 0.511367, 0.472639), (0.525348, 0.514285, 0.472660), (0.529086, 0.517207, 0.472543),
    (0.532829, 0.520135, 0.472401), (0.536553, 0.523067, 0.472352), (0.540307, 0.526005, 0.472163), (0.544069, 0.528948, 0.471947),
    (0.547840, 0.531895, 0.471704), (0.551612, 0.534849, 0.471439), (0.555393, 0.537807, 0.471147), (0.559181, 0.540771, 0.470829),
    (0.562972, 0.543741, 0.470488), (0.566802, 0.546715, 0.469988), (0.570607, 0.549695, 0.469593), (0.574417, 0.552682, 0.469172),
    (0.578236, 0.555673, 0.468724), (0.582087, 0.558670, 0.468118), (0.585916, 0.561674, 0.467618), (0.589753, 0.564682, 0.467090),
    (0.593622, 0.567697, 0.466401), (0.597469, 0.570718, 0.465821), (0.601354, 0.573743, 0.465074), (0.605211, 0.576777, 0.464441),
    (0.609105, 0.579816, 0.463638), (0.612977, 0.582861, 0.462950), (0.616852, 0.585913, 0.462237), (0.620765, 0.588970, 0.461351),
    (0.624654, 0.592034, 0.460583), (0.628576, 0.595104, 0.459641), (0.632506, 0.598180, 0.458668), (0.636412, 0.601264, 0.457818),
    (0.640352, 0.604354, 0.456791), (0.644270, 0.607450, 0.455886), (0.648222, 0.610553, 0.454801), (0.652178, 0.613664, 0.453689),
    (0.656114, 0.616780, 0.452702), (0.660082, 0.619904, 0.451534), (0.664055, 0.623034, 0.450338), (0.668008, 0.626171, 0.449270),
    (0.671991, 0.629316, 0.448018), (0.675981, 0.632468, 0.446736), (0.679979, 0.635626, 0.445424), (0.683950, 0.638793, 0.444251),
    (0.687957, 0.641966, 0.442886), (0.691971, 0.645145, 0.441491), (0.695985, 0.648334, 0.440072), (0.700008, 0.651529, 0.438624),
    (0.704037, 0.654731, 0.437147), (0.708067, 0.657942, 0.435647), (0.712105, 0.661160, 0.434117), (0.716177, 0.664384, 0.432386),
    (0.720222, 0.667618, 0.430805), (0.724274, 0.670859, 0.429194), (0.728334, 0.674107, 0.427554), (0.732422, 0.677364, 0.425717),
    (0.736488, 0.680629, 0.424028), (0.740589, 0.683900, 0.422131), (0.744664, 0.687181, 0.420393), (0.748772, 0.690470, 0.418448),
    (0.752886, 0.693766, 0.416472), (0.756975, 0.697071, 0.414659), (0.761096, 0.700384, 0.412638), (0.765223, 0.703705, 0.410587),
    (0.769353, 0.707035, 0.408516), (0.773486, 0.710373, 0.406422), (0.777651, 0.713719, 0.404112), (0.781795, 0.717074, 0.401966),
    (0.785965, 0.720438, 0.399613), (0.790116, 0.723810, 0.397423), (0.794298, 0.727190, 0.395016), (0.798480, 0.730580, 0.392597),
    (0.802667, 0.733978, 0.390153), (0.806859, 0.737385, 0.387684), (0.811054, 0.740801, 0.385198), (0.815274, 0.744226, 0.382504),
    (0.819499, 0.747659, 0.379785), (0.823729, 0.751101, 0.377043), (0.827959, 0.754553, 0.374292), (0.832192, 0.758014, 0.371529),
    (0.836429, 0.761483, 0.368747), (0.840693, 0.764962, 0.365746), (0.844957, 0.768450, 0.362741), (0.849223, 0.771947, 0.359729),
    (0.853515, 0.775454, 0.356500), (0.857809, 0.778969, 0.353259), (0.862105, 0.782494, 0.350011), (0.866421, 0.786028, 0.346571),
    (0.870717, 0.789572, 0.343333), (0.875057, 0.793125, 0.339685), (0.879378, 0.796687, 0.336241), (0.883720, 0.800258, 0.332599),
    (0.888081, 0.803839, 0.328770), (0.892440, 0.807430, 0.324968), (0.896818, 0.811030, 0.320982), (0.901195, 0.814639, 0.317021),
    (0.905589, 0.818257, 0.312889), (0.910000, 0.821885, 0.308594), (0.914407, 0.825522, 0.304348), (0.918828, 0.829168, 0.299960),
    (0.923279, 0.832822, 0.295244), (0.927724, 0.836486, 0.290611), (0.932180, 0.840159, 0.285880), (0.936660, 0.843841, 0.280876),
    (0.941147, 0.847530, 0.275815), (0.945654, 0.851228, 0.270532), (0.950178, 0.854933, 0.265085), (0.954725, 0.858646, 0.259365),
    (0.959284, 0.862365, 0.253563), (0.963872, 0.866089, 0.247445), (0.968469, 0.869819, 0.241310), (0.973114, 0.873550, 0.234677),
    (0.977780, 0.877281, 0.227954), (0.982497, 0.881008, 0.220878), (0.987293, 0.884718, 0.213336), (0.992218, 0.888385, 0.205468),
    (0.994847, 0.892954, 0.203445), (0.995249, 0.898384, 0.207561), (0.995503, 0.903866, 0.212370), (0.995737, 0.909344, 0.217772)
  ]

/-- The static vector `v` of `detail::MixedRainbow::getColorMapVal`, as red, green, blue triples. -/
def detail.MixedRainbow.v : List (ℚ × ℚ × ℚ) :=
  [
    (0.000000, 0.000000, 0.513726), (0.000000, 0.266667, 1.000000), (0.015686, 1.000000, 0.984314), (0.764706, 1.000000, 0.235294),
    (1.000000, 0.486275, 0.000000), (0.733333, 0.000000, 0.000000), (0.000000, 0.000000, 0.529412), (0.000000, 0.282353, 1.000000),
    (0.031373, 1.000000, 0.968627), (0.780392, 1.000000, 0.219608), (1.000000, 0.470588, 0.000000), (0.717647, 0.000000, 0.000000),
    (0.000000, 0.000000, 0.545098), (0.000000, 0.298039, 1.000000), (0.047059, 1.000000, 0.952941), (0.796078, 1.000000, 0.203922),
    (1.000000, 0.454902, 0.000000), (0.701961, 0.000000, 0.000000), (0.000000, 0.000000, 0.560784), (0.000000, 0.313726, 1.000000),
    (0.062745, 1.000000, 0.937255), (0.811765, 1.000000, 0.188235), (1.000000, 0.439216, 0.000000), (0.686275, 0.000000, 0.000000),
    (0.000000, 0.000000, 0.576471), (0.000000, 0.329412, 1.000000), (0.078431, 1.000000, 0.921569), (0.827451, 1.000000, 0.172549),
    (1.000000, 0.423529, 0.000000), (0.670588, 0.000000, 0.000000), (0.000000, 0.000000, 0.592157), (0.000000, 0.345098, 1.000000),
    (0.094118, 1.000000, 0.905882), (0.843137, 1.000000, 0.156863), (1.000000, 0.407843, 0.000000), (0.654902, 0.000000, 0.000000),
    (0.000000, 0.000000, 0.607843), (0.000000, 0.360784, 1.000000), (0.109804, 1.000000, 0.890196), (0.858824, 1.000000, 0.141176),
    (1.000000, 0.392157, 0.000000), (0.639216, 0.000000, 0.000000), (0.000000, 0.000000, 0.623529), (0.000000, 0.376471, 1.000000),
    (0.125490, 1.000000, 0.874510), (0.874510, 1.000000, 0.125490), (1.000000, 0.376471, 0.000000), (0.623529, 0.000000, 0.000000),
    (0.000000, 0.000000, 0.639216), (0.000000, 0.392157, 1.000000), (0.141176, 1.000000, 0.858824), (0.890196, 1.000000, 0.109804),
    (1.000000, 0.360784, 0.000000), (0.607843, 0.000000, 0.000000), (0.000000, 0.000000, 0.654902), (0.000000, 0.407843, 1.000000),
    (0.156863, 1.000000, 0.843137), (0.905882, 1.000000, 0.094118), (1.000000, 0.345098, 0.000000), (0.592157, 0.000000, 0.000000),
    (0.000000, 0.000000, 0.670588), (0.000000, 0.423529, 1.000000), (0.172549, 1.000000, 0.827451), (0.921569, 1.000000, 0.078431),
    (1.000000, 0.329412, 0.000000), (0.576471, 0.000000, 0.000000), (0.000000, 0.000000, 0.686275), (0.000000, 0.439216, 1.000000),
    (0.188235, 1.000000, 0.811765), (0.937255, 1.000000, 0.062745), (1.000000, 0.313726, 0.000000), (0.560784, 0.000000, 0.000000),
    (0.000000, 0.000000, 0.701961), (0.000000, 0.454902, 1.000000), (0.203922, 1.000000, 0.796078), (0.952941, 1.000000, 0.047059),
    (1.000000, 0.298039, 0.000000), (0.545098, 0.000000, 0.000000), (0.000000, 0.000000, 0.717647), (0.000000, 0.470588, 1.000000),
    (0.219608, 1.000000, 0.780392), (0.968627, 1.000000, 0.031373), (1.000000, 0.282353, 0.000000), (0.529412, 0.000000, 0.000000),
    (0.000000, 0.000000, 0.733333), (0.000000, 0.486275, 1.000000), (0.235294, 1.000000, 0.764706), (0.984314, 1.000000, 0.015686),
    (1.000000, 0.266667, 0.000000), (0.513726, 0.000000, 0.000000), (0.000000, 0.000000, 0.749020), (0.000000, 0.501961, 1.000000),
    (0.250980, 1.000000, 0.749020), (1.000000, 1.000000, 0.000000), (1.000000, 0.250980, 0.000000), (0.501961, 0.000000, 0.000000),
    (0.000000, 0.000000, 0.764706), (0.000000, 0.513726, 1.000000), (0.266667, 1.000000, 0.733333), (1.000000, 0.984314, 0.000000),
    (1.000000, 0.235294, 0.000000), (0.000000, 0.000000, 0.780392), (0.000000, 0.529412, 1.000000), (0.282353, 1.000000, 0.717647),
    (1.000000, 0.968627, 0.000000), (1.000000, 0.219608, 0.000000), (0.000000, 0.000000, 0.796078), (0.000000, 0.545098, 1.000000),
    (0.298039, 1.000000, 0.701961), (1.000000, 0.952941, 0.000000), (1.000000, 0.203922, 0.000000), (0.000000, 0.000000, 0.811765),
    (0.000000, 0.560784, 1.000000), (0.313726, 1.000000, 0.686275), (1.000000, 0.937255, 0.000000), (1.000000, 0.188235, 0.000000),
    (0.000000, 0.000000, 0.827451), (0.000000, 0.576471, 1.000000), (0.329412, 1.000000, 0.670588), (1.000000, 0.921569, 0.000000),
    (1.000000, 0.172549, 0.000000), (0.000000, 0.000000, 0.843137), (0.000000, 0.592157, 1.000000), (0.345098, 1.000000, 0.654902),
    (1.000000, 0.905882, 0.000000), (1.000000, 0.156863, 0.000000), (0.000000, 0.000000, 0.858824), (0.000000, 0.607843, 1.000000),
    (0.360784, 1.000000, 0.639216), (1.000000, 0.890196, 0.000000), (1.000000, 0.141176, 0.000000), (0.000000, 0.000000, 0.874510),
    (0.000000, 0.623529, 1.000000), (0.376471, 1.000000, 0.623529), (1.000000, 0.874510, 0.000000), (1.000000, 0.125490, 0.000000),
    (0.000000, 0.000000, 0.890196), (0.000000, 0.639216, 1.000000), (0.392157, 1.000000, 0.607843), (1.000000, 0.858824, 0.000000),
    (1.000000, 0.109804, 0.000000), (0.000000, 0.000000, 0.905882), (0.000000, 0.654902, 1.000000), (0.407843, 1.000000, 0.592157),
    (1.000000, 0.843137, 0.000000), (1.000000, 0.094118, 0.000000), (0.000000, 0.000000, 0.921569), (0.000000, 0.670588, 1.000000),
    (0.423529, 1.000000, 0.576471), (1.000000, 0.827451, 0.000000), (1.000000, 0.078431, 0.000000), (0.000000, 0.000000, 0.937255),
    (0.000000, 0.686275, 1.000000), (0.439216, 1.000000, 0.560784), (1.000000, 0.811765, 0.000000), (1.000000, 0.062745, 0.000000),
    (0.000000, 0.000000, 0.952941), (0.000000, 0.701961, 1.000000), (0.454902, 1.000000, 0.545098), (1.000000, 0.796078, 0.000000),
    (1.000000, 0.047059, 0.000000), (0.000000, 0.000000, 0.968627), (0.000000, 0.717647, 1.000000), (0.470588, 1.000000, 0.529412),
    (1.000000, 0.780392, 0.000000), (1.000000, 0.031373, 0.000000), (0.000000, 0.000000, 0.984314), (0.000000, 0.733333, 1.000000),
    (0.486275, 1.000000, 0.513726), (1.000000, 0.764706, 0.000000), (1.000000, 0.015686, 0.000000), (0.000000, 0.000000, 1.000000),
    (0.000000, 0.749020, 1.000000), (0.501961, 1.000000, 0.501961), (1.000000, 0.749020, 0.000000), (1.000000, 0.000000, 0.000000),
    (0.000000, 0.015686, 1.000000), (0.000000, 0.764706, 1.000000), (0.513726, 1.000000, 0.486275), (1.000000, 0.733333, 0.000000),
    (0.984314, 0.000000, 0.000000), (0.000000, 0.031373, 1.000000), (0.000000, 0.780392, 1.000000), (0.529412, 1.000000, 0.470588),
    (1.000000, 0.717647, 0.000000), (0.968627, 0.000000, 0.000000), (0.000000, 0.047059, 1.000000), (0.000000, 0.796078, 1.000000),
    (0.545098, 1.000000, 0.454902), (1.000000, 0.701961, 0.000000), (0.952941, 0.000000, 0.000000), (0.000000, 0.062745, 1.000000),
    (0.000000, 0.811765, 1.000000), (0.560784, 1.000000, 0.439216), (1.000000, 0.686275, 0.000000), (0.937255, 0.000000, 0.000000),
    (0.000000, 0.078431, 1.000000), (0.000000, 0.827451, 1.000000), (0.576471, 1.000000, 0.423529), (1.000000, 0.670588, 0.000000),
    (0.921569, 0.000000, 0.000000), (0.000000, 0.094118, 1.000000), (0.000000, 0.843137, 1.000000), (0.592157, 1.000000, 0.407843),
    (1.000000, 0.654902, 0.000000), (0.905882, 0.000000, 0.000000), (0.000000, 0.109804, 1.000000), (0.000000, 0.858824, 1.000000),
    (0.607843, 1.000000, 0.392157), (1.000000, 0.639216, 0.000000), (0.890196, 0.000000, 0.000000), (0.000000, 0.125490, 1.000000),
    (0.000000, 0.874510, 1.000000), (0.623529, 1.000000, 0.376471), (1.000000, 0.623529, 0.000000), (0.874510, 0.000000, 0.000000),
    (0.000000, 0.141176, 1.000000), (0.000000, 0.890196, 1.000000), (0.639216, 1.000000, 0.360784), (1.000000, 0.607843, 0.000000),
    (0.858824, 0.000000, 0.000000), (0.000000, 0.156863, 1.000000), (0.000000, 0.905882, 1.000000), (0.654902, 1.000000, 0.345098),
    (1.000000, 0.592157, 0.000000), (0.843137, 0.000000, 0.000000), (0.000000, 0.172549, 1.000000), (0.000000, 0.921569, 1.000000),
    (0.670588, 1.000000, 0.329412), (1.000000, 0.576471, 0.000000), (0.827451, 0.000000, 0.000000), (0.000000, 0.188235, 1.000000),
    (0.000000, 0.937255, 1.000000), (0.686275, 1.000000, 0.313726), (1.000000, 0.560784, 0.000000), (0.811765, 0.000000, 0.000000),
    (0.000000, 0.203922, 1.000000), (0.000000, 0.952941, 1.000000), (0.701961, 1.000000, 0.298039), (1.000000, 0.545098, 0.000000),
    (0.796078, 0.000000, 0.000000), (0.000000, 0.219608, 1.000000), (0.000000, 0.968627, 1.000000), (0.717647, 1.000000, 0.282353),
    (1.000000, 0.529412, 0.000000), (0.780392, 0.000000, 0.000000), (0.000000, 0.235294, 1.000000), (0.000000, 0.984314, 1.000000),
    (0.733333, 1.000000, 0.266667), (1.000000, 0.513726, 0.000000), (0.764706, 0.000000, 0.000000), (0.000000, 0.250980, 1.000000),
    (0.000000, 1.000000, 1.000000), (0.749020, 1.000000, 0.250980), (1.000000, 0.501961, 0.000000), (0.749020, 0.000000, 0.000000)
  ]

/-- The static vector `v` of `detail::MixedGrayScale::getColorMapVal`, as red, green, blue triples. -/
def detail.MixedGrayScale.v : List (ℚ × ℚ × ℚ) :=
  [
    (0.000000, 0.000000, 0.000000), (0.188235, 0.188235, 0.188235), (0.376471, 0.376471, 0.376471), (0.564706, 0.564706, 0.564706),
    (0.752941, 0.752941, 0.752941), (0.941176, 0.941176, 0.941176), (0.003922, 0.003922, 0.003922), (0.192157, 0.192157, 0.192157),
    (0.380392, 0.380392, 0.380392), (0.568627, 0.568627, 0.568627), (0.756863, 0.756863, 0.756863), (0.945098, 0.945098, 0.945098),
    (0.007843, 0.007843, 0.007843), (0.196078, 0.196078, 0.196078), (0.384314, 0.384314, 0.384314), (0.572549, 0.572549, 0.572549),
    (0.760784, 0.760784, 0.760784), (0.949020, 0.949020, 0.949020), (0.011765, 0.011765, 0.011765), (0.200000, 0.200000, 0.200000),
    (0.388235, 0.388235, 0.388235), (0.576471, 0.576471, 0.576471), (0.764706, 0.764706, 0.764706), (0.952941, 0.952941, 0.952941),
    (0.015686, 0.015686, 0.015686), (0.203922, 0.203922, 0.203922), (0.392157, 0.392157, 0.392157), (0.580392, 0.580392, 0.580392),
    (0.768627, 0.768627, 0.768627), (0.956863, 0.956863, 0.956863), (0.019608, 0.019608, 0.019608), (0.207843, 0.207843, 0.207843),
    (0.396078, 0.396078, 0.396078), (0.584314, 0.584314, 0.584314), (0.772549, 0.772549, 0.772549), (0.960784, 0.960784, 0.960784),
    (0.023529, 0.023529, 0.023529), (0.211765, 0.211765, 0.211765), (0.400000, 0.400000, 0.400000), (0.588235, 0.588235, 0.588235),
    (0.776471, 0.776471, 0.776471), (0.964706, 0.964706, 0.964706), (0.027451, 0.027451, 0.027451), (0.215686, 0.215686, 0.215686),
    (0.403922, 0.403922, 0.403922), (0.592157, 0.592157, 0.592157), (0.780392, 0.780392, 0.780392), (0.968627, 0.968627, 0.968627),
    (0.031373, 0.031373, 0.031373), (0.219608, 0.219608, 0.219608), (0.407843, 0.407843, 0.407843), (0.596078, 0.596078, 0.596078),
    (0.784314, 0.784314, 0.784314), (0.972549, 0.972549, 0.972549), (0.035294, 0.035294, 0.035294), (0.223529, 0.223529, 0.223529),
    (0.411765, 0.411765, 0.411765), (0.600000, 0.600000, 0.600000), (0.788235, 0.788235, 0.788235), (0.976471, 0.976471, 0.976471),
    (0.039216, 0.039216, 0.039216), (0.227451, 0.227451, 0.227451), (0.415686, 0.415686, 0.415686), (0.603922, 0.603922, 0.603922),
    (0.792157, 0.792157, 0.792157), (0.980392, 0.980392, 0.980392), (0.043137, 0.043137, 0.043137), (0.231373, 0.231373, 0.231373),
    (0.419608, 0.419608, 0.419608), (0.607843, 0.607843, 0.607843), (0.796078, 0.796078, 0.796078), (0.984314, 0.984314, 0.984314),
    (0.047059, 0.047059, 0.047059), (0.235294, 0.235294, 0.235294), (0.423529, 0.423529, 0.423529), (0.611765, 0.611765, 0.611765),
    (0.800000, 0.800000, 0.800000), (0.988235, 0.988235, 0.988235), (0.050980, 0.050980, 0.050980), (0.239216, 0.239216, 0.239216),
    (0.427451, 0.427451, 0.427451), (0.615686, 0.615686, 0.615686), (0.803922, 0.803922, 0.803922), (0.992157, 0.992157, 0.992157),
    (0.054902, 0.054902, 0.054902), (0.243137, 0.243137, 0.243137), (0.431373, 0.431373, 0.431373), (0.619608, 0.619608, 0.619608),
    (0.807843, 0.807843, 0.807843), (0.996078, 0.996078, 0.996078), (0.058824, 0.058824, 0.058824), (0.247059, 0.247059, 0.247059),
    (0.435294, 0.435294, 0.435294), (0.623529, 0.623529, 0.623529), (0.811765, 0.811765, 0.811765), (1.000000, 1.000000, 1.000000),
    (0.062745, 0.062745, 0.062745), (0.250980, 0.250980, 0.250980), (0.439216, 0.439216, 0.439216), (0.627451, 0.627451, 0.627451),
    (0.815686, 0.815686, 0.815686), (0.066667, 0.066667, 0.066667), (0.254902, 0.254902, 0.254902), (0.443137, 0.443137, 0.443137),
    (0.631373, 0.631373, 0.631373), (0.819608, 0.819608, 0.819608), (0.070588, 0.070588, 0.070588), (0.258824, 0.258824, 0.258824),
    (0.447059, 0.447059, 0.447059), (0.635294, 0.635294, 0.635294), (0.823529, 0.823529, 0.823529), (0.074510, 0.074510, 0.074510),
    (0.262745, 0.262745, 0.262745), (0.450980, 0.450980, 0.450980), (0.639216, 0.639216, 0.639216), (0.827451, 0.827451, 0.827451),
    (0.078431, 0.078431, 0.078431), (0.266667, 0.266667, 0.266667), (0.454902, 0.454902, 0.454902), (0.643137, 0.643137, 0.643137),
    (0.831373, 0.831373, 0.831373), (0.082353, 0.082353, 0.082353), (0.270588, 0.270588, 0.270588), (0.458824, 0.458824, 0.458824),
    (0.647059, 0.647059, 0.647059), (0.835294, 0.835294, 0.835294), (0.086275, 0.086275, 0.086275), (0.274510, 0.274510, 0.274510),
    (0.462745, 0.462745, 0.462745), (0.650980, 0.650980, 0.650980), (0.839216, 0.839216, 0.839216), (0.090196, 0.090196, 0.090196),
    (0.278431, 0.278431, 0.278431), (0.466667, 0.466667, 0.466667), (0.654902, 0.654902, 0.654902), (0.843137, 0.843137, 0.843137),
    (0.094118, 0.094118, 0.094118), (0.282353, 0.282353, 0.282353), (0.470588, 0.470588, 0.470588), (0.658824, 0.658824, 0.658824),
    (0.847059, 0.847059, 0.847059), (0.098039, 0.098039, 0.098039), (0.286275, 0.286275, 0.286275), (0.474510, 0.474510, 0.474510),
    (0.662745, 0.662745, 0.662745), (0.850980, 0.850980, 0.850980), (0.101961, 0.101961, 0.101961), (0.290196, 0.290196, 0.290196),
    (0.478431, 0.478431, 0.478431), (0.666667, 0.666667, 0.666667), (0.854902, 0.854902, 0.854902), (0.105882, 0.105882, 0.105882),
    (0.294118, 0.294118, 0.294118), (0.482353, 0.482353, 0.482353), (0.670588, 0.670588, 0.670588), (0.858824, 0.858824, 0.858824),
    (0.109804, 0.109804, 0.109804), (0.298039, 0.298039, 0.298039), (0.486275, 0.486275, 0.486275), (0.674510, 0.674510, 0.674510),
    (0.862745, 0.862745, 0.862745), (0.113725, 0.113725, 0.113725), (0.301961, 0.301961, 0.301961), (0.490196, 0.490196, 0.490196),
    (0.678431, 0.678431, 0.678431), (0.866667, 0.866667, 0.866667), (0.117647, 0.117647, 0.117647), (0.305882, 0.305882, 0.305882),
    (0.494118, 0.494118, 0.494118), (0.682353, 0.682353, 0.682353), (0.870588, 0.870588, 0.870588), (0.121569, 0.121569, 0.121569),
    (0.309804, 0.309804, 0.309804), (0.498039, 0.498039, 0.498039), (0.686275, 0.686275, 0.686275), (0.874510, 0.874510, 0.874510),
    (0.125490, 0.125490, 0.125490), (0.313726, 0.313726, 0.313726), (0.501961, 0.501961, 0.501961), (0.690196, 0.690196, 0.690196),
    (0.878431, 0.878431, 0.878431), (0.129412, 0.129412, 0.129412), (0.317647, 0.317647, 0.317647), (0.505882, 0.505882, 0.505882),
    (0.694118, 0.694118, 0.694118), (0.882353, 0.882353, 0.882353), (0.133333, 0.133333, 0.133333), (0.321569, 0.321569, 0.321569),
    (0.509804, 0.509804, 0.509804), (0.698039, 0.698039, 0.698039), (0.886275, 0.886275, 0.886275), (0.137255, 0.137255, 0.137255),
    (0.325490, 0.325490, 0.325490), (0.513726, 0.513726, 0.513726), (0.701961, 0.701961, 0.701961), (0.890196, 0.890196, 0.890196),
    (0.141176, 0.141176, 0.141176), (0.329412, 0.329412, 0.329412), (0.517647, 0.517647, 0.517647), (0.705882, 0.705882, 0.705882),
    (0.894118, 0.894118, 0.894118), (0.145098, 0.145098, 0.145098), (0.333333, 0.333333, 0.333333), (0.521569, 0.521569, 0.521569),
    (0.709804, 0.709804, 0.709804), (0.898039, 0.898039, 0.898039), (0.149020, 0.149020, 0.149020), (0.337255, 0.337255, 0.337255),
    (0.525490, 0.525490, 0.525490), (0.713726, 0.713726, 0.713726), (0.901961, 0.901961, 0.901961), (0.152941, 0.152941, 0.152941),
    (0.341176, 0.341176, 0.341176), (0.529412, 0.529412, 0.529412), (0.717647, 0.717647, 0.717647), (0.905882, 0.905882, 0.905882),
    (0.156863, 0.156863, 0.156863), (0.345098, 0.345098, 0.345098), (0.533333, 0.533333, 0.533333), (0.721569, 0.721569, 0.721569),
    (0.909804, 0.909804, 0.909804), (0.160784, 0.160784, 0.160784), (0.349020, 0.349020, 0.349020), (0.537255, 0.537255, 0.537255),
    (0.725490, 0.725490, 0.725490), (0.913725, 0.913725, 0.913725), (0.164706, 0.164706, 0.164706), (0.352941, 0.352941, 0.352941),
    (0.541176, 0.541176, 0.541176), (0.729412, 0.729412, 0.729412), (0.917647, 0.917647, 0.917647), (0.168627, 0.168627, 0.168627),
    (0.356863, 0.356863, 0.356863), (0.545098, 0.545098, 0.545098), (0.733333, 0.733333, 0.733333), (0.921569, 0.921569, 0.921569),
    (0.172549, 0.172549, 0.172549), (0.360784, 0.360784, 0.360784), (0.549020, 0.549020, 0.549020), (0.737255, 0.737255, 0.737255),
    (0.925490, 0.925490, 0.925490), (0.176471, 0.176471, 0.176471), (0.364706, 0.364706, 0.364706), (0.552941, 0.552941, 0.552941),
    (0.741176, 0.741176, 0.741176), (0.929412, 0.929412, 0.929412), (0.180392, 0.180392, 0.180392), (0.368627, 0.368627, 0.368627),
    (0.556863, 0.556863, 0.556863), (0.745098, 0.745098, 0.745098), (0.933333, 0.933333, 0.933333), (0.184314, 0.184314, 0.184314),
    (0.372549, 0.372549, 0.372549), (0.560784, 0.560784, 0.560784), (0.749020, 0.749020, 0.749020), (0.937255, 0.937255, 0.937255)
  ]

/-- The function `detail::PinkWhiteBlue::getColorMapVal`. -/
def detail.PinkWhiteBlue.getColorMapVal (env : Externals) (f : Double) : ColorRGB :=
  readColorFromArray env (colorVector env detail.PinkWhiteBlue.v) f

/-- The function `detail::Lighthue::getColorMapVal`. -/
def detail.Lighthue.getColorMapVal (env : Externals) (f : Double) : ColorRGB :=
  readColorFromArray env (colorVector env detail.Lighthue.v) f

/-- The function `detail::Don::getColorMapVal`. -/
def detail.Don.getColorMapVal (env : Externals) (f : Double) : ColorRGB :=
  readColorFromArray env (colorVector env detail.Don.v) f

/-- The function `detail::RedTint::getColorMapVal`. -/
def detail.RedTint.getColorMapVal (env : Externals) (f : Double) : ColorRGB :=
  readColorFromArray env (colorVector env detail.RedTint.v) f

/-- The function `detail::OrangeTint::getColorMapVal`. -/
def detail.OrangeTint.getColorMapVal (env : Externals) (f : Double) : ColorRGB :=
  readColorFromArray env (colorVector env detail.OrangeTint.v) f

/-- The function `detail::YellowTint::getColorMapVal`. -/
def detail.YellowTint.getColorMapVal (env : Externals) (f : Double) : ColorRGB :=
  readColorFromArray env (colorVector env detail.YellowTint.v) f

/-- The function `detail::GreenTint::getColorMapVal`. -/
def detail.GreenTint.getColorMapVal (env : Externals) (f : Double) : ColorRGB :=
  readColorFromArray env (colorVector env detail.GreenTint.v) f

/-- The function `detail::CyanTint::getColorMapVal`. -/
def detail.CyanTint.getColorMapVal (env : Externals) (f : Double) : ColorRGB :=
  readColorFromArray env (colorVector env detail.CyanTint.v) f

/-- The function `detail::BlueTint::getColorMapVal`. -/
def detail.BlueTint.getColorMapVal (env : Externals) (f : Double) : ColorRGB :=
  readColorFromArray env (colorVector env detail.BlueTint.v) f

/-- The function `detail::PurpleTint::getColorMapVal`. -/
def detail.PurpleTint.getColorMapVal (env : Externals) (f : Double) : ColorRGB :=
  readColorFromArray env (colorVector env detail.PurpleTint.v) f

/-- The function `detail::Turbo::getColorMapVal`. -/
def detail.Turbo.getColorMapVal (env : Externals) (f : Double) : ColorRGB :=
  readColorFromArray env (colorVector env detail.Turbo.v) f

/-- The function `detail::Magma::getColorMapVal`. -/
def detail.Magma.getColorMapVal (env : Externals) (f : Double) : ColorRGB :=
  readColorFromArray env (colorVector env detail.Magma.v) f

/-- The function `detail::Inferno::getColorMapVal`. -/
def detail.Inferno.getColorMapVal (env : Externals) (f : Double) : ColorRGB :=
  readColorFromArray env (colorVector env detail.Inferno.v) f

/-- The function `detail::Plasma::getColorMapVal`. -/
def detail.Plasma.getColorMapVal (env : Externals) (f : Double) : ColorRGB :=
  readColorFromArray env (colorVector env detail.Plasma.v) f

/-- The function `detail::Viridis::getColorMapVal`. -/
def detail.Viridis.getColorMapVal (env : Externals) (f : Double) : ColorRGB :=
  readColorFromArray env (colorVector env detail.Viridis.v) f

/-- The function `detail::Cividis::getColorMapVal`. -/
def detail.Cividis.getColorMapVal (env : Externals) (f : Double) : ColorRGB :=
  readColorFromArray env (colorVector env detail.Cividis.v) f

/-- The function `detail::MixedRainbow::getColorMapVal`. -/
def detail.MixedRainbow.getColorMapVal (env : Externals) (f : Double) : ColorRGB :=
  readColorFromArray env (colorVector env detail.MixedRainbow.v) f

/-- The function `detail::MixedGrayScale::getColorMapVal`. -/
def detail.MixedGrayScale.getColorMapVal (env : Externals) (f : Double) : ColorRGB :=
  readColorFromArray env (colorVector env detail.MixedGrayScale.v) f

/-! ## ColorMap: the factory and the colour map -/

/-- The classes derived from `ColorMapStrategy` in `namespace detail`. -/
inductive ColorMapStrategy where
  | Rainbow | OldRainbow | Blackbody | Grayscale | OrangeBlackLime | Darkhue | Lighthue
  | Don | RedTint | OrangeTint | YellowTint | GreenTint | CyanTint | BlueTint | PurpleTint
  | Turbo | Magma | Inferno | Plasma | Viridis | Cividis | BPSeismic | MixedRainbow
  | MixedGrayScale | PinkWhiteBlue
  deriving DecidableEq, Repr

/-- The virtual call `color_->getColorMapVal(f)`. -/
def ColorMapStrategy.getColorMapVal (env : Externals) (color : ColorMapStrategy)
    (f : Double) : ColorRGB :=
  match color with
  | ColorMapStrategy.Rainbow => detail.Rainbow.getColorMapVal env f
  | ColorMapStrategy.OldRainbow => detail.OldRainbow.getColorMapVal env f
  | ColorMapStrategy.Blackbody => detail.Blackbody.getColorMapVal env f
  | ColorMapStrategy.Grayscale => detail.Grayscale.getColorMapVal env f
  | ColorMapStrategy.OrangeBlackLime => detail.OrangeBlackLime.getColorMapVal env f
  | ColorMapStrategy.Darkhue => detail.Darkhue.getColorMapVal env f
  | ColorMapStrategy.Lighthue => detail.Lighthue.getColorMapVal env f
  | ColorMapStrategy.Don => detail.Don.getColorMapVal env f
  | ColorMapStrategy.RedTint => detail.RedTint.getColorMapVal env f
  | ColorMapStrategy.OrangeTint => detail.OrangeTint.getColorMapVal env f
  | ColorMapStrategy.YellowTint => detail.YellowTint.getColorMapVal env f
  | ColorMapStrategy.GreenTint => detail.GreenTint.getColorMapVal env f
  | ColorMapStrategy.CyanTint => detail.CyanTint.getColorMapVal env f
  | ColorMapStrategy.BlueTint => detail.BlueTint.getColorMapVal env f
  | ColorMapStrategy.PurpleTint => detail.PurpleTint.getColorMapVal env f
  | ColorMapStrategy.Turbo => detail.Turbo.getColorMapVal env f
  | ColorMapStrategy.Magma => detail.Magma.getColorMapVal env f
  | ColorMapStrategy.Inferno => detail.Inferno.getColorMapVal env f
  | ColorMapStrategy.Plasma => detail.Plasma.getColorMapVal env f
  | ColorMapStrategy.Viridis => detail.Viridis.getColorMapVal env f
  | ColorMapStrategy.Cividis => detail.Cividis.getColorMapVal env f
  | ColorMapStrategy.BPSeismic => detail.BPSeismic.getColorMapVal env f
  | ColorMapStrategy.MixedRainbow => detail.MixedRainbow.getColorMapVal env f
  | ColorMapStrategy.MixedGrayScale => detail.MixedGrayScale.getColorMapVal env f
  | ColorMapStrategy.PinkWhiteBlue => detail.PinkWhiteBlue.getColorMapVal env f

/-- The static map `detail::colorMapFactoryMap` from names to makers; a maker builds an object
of its class. -/
def detail.colorMapFactoryMap : List (String × ColorMapStrategy) :=
  [ ("Rainbow", ColorMapStrategy.Rainbow),
    ("Old Rainbow", ColorMapStrategy.OldRainbow),
    ("Blackbody", ColorMapStrategy.Blackbody),
    ("Grayscale", ColorMapStrategy.Grayscale),
    ("Orange,Black,Lime", ColorMapStrategy.OrangeBlackLime),
    ("Darkhue", ColorMapStrategy.Darkhue),
    ("Lighthue", ColorMapStrategy.Lighthue),
    ("Don", ColorMapStrategy.Don),
    ("Red Tint", ColorMapStrategy.RedTint),
    ("Orange Tint", ColorMapStrategy.OrangeTint),
    ("Yellow Tint", ColorMapStrategy.YellowTint),
    ("Green Tint", ColorMapStrategy.GreenTint),
    ("Cyan Tint", ColorMapStrategy.CyanTint),
    ("Blue Tint", ColorMapStrategy.BlueTint),
    ("Purple Tint", ColorMapStrategy.PurpleTint),
    ("Turbo", ColorMapStrategy.Turbo),
    ("Magma", ColorMapStrategy.Magma),
    ("Inferno", ColorMapStrategy.Inferno),
    ("Plasma", ColorMapStrategy.Plasma),
    ("Viridis", ColorMapStrategy.Viridis),
    ("Cividis", ColorMapStrategy.Cividis),
    ("BP Seismic", ColorMapStrategy.BPSeismic),
    ("Mixed Rainbow", ColorMapStrategy.MixedRainbow),
    ("Mixed GrayScale", ColorMapStrategy.MixedGrayScale),
    ("Pink,White,Blue", ColorMapStrategy.PinkWhiteBlue) ]

/-- The registered colour-map names: the keys of `colorMapFactoryMap`. -/
def detail.registeredNames : List String :=
  detail.colorMapFactoryMap.map (fun e => e.1)

/-- The data members of `ColorMap`, in constructor order. -/
structure ColorMap where
  color_ : ColorMapStrategy
  nameInfo_ : String
  resolution_ : Nat
  shift_ : Double
  invert_ : Bool
  rescale_scale_ : Double
  rescale_shift_ : Double
  alphaLookup_ : List Double
  deriving DecidableEq, Repr

/-- The function `StandardColorMapFactory::create`: look the name up in the factory map, fall
back to a `Rainbow` object when it is not found (the source also logs an error there), and
construct the colour map from the strategy and the arguments. -/
def StandardColorMapFactory.create (name : String) (res : Nat) (shift : Double)
    (invert : Bool) (rescale_scale rescale_shift : Double) (alphaPoints : List Double) :
    ColorMap :=
  let color : ColorMapStrategy :=
    match detail.colorMapFactoryMap.find? (fun e => decide (e.1 = name)) with
    | some maker => maker.2
    | none => ColorMapStrategy.Rainbow
  { color_ := color, nameInfo_ := name, resolution_ := res, shift_ := shift, invert_ := invert,
    rescale_scale_ := rescale_scale, rescale_shift_ := rescale_shift,
    alphaLookup_ := alphaPoints }

/-- The getter `getColorMapName`. -/
def ColorMap.getColorMapName (self : ColorMap) : String := self.nameInfo_

/-- The getter `getColorMapResolution`. -/
def ColorMap.getColorMapResolution (self : ColorMap) : Nat := self.resolution_

/-- The getter `getColorMapShift`. -/
def ColorMap.getColorMapShift (self : ColorMap) : Double := self.shift_

/-- The getter `getColorMapInvert`. -/
def ColorMap.getColorMapInvert (self : ColorMap) : Bool := self.invert_

/-- The getter `getColorMapRescaleScale`. -/
def ColorMap.getColorMapRescaleScale (self : ColorMap) : Double := self.rescale_scale_

/-- The getter `getColorMapRescaleShift`. -/
def ColorMap.getColorMapRescaleShift (self : ColorMap) : Double := self.rescale_shift_

/-- The function `ColorMap::getTransformedValue`: rescale, clamp to the unit interval, invert,
apply the resolution, apply the gamma shift, clamp again.  `resolution_ - 1` is computed in
`size_t`, modulo 2^64. -/
def ColorMap.getTransformedValue (env : Externals) (self : ColorMap) (f : Double) : Double :=
  let rescaled01 : Double := (f + self.rescale_shift_) * self.rescale_scale_
  let v0 : Double := Double.min (Double.max (Double.fin 0) rescaled01) (Double.fin 1)
  let shift0 : Double := self.shift_
  let v1 : Double := if self.invert_ then Double.fin 1 - v0 else v0
  let shift : Double := if self.invert_ then shift0 * Double.fin (-1) else shift0
  let v2 : Double :=
    Double.ofInt ((v1 * Double.ofSize self.resolution_).toInt env) /
      Double.ofSize ((self.resolution_ + 2 ^ 64 - 1) % 2 ^ 64)
  let denom0 : Double :=
    env.tan (env.M_PI_2 *
      (Double.fin 0.5 -
        Double.min (Double.max shift (Double.fin (-0.99))) (Double.fin 0.99) * Double.fin 0.5))
  let denom1 : Double := if denom0.isnan then Double.fin 0 else denom0
  let denom : Double := Double.max denom1 (Double.fin 0.001)
  let v3 : Double := env.pow v2 (Double.fin 1 / denom)
  Double.min (Double.max (Double.fin 0) v3) (Double.fin 1)

/-- The loop `for (i = 0; (i < size) && (alphaLookup_[i] < t); i += 2);` of `alpha`, with `i`
an `unsigned int`.  The loop body runs at most once per element of the vector. -/
def alphaIndex (alphaLookup : List Double) (t : Double) : Nat → Nat → Nat
  | 0, i => i
  | fuel + 1, i =>
    if i < alphaLookup.length && (alphaLookup.getD i Double.nan).lt t then
      alphaIndex alphaLookup t fuel ((i + 2) % 2 ^ 32)
    else i

/-- The function `ColorMap::alpha`: 0.5 without alpha points, otherwise the linear
interpolation between the two alpha points around the transformed value. -/
def ColorMap.alpha (env : Externals) (self : ColorMap) (transformedValue : Double) : Double :=
  if self.alphaLookup_.length = 0 then Double.fin 0.5
  else
    let i : Nat := alphaIndex self.alphaLookup_ transformedValue self.alphaLookup_.length 0
    let al : Int → Double := readDouble env self.alphaLookup_
    let startx : Double :=
      if i = 0 then Double.fin 0 else al ((i : Int) - 2)
    let starty : Double :=
      if i = 0 then al 1 else al ((i : Int) - 1)
    let endx : Double :=
      if i = 0 then al 0
      else if i = self.alphaLookup_.length then Double.fin 1 else al (i : Int)
    let endy : Double :=
      if i = 0 then al 1
      else if i = self.alphaLookup_.length then al ((i : Int) - 1) else al ((i : Int) + 1)
    let interp : Double := (transformedValue - startx) / (endx - startx)
    (Double.fin 1 - interp) * starty + interp * endy

/-- The function `ColorMap::applyAlpha`. -/
def ColorMap.applyAlpha (env : Externals) (self : ColorMap) (transformed : Double)
    (colorWithoutAlpha : ColorRGB) : ColorRGB :=
  let a := self.alpha env transformed
  { r := colorWithoutAlpha.r, g := colorWithoutAlpha.g, b := colorWithoutAlpha.b, a := a }

/-- The function `ColorMap::getColorMapVal`. -/
def ColorMap.getColorMapVal (env : Externals) (self : ColorMap) (v : Double) : ColorRGB :=
  let f := self.getTransformedValue env v
  let colorWithoutAlpha := self.color_.getColorMapVal env f
  self.applyAlpha env f colorWithoutAlpha

/-- The function `ColorMap::valueToColor(double scalar)`. -/
def ColorMap.valueToColor (env : Externals) (self : ColorMap) (scalar : Double) : ColorRGB :=
  self.getColorMapVal env scalar

/-- Sample externals for evaluating examples: `tan` and `pow` are replaced by the identity on
their first argument, undefined results are 0. -/
def sampleExternals : Externals :=
  { M_PI_2 := Double.fin 1.57079632679489661923
    tan := fun x => x
    pow := fun x _ => x
    defaultAlpha := Double.fin 1
    unrepresentableInt := fun _ => 0
    outOfBoundsDouble := fun _ => Double.fin 0
    outOfBoundsColor := fun _ => { r := Double.fin 0, g := Double.fin 0, b := Double.fin 0,
                                   a := Double.fin 0 } }

/-! # Theorems -/

/-! ## Lookup and edge construction -/

theorem vertexOf_of_mem {ids : List ModuleId} {m : ModuleId} (h : m ∈ ids) :
    vertexOf ids m = some (ids.indexOf m) := by
  simp [vertexOf, h]

theorem vertexOf_eq_none {ids : List ModuleId} {m : ModuleId} (h : m ∉ ids) :
    vertexOf ids m = none := by
  simp [vertexOf, h]

theorem vertexOf_eq_some {ids : List ModuleId} {m : ModuleId} {v : Nat}
    (h : vertexOf ids m = some v) : m ∈ ids ∧ v < ids.length ∧ ids[v]? = some m := by
  unfold vertexOf at h
  split at h
  · rename_i hm
    simp only [Option.some.injEq] at h
    subst h
    have hlt : ids.indexOf m < ids.length := List.indexOf_lt_length.mpr hm
    refine ⟨hm, hlt, ?_⟩
    rw [List.getElem?_eq_getElem hlt]
    simp
  · simp at h

theorem edgeOf_ok {ids : List ModuleId} {c : Connection} {e : Nat × Nat}
    (h : edgeOf ids c = Except.ok e) :
    vertexOf ids c.sourceModule = some e.1 ∧ vertexOf ids c.destModule = some e.2 := by
  unfold edgeOf at h
  split at h
  · rename_i u v hu hv
    simp only [Except.ok.injEq] at h
    subst h
    exact ⟨hu, hv⟩
  · simp at h

theorem edgeOf_of_mem {ids : List ModuleId} {c : Connection}
    (hs : c.sourceModule ∈ ids) (hd : c.destModule ∈ ids) :
    edgeOf ids c = Except.ok (ids.indexOf c.sourceModule, ids.indexOf c.destModule) := by
  simp [edgeOf, vertexOf_of_mem hs, vertexOf_of_mem hd]

theorem edgeOf_dangling {ids : List ModuleId} {c : Connection}
    (h : c.sourceModule ∉ ids ∨ c.destModule ∉ ids) :
    edgeOf ids c = Except.error (StructuralError.danglingConnection c) := by
  unfold edgeOf
  split
  · rename_i u v hu hv
    rcases h with h | h
    · rw [vertexOf_eq_none h] at hu; simp at hu
    · rw [vertexOf_eq_none h] at hv; simp at hv
  · rfl

theorem collectEdges_ok_mem {ids : List ModuleId} :
    ∀ {cs : List Connection} {es : List (Nat × Nat)}, collectEdges ids cs = Except.ok es →
      ∀ e : Nat × Nat, e ∈ es ↔ ∃ c ∈ cs, edgeOf ids c = Except.ok e
  | [], es, h, e => by
    simp only [collectEdges, Except.ok.injEq] at h
    subst h
    simp
  | c :: cs, es, h, e => by
    unfold collectEdges at h
    split at h
    · simp at h
    · rename_i e0 he0
      split at h
      · simp at h
      · rename_i es0 hes0
        simp only [Except.ok.injEq] at h
        have ih := collectEdges_ok_mem hes0
        subst h
        constructor
        · intro hmem
          have hcase : e = e0 ∨ e ∈ es0 := by
            split at hmem
            · exact Or.inr hmem
            · simpa using hmem
          rcases hcase with rfl | hin
          · exact ⟨c, List.mem_cons_self _ _, he0⟩
          · obtain ⟨c1, hc1, hc1e⟩ := (ih e).mp hin
            exact ⟨c1, List.mem_cons_of_mem _ hc1, hc1e⟩
        · rintro ⟨c1, hc1, hc1e⟩
          have hin : e = e0 ∨ e ∈ es0 := by
            rcases List.mem_cons.mp hc1 with rfl | hc1
            · left
              rw [he0] at hc1e
              simpa using hc1e.symm
            · exact Or.inr ((ih e).mpr ⟨c1, hc1, hc1e⟩)
          split
          · rename_i hmem0
            rcases hin with rfl | hin
            · exact hmem0
            · exact hin
          · simpa using hin

theorem collectEdges_ok_nodup {ids : List ModuleId} :
    ∀ {cs : List Connection} {es : List (Nat × Nat)}, collectEdges ids cs = Except.ok es →
      es.Nodup
  | [], es, h => by
    simp only [collectEdges, Except.ok.injEq] at h
    subst h
    exact List.nodup_nil
  | c :: cs, es, h => by
    unfold collectEdges at h
    split at h
    · simp at h
    · rename_i e0 he0
      split at h
      · simp at h
      · rename_i es0 hes0
        simp only [Except.ok.injEq] at h
        have ih := collectEdges_ok_nodup hes0
        subst h
        split
        · exact ih
        · rename_i hnot
          exact List.nodup_cons.mpr ⟨hnot, ih⟩

theorem collectEdges_of_noDangling {ids : List ModuleId} :
    ∀ {cs : List Connection}, (∀ c ∈ cs, c.sourceModule ∈ ids ∧ c.destModule ∈ ids) →
      ∃ es, collectEdges ids cs = Except.ok es
  | [], _ => ⟨[], rfl⟩
  | c :: cs, h => by
    obtain ⟨es0, hes0⟩ := @collectEdges_of_noDangling ids cs
      (fun c1 hc1 => h c1 (List.mem_cons_of_mem _ hc1))
    have hc := h c (List.mem_cons_self _ _)
    unfold collectEdges
    rw [edgeOf_of_mem hc.1 hc.2]
    simp only [hes0]
    exact ⟨_, rfl⟩

theorem collectEdges_of_dangling {ids : List ModuleId} :
    ∀ {cs : List Connection}, (∃ c ∈ cs, c.sourceModule ∉ ids ∨ c.destModule ∉ ids) →
      ∃ c ∈ cs, (c.sourceModule ∉ ids ∨ c.destModule ∉ ids) ∧
        collectEdges ids cs = Except.error (StructuralError.danglingConnection c)
  | [], h => by
    obtain ⟨c, hc, _⟩ := h
    simp at hc
  | c :: cs, h => by
    by_cases hc : c.sourceModule ∉ ids ∨ c.destModule ∉ ids
    · refine ⟨c, List.mem_cons_self _ _, hc, ?_⟩
      unfold collectEdges
      rw [edgeOf_dangling hc]
    · have hc2 : c.sourceModule ∈ ids ∧ c.destModule ∈ ids := by
        constructor
        · by_contra hn; exact hc (Or.inl hn)
        · by_contra hn; exact hc (Or.inr hn)
      have hrest : ∃ c1 ∈ cs, c1.sourceModule ∉ ids ∨ c1.destModule ∉ ids := by
        obtain ⟨c1, hc1, hd⟩ := h
        rcases List.mem_cons.mp hc1 with rfl | hc1
        · exact absurd hd hc
        · exact ⟨c1, hc1, hd⟩
      obtain ⟨c1, hc1, hd, herr⟩ := collectEdges_of_dangling hrest
      refine ⟨c1, List.mem_cons_of_mem _ hc1, hd, ?_⟩
      unfold collectEdges
      rw [edgeOf_of_mem hc2.1 hc2.2]
      simp only [herr]

/-! ## Invariants of Kahn's algorithm -/

theorem pickSmallest_eq_none {key : Nat → ModuleId} :
    ∀ {l : List Nat}, pickSmallest key l = none → l = []
  | [], _ => rfl
  | v :: rest, h => by
    unfold pickSmallest at h
    split at h
    · simp at h
    · split at h <;> simp at h

theorem pickSmallest_some {key : Nat → ModuleId} :
    ∀ {l : List Nat} {v : Nat}, pickSmallest key l = some v →
      v ∈ l ∧ ∀ x ∈ l, key v ≤ key x
  | [], v, h => by simp [pickSmallest] at h
  | a :: rest, v, h => by
    unfold pickSmallest at h
    split at h
    · rename_i hnone
      simp only [Option.some.injEq] at h
      subst h
      have hnil := pickSmallest_eq_none hnone
      subst hnil
      simp
    · rename_i w hw
      obtain ⟨hwmem, hwmin⟩ := pickSmallest_some hw
      split at h
      · rename_i hlt
        simp only [Option.some.injEq] at h
        subst h
        refine ⟨List.mem_cons_of_mem _ hwmem, ?_⟩
        intro x hx
        rcases List.mem_cons.mp hx with rfl | hx
        · exact Nat.le_of_lt hlt
        · exact hwmin x hx
      · rename_i hge
        simp only [Option.some.injEq] at h
        subst h
        refine ⟨List.mem_cons_self _ _, ?_⟩
        intro x hx
        rcases List.mem_cons.mp hx with rfl | hx
        · exact Nat.le_refl _
        · exact Nat.le_trans (Nat.le_of_not_lt hge) (hwmin x hx)

theorem countP_emit (w v : Nat) (em : List Nat) (hv : v ∉ em) :
    ∀ (es : List (Nat × Nat)), es.Nodup →
      es.countP (fun e => decide (e.2 = w) && decide (e.1 ∉ em)) =
        es.countP (fun e => decide (e.2 = w) && decide (e.1 ∉ em ++ [v])) +
          (if (v, w) ∈ es then 1 else 0)
  | [], _ => by simp
  | e :: es, hnd => by
    have hnd2 := List.nodup_cons.mp hnd
    have ih := countP_emit w v em hv es hnd2.2
    rw [List.countP_cons, List.countP_cons, ih]
    by_cases he : e = (v, w)
    · subst he
      have hnot : (v, w) ∉ es := hnd2.1
      simp [hv, hnot]
    · have hmem : ((v, w) ∈ e :: es) ↔ ((v, w) ∈ es) := by
        constructor
        · intro h
          rcases List.mem_cons.mp h with h | h
          · exact absurd h.symm he
          · exact h
        · exact List.mem_cons_of_mem _
      have hp : (decide (e.2 = w) && decide (e.1 ∉ em ++ [v])) =
          (decide (e.2 = w) && decide (e.1 ∉ em)) := by
        by_cases h2 : e.2 = w
        · have h1 : e.1 ≠ v := by
            intro h1
            apply he
            cases e
            simp_all
          simp [h2, h1]
        · simp [h2]
      simp only [hp, hmem]
      omega

theorem counterInv_init (g : DependencyGraph) :
    CounterInv g { inDegree := initialInDegree g, emitted := [] } := by
  intro w
  simp [initialInDegree]

theorem counterInv_emit {g : DependencyGraph} {s : KahnState} {v : Nat}
    (hnd : g.edges.Nodup) (hinv : CounterInv g s) (hv : v ∉ s.emitted) :
    CounterInv g (emit g s v) := by
  intro w
  have h := countP_emit w v s.emitted hv g.edges hnd
  have hw := hinv w
  show (if (v, w) ∈ g.edges then s.inDegree w - 1 else s.inDegree w) = _
  show _ = g.edges.countP (fun e => decide (e.2 = w) && decide (e.1 ∉ s.emitted ++ [v]))
  split <;> rename_i hmem <;> simp only [hmem, if_true, if_false] at h <;> omega

theorem mem_zeroInDegree {g : DependencyGraph} {s : KahnState} (hinv : CounterInv g s)
    (v : Nat) : v ∈ zeroInDegree g s ↔ Ready g s.emitted v := by
  unfold zeroInDegree Ready
  rw [List.mem_filter, List.mem_range, hinv v, Bool.and_eq_true, decide_eq_true_iff,
    decide_eq_true_iff, List.countP_eq_zero]
  constructor
  · rintro ⟨hlt, hnot, hall⟩
    refine ⟨hlt, hnot, ?_⟩
    intro u hu
    by_contra hcon
    have := hall (u, v) hu
    simp [hcon] at this
  · rintro ⟨hlt, hnot, hall⟩
    refine ⟨hlt, hnot, ?_⟩
    intro e he
    by_cases h2 : e.2 = v
    · have : e.1 ∈ s.emitted := by
        apply hall
        cases e
        simp_all
      simp [this]
    · simp [h2]

theorem kahnTrace_nil (g : DependencyGraph) (key : Nat → ModuleId) : KahnTrace g key [] := by
  intro pre v post h
  simp at h

theorem kahnTrace_snoc {g : DependencyGraph} {key : Nat → ModuleId} {l : List Nat} {v : Nat}
    (hl : KahnTrace g key l) (hv : Selected g key l v) : KahnTrace g key (l ++ [v]) := by
  intro pre x post h
  rcases List.eq_nil_or_concat post with rfl | ⟨post1, y, rfl⟩
  · have h2 := List.append_inj' h rfl
    have hx : v = x := by simpa using h2.2
    rw [← h2.1, ← hx]
    exact hv
  · rw [List.concat_eq_append, ← List.cons_append, ← List.append_assoc] at h
    have h2 := List.append_inj' h rfl
    exact hl pre x post1 h2.1

theorem KahnTrace.take {g : DependencyGraph} {key : Nat → ModuleId} {l₁ l₂ : List Nat}
    (h : KahnTrace g key (l₁ ++ l₂)) : KahnTrace g key l₁ := by
  intro pre v post hsplit
  apply h pre v (post ++ l₂)
  rw [hsplit]
  simp

theorem KahnTrace.lt {g : DependencyGraph} {key : Nat → ModuleId} {l : List Nat}
    (h : KahnTrace g key l) {v : Nat} (hv : v ∈ l) : v < g.vertexCount := by
  obtain ⟨pre, post, hsplit⟩ := List.append_of_mem hv
  exact (h pre v post hsplit).1.1

theorem KahnTrace.nodup {g : DependencyGraph} {key : Nat → ModuleId} :
    ∀ {l : List Nat}, KahnTrace g key l → l.Nodup := by
  intro l
  induction l using List.reverseRecOn with
  | nil => intro _; exact List.nodup_nil
  | append_singleton l a ih =>
    intro h
    have hl : l.Nodup := ih h.take
    have ha : a ∉ l := (h l a [] rfl).1.2.1
    rw [List.nodup_append]
    refine ⟨hl, List.nodup_singleton a, ?_⟩
    intro x hx hx2
    have : x = a := by simpa using hx2
    subst this
    exact ha hx

theorem KahnTrace.length_le {g : DependencyGraph} {key : Nat → ModuleId} {l : List Nat}
    (h : KahnTrace g key l) : l.length ≤ g.vertexCount := by
  have hsub : l ⊆ List.range g.vertexCount := fun v hv => List.mem_range.mpr (h.lt hv)
  have := (List.subperm_of_subset h.nodup hsub).length_le
  simpa using this

theorem KahnTrace.perm_range {g : DependencyGraph} {key : Nat → ModuleId} {l : List Nat}
    (h : KahnTrace g key l) (hlen : l.length = g.vertexCount) :
    l.Perm (List.range g.vertexCount) := by
  have hsub : l ⊆ List.range g.vertexCount := fun v hv => List.mem_range.mpr (h.lt hv)
  apply (List.subperm_of_subset h.nodup hsub).perm_of_length_le
  simp [hlen]

/-- In a trace, the source of every edge into an emitted vertex is emitted strictly earlier. -/
theorem KahnTrace.edge_before {g : DependencyGraph} {key : Nat → ModuleId} {l : List Nat}
    (h : KahnTrace g key l) {u v : Nat} (he : (u, v) ∈ g.edges) (hv : v ∈ l) :
    u ∈ l ∧ l.indexOf u < l.indexOf v := by
  obtain ⟨pre, post, hsplit⟩ := List.append_of_mem hv
  have hsel := h pre v post hsplit
  have hu : u ∈ pre := hsel.1.2.2 u he
  have hvpre : v ∉ pre := hsel.1.2.1
  subst hsplit
  refine ⟨List.mem_append_left _ hu, ?_⟩
  rw [List.indexOf_append_of_mem hu, List.indexOf_append_of_not_mem hvpre,
    List.indexOf_cons_self]
  have := List.indexOf_lt_length.mpr hu
  omega

theorem kahnLoop_spec {g : DependencyGraph} {key : Nat → ModuleId} (hnd : g.edges.Nodup) :
    ∀ (fuel : Nat) (s : KahnState), CounterInv g s → KahnTrace g key s.emitted →
      CounterInv g (kahnLoop g key fuel s) ∧
      KahnTrace g key (kahnLoop g key fuel s).emitted ∧
      ((kahnLoop g key fuel s).emitted.length = s.emitted.length + fuel ∨
        ∀ v, ¬ Ready g (kahnLoop g key fuel s).emitted v)
  | 0, s, hinv, htr => ⟨hinv, htr, Or.inl rfl⟩
  | fuel + 1, s, hinv, htr => by
    unfold kahnLoop
    split
    · rename_i hnone
      refine ⟨hinv, htr, Or.inr ?_⟩
      intro v hv
      have hmem := (mem_zeroInDegree hinv v).mpr hv
      rw [pickSmallest_eq_none hnone] at hmem
      simp at hmem
    · rename_i v hsome
      obtain ⟨hvmem, hvmin⟩ := pickSmallest_some hsome
      have hready : Ready g s.emitted v := (mem_zeroInDegree hinv v).mp hvmem
      have hsel : Selected g key s.emitted v :=
        ⟨hready, fun x hx => hvmin x ((mem_zeroInDegree hinv x).mpr hx)⟩
      have hinv2 : CounterInv g (emit g s v) := counterInv_emit hnd hinv hready.2.1
      have htr2 : KahnTrace g key (emit g s v).emitted := kahnTrace_snoc htr hsel
      obtain ⟨h1, h2, h3⟩ := kahnLoop_spec hnd fuel (emit g s v) hinv2 htr2
      refine ⟨h1, h2, ?_⟩
      rcases h3 with h3 | h3
      · left
        rw [h3]
        simp [emit]
        omega
      · exact Or.inr h3

theorem kahn_spec {g : DependencyGraph} (key : Nat → ModuleId) (hnd : g.edges.Nodup) :
    KahnTrace g key (kahn g key) ∧
      ((kahn g key).length = g.vertexCount ∨ ∀ v, ¬ Ready g (kahn g key) v) := by
  obtain ⟨_, h2, h3⟩ := @kahnLoop_spec g key hnd g.vertexCount
    { inDegree := initialInDegree g, emitted := [] } (counterInv_init g) (kahnTrace_nil g key)
  refine ⟨h2, ?_⟩
  rcases h3 with h3 | h3
  · left
    simpa [kahn] using h3
  · exact Or.inr h3

/-! ## Cycles in the dependency graph -/

/-- In an acyclic graph, as long as some vertex is not emitted, some vertex is ready. -/
theorem exists_ready {g : DependencyGraph} (hacy : GraphAcyclic g) (hin : EdgesInRange g)
    {l : List Nat} (hlen : l.length < g.vertexCount) : ∃ v, Ready g l v := by
  have hex : ∃ v, v < g.vertexCount ∧ v ∉ l := by
    by_contra hcon
    have hsub : List.range g.vertexCount ⊆ l := by
      intro v hv
      by_contra hvl
      exact hcon ⟨v, List.mem_range.mp hv, hvl⟩
    have := (List.subperm_of_subset (List.nodup_range g.vertexCount) hsub).length_le
    simp at this
    omega
  obtain ⟨v0, hv0, hv0l⟩ := hex
  let r : Fin g.vertexCount → Fin g.vertexCount → Prop :=
    fun a b => Relation.TransGen (EdgeRel g) a.val b.val
  haveI : IsTrans (Fin g.vertexCount) r := ⟨fun _ _ _ hab hbc => Relation.TransGen.trans hab hbc⟩
  haveI : IsIrrefl (Fin g.vertexCount) r := ⟨fun a h => hacy a.val h⟩
  have hwf : WellFounded r := Finite.wellFounded_of_trans_of_irrefl r
  obtain ⟨a, ha, hmin⟩ := hwf.has_min {a | a.val ∉ l} ⟨⟨v0, hv0⟩, hv0l⟩
  refine ⟨a.val, a.isLt, ha, ?_⟩
  intro u hu
  by_contra hul
  have hult : u < g.vertexCount := (hin (u, a.val) hu).1
  exact hmin ⟨u, hult⟩ hul (Relation.TransGen.single hu)

/-- On an acyclic graph Kahn's algorithm emits every vertex. -/
theorem kahn_length_of_acyclic {g : DependencyGraph} (key : Nat → ModuleId)
    (hnd : g.edges.Nodup) (hin : EdgesInRange g) (hacy : GraphAcyclic g) :
    (kahn g key).length = g.vertexCount := by
  obtain ⟨htr, h⟩ := kahn_spec key hnd
  rcases h with h | h
  · exact h
  · have hle := htr.length_le
    by_contra hne
    have hlt : (kahn g key).length < g.vertexCount := by omega
    obtain ⟨v, hv⟩ := exists_ready hacy hin hlt
    exact h v hv

/-- A trace that emits every vertex orders the two ends of every path. -/
theorem KahnTrace.path_before {g : DependencyGraph} {key : Nat → ModuleId} {l : List Nat}
    (h : KahnTrace g key l) (hlen : l.length = g.vertexCount) (hin : EdgesInRange g)
    {u v : Nat} (hp : Relation.TransGen (EdgeRel g) u v) :
    l.indexOf u < l.indexOf v := by
  have hall : ∀ x, x < g.vertexCount → x ∈ l := fun x hx =>
    (h.perm_range hlen).mem_iff.mpr (List.mem_range.mpr hx)
  induction hp with
  | single he => exact (h.edge_before he (hall _ (hin _ he).2)).2
  | tail _ he ih => exact Nat.lt_trans ih (h.edge_before he (hall _ (hin _ he).2)).2

/-- When Kahn's algorithm emits every vertex the graph has no cycle. -/
theorem graphAcyclic_of_kahn_length {g : DependencyGraph} (key : Nat → ModuleId)
    (hnd : g.edges.Nodup) (hin : EdgesInRange g)
    (hlen : (kahn g key).length = g.vertexCount) : GraphAcyclic g := by
  intro v hv
  have := (kahn_spec key hnd).1.path_before hlen hin hv
  omega

/-! ## The vertex reported by a cycle error -/

theorem walkBack_add (g : DependencyGraph) (done : List Nat) :
    ∀ (a b v : Nat), walkBack g done (a + b) v = walkBack g done b (walkBack g done a v)
  | 0, b, v => by simp [walkBack]
  | a + 1, b, v => by
    have hab : a + 1 + b = (a + b) + 1 := by omega
    rw [hab]
    cases hfind : g.edges.find? (fun e => decide (e.2 = v) && decide (e.1 ∉ done)) with
    | none =>
      have h1 : ∀ k, walkBack g done (k + 1) v = v := by
        intro k
        simp only [walkBack, hfind]
      rw [h1, h1]
      cases b with
      | zero => rfl
      | succ b => rw [h1]
    | some e =>
      have h1 : ∀ k, walkBack g done (k + 1) v = walkBack g done k e.1 := by
        intro k
        simp only [walkBack, hfind]
      rw [h1, h1]
      exact walkBack_add g done a b e.1

/-- When no vertex is ready, one step back from a blocked vertex follows an edge to a blocked
vertex. -/
theorem walkBack_one {g : DependencyGraph} (hin : EdgesInRange g) {done : List Nat}
    (hstuck : ∀ v, ¬ Ready g done v) {v : Nat} (hv : Blocked g done v) :
    Blocked g done (walkBack g done 1 v) ∧ EdgeRel g (walkBack g done 1 v) v := by
  cases hfind : g.edges.find? (fun e => decide (e.2 = v) && decide (e.1 ∉ done)) with
  | none =>
    exfalso
    apply hstuck v
    refine ⟨hv.1, hv.2, ?_⟩
    intro u hu
    by_contra hcon
    have := List.find?_eq_none.mp hfind (u, v) hu
    simp [hcon] at this
  | some e =>
    have hval : walkBack g done 1 v = e.1 := by
      simp only [walkBack, hfind]
    have hp := List.find?_some hfind
    have hmem := List.mem_of_find?_eq_some hfind
    rw [Bool.and_eq_true, decide_eq_true_iff, decide_eq_true_iff] at hp
    rw [hval]
    refine ⟨⟨(hin e hmem).1, hp.2⟩, ?_⟩
    show (e.1, v) ∈ g.edges
    rw [← hp.1]
    exact hmem

theorem walkBack_blocked {g : DependencyGraph} (hin : EdgesInRange g) {done : List Nat}
    (hstuck : ∀ v, ¬ Ready g done v) :
    ∀ (k : Nat) {v : Nat}, Blocked g done v → Blocked g done (walkBack g done k v)
  | 0, _, hv => hv
  | k + 1, v, hv => by
    have h : k + 1 = 1 + k := by omega
    rw [h, walkBack_add]
    exact walkBack_blocked hin hstuck k (walkBack_one hin hstuck hv).1

theorem walkBack_path {g : DependencyGraph} (hin : EdgesInRange g) {done : List Nat}
    (hstuck : ∀ v, ¬ Ready g done v) :
    ∀ (k : Nat) {v : Nat}, Blocked g done v →
      Relation.TransGen (EdgeRel g) (walkBack g done (k + 1) v) v
  | 0, _, hv => Relation.TransGen.single (walkBack_one hin hstuck hv).2
  | k + 1, v, hv => by
    have h : k + 1 + 1 = 1 + (k + 1) := by omega
    rw [h, walkBack_add]
    obtain ⟨hb, he⟩ := walkBack_one hin hstuck hv
    exact Relation.TransGen.tail (walkBack_path hin hstuck k hb) he

/-- When some vertex is left and none is ready, the reported vertex lies on a cycle. -/
theorem cycleVertex_on_cycle {g : DependencyGraph} (hin : EdgesInRange g) {done : List Nat}
    (hlen : done.length < g.vertexCount) (hstuck : ∀ v, ¬ Ready g done v) :
    cycleVertex g done < g.vertexCount ∧
      Relation.TransGen (EdgeRel g) (cycleVertex g done) (cycleVertex g done) := by
  have hex : ∃ v, v < g.vertexCount ∧ v ∉ done := by
    by_contra hcon
    have hsub : List.range g.vertexCount ⊆ done := by
      intro v hv
      by_contra hvl
      exact hcon ⟨v, List.mem_range.mp hv, hvl⟩
    have := (List.subperm_of_subset (List.nodup_range g.vertexCount) hsub).length_le
    simp at this
    omega
  unfold cycleVertex
  cases hfind : (List.range g.vertexCount).find? (fun v => decide (v ∉ done)) with
  | none =>
    exfalso
    obtain ⟨v, hv, hvd⟩ := hex
    have := List.find?_eq_none.mp hfind v (List.mem_range.mpr hv)
    simp [hvd] at this
  | some v0 =>
    have hv0 : Blocked g done v0 := by
      have h1 := List.find?_some hfind
      have h2 := List.mem_of_find?_eq_some hfind
      exact ⟨List.mem_range.mp h2, by simpa using h1⟩
    show walkBack g done g.vertexCount v0 < g.vertexCount ∧
      Relation.TransGen (EdgeRel g) (walkBack g done g.vertexCount v0)
        (walkBack g done g.vertexCount v0)
    have hB := fun k => walkBack_blocked hin hstuck k hv0
    refine ⟨(hB g.vertexCount).1, ?_⟩
    let f : Fin (g.vertexCount + 1) → Fin g.vertexCount :=
      fun i => ⟨walkBack g done i.val v0, (hB i.val).1⟩
    obtain ⟨x, y, hxy, hfxy⟩ := Fintype.exists_ne_map_eq_of_card_lt f (by simp)
    have hval : walkBack g done x.val v0 = walkBack g done y.val v0 := by
      have := congrArg Fin.val hfxy
      exact this
    have hne : x.val ≠ y.val := fun h => hxy (Fin.ext h)
    have key : ∀ i j, i < j → j ≤ g.vertexCount →
        walkBack g done i v0 = walkBack g done j v0 →
        Relation.TransGen (EdgeRel g) (walkBack g done g.vertexCount v0)
          (walkBack g done g.vertexCount v0) := by
      intro i j hij hj heq
      have h1 : walkBack g done g.vertexCount v0 =
          walkBack g done (g.vertexCount - j) (walkBack g done j v0) := by
        rw [← walkBack_add]
        congr 1
        omega
      have h2 : walkBack g done (g.vertexCount - j) (walkBack g done i v0) =
          walkBack g done (g.vertexCount - (j - i)) v0 := by
        rw [← walkBack_add]
        congr 1
        omega
      have h3 : walkBack g done g.vertexCount v0 =
          walkBack g done (j - i - 1 + 1)
            (walkBack g done (g.vertexCount - (j - i)) v0) := by
        rw [← walkBack_add]
        congr 1
        omega
      have h4 : walkBack g done (g.vertexCount - (j - i)) v0 =
          walkBack g done g.vertexCount v0 := by
        rw [h1, ← heq, h2]
      have hpath := walkBack_path hin hstuck (j - i - 1) (hB (g.vertexCount - (j - i)))
      rw [← h3, h4] at hpath
      exact hpath
    rcases Nat.lt_or_gt_of_ne hne with hlt | hgt
    · exact key x.val y.val hlt (by have := y.isLt; omega) hval
    · exact key y.val x.val hgt (by have := x.isLt; omega) hval.symm

/-! ## The network seen as a graph -/

theorem idAt_indexOf {ids : List ModuleId} {m : ModuleId} (h : m ∈ ids) :
    idAt ids (ids.indexOf m) = m := by
  have hlt : ids.indexOf m < ids.length := List.indexOf_lt_length.mpr h
  simp [idAt, List.getD_eq_getElem?_getD, List.getElem?_eq_getElem hlt]

theorem idAt_of_getElem? {ids : List ModuleId} {v : Nat} {m : ModuleId}
    (h : ids[v]? = some m) : idAt ids v = m := by
  simp [idAt, List.getD_eq_getElem?_getD, h]

theorem getElem?_idAt {ids : List ModuleId} {v : Nat} (h : v < ids.length) :
    ids[v]? = some (idAt ids v) := by
  simp [idAt, List.getD_eq_getElem?_getD, List.getElem?_eq_getElem h]

theorem idAt_mem {ids : List ModuleId} {v : Nat} (h : v < ids.length) : idAt ids v ∈ ids := by
  have := getElem?_idAt h
  exact List.getElem?_mem this

theorem indexOf_idAt {ids : List ModuleId} (hnd : ids.Nodup) {v : Nat} (h : v < ids.length) :
    ids.indexOf (idAt ids v) = v := by
  have h1 : idAt ids v = ids[v] := by
    simp [idAt, List.getD_eq_getElem?_getD, List.getElem?_eq_getElem h]
  rw [h1]
  exact List.indexOf_getElem hnd v h

theorem map_idAt_range (ids : List ModuleId) :
    (List.range ids.length).map (idAt ids) = ids := by
  apply List.ext_getElem
  · simp
  · intro i h1 h2
    simp [idAt, List.getD_eq_getElem?_getD, List.getElem?_eq_getElem h2]

theorem edgesInRange_of_collect {network : NetworkState} {edges : List (Nat × Nat)}
    (h : collectEdges network.moduleIds network.connections = Except.ok edges) :
    EdgesInRange (graphOf network edges) := by
  intro e he
  obtain ⟨c, _, hc⟩ := (collectEdges_ok_mem h e).mp he
  obtain ⟨h1, h2⟩ := edgeOf_ok hc
  exact ⟨(vertexOf_eq_some h1).2.1, (vertexOf_eq_some h2).2.1⟩

/-- An edge of the built graph comes from a connection between the modules at its two ends. -/
theorem connected_of_edge {network : NetworkState} {edges : List (Nat × Nat)}
    (h : collectEdges network.moduleIds network.connections = Except.ok edges)
    {u v : Nat} (he : EdgeRel (graphOf network edges) u v) :
    Connected network (idAt network.moduleIds u) (idAt network.moduleIds v) := by
  obtain ⟨c, hcmem, hc⟩ := (collectEdges_ok_mem h (u, v)).mp he
  obtain ⟨h1, h2⟩ := edgeOf_ok hc
  refine ⟨c, hcmem, ?_, ?_⟩
  · exact (idAt_of_getElem? (vertexOf_eq_some h1).2.2).symm
  · exact (idAt_of_getElem? (vertexOf_eq_some h2).2.2).symm

/-- When the edges were collected, no connection dangles. -/
theorem noDangling_of_collect {network : NetworkState} {edges : List (Nat × Nat)}
    (h : collectEdges network.moduleIds network.connections = Except.ok edges) :
    NoDangling network := by
  intro c hc
  by_contra hcon
  have hd : c.sourceModule ∉ network.moduleIds ∨ c.destModule ∉ network.moduleIds := by
    by_cases h1 : c.sourceModule ∈ network.moduleIds
    · right
      intro h2
      exact hcon ⟨h1, h2⟩
    · exact Or.inl h1
  obtain ⟨c1, _, _, herr⟩ := collectEdges_of_dangling ⟨c, hc, hd⟩
  rw [herr] at h
  simp at h

/-- A connection between two modules gives the edge between their vertices. -/
theorem edge_of_connected {network : NetworkState} {edges : List (Nat × Nat)}
    (h : collectEdges network.moduleIds network.connections = Except.ok edges)
    {a b : ModuleId} (hab : Connected network a b) :
    EdgeRel (graphOf network edges) (network.moduleIds.indexOf a)
      (network.moduleIds.indexOf b) := by
  obtain ⟨c, hcmem, rfl, rfl⟩ := hab
  have hnd := noDangling_of_collect h c hcmem
  exact (collectEdges_ok_mem h _).mpr ⟨c, hcmem, edgeOf_of_mem hnd.1 hnd.2⟩

theorem graphAcyclic_of_acyclic {network : NetworkState} {edges : List (Nat × Nat)}
    (h : collectEdges network.moduleIds network.connections = Except.ok edges)
    (hacy : Acyclic network) : GraphAcyclic (graphOf network edges) := by
  intro v hv
  apply hacy
  refine ⟨idAt network.moduleIds v, ?_⟩
  exact Relation.TransGen.lift (idAt network.moduleIds) (fun _ _ he => connected_of_edge h he) hv

theorem hasDependencyCycle_of_graph {network : NetworkState} {edges : List (Nat × Nat)}
    (h : collectEdges network.moduleIds network.connections = Except.ok edges)
    (hcyc : HasDependencyCycle network) : ¬ GraphAcyclic (graphOf network edges) := by
  intro hacy
  obtain ⟨m, hm⟩ := hcyc
  apply hacy (network.moduleIds.indexOf m)
  exact Relation.TransGen.lift (fun a => network.moduleIds.indexOf a)
    (fun _ _ hab => edge_of_connected h hab) hm

/-! ## What the analyzer and the scheduler return -/

theorem create_of_collect_error {network : NetworkState} {err : StructuralError}
    (policy : ExecutionPolicy) (precompute : Bool)
    (h : collectEdges network.moduleIds network.connections = Except.error err) :
    NetworkGraphAnalyzer.create network policy precompute = Except.error err := by
  simp only [NetworkGraphAnalyzer.create, h]

theorem create_of_collect_ok {network : NetworkState} {edges : List (Nat × Nat)}
    (policy : ExecutionPolicy)
    (h : collectEdges network.moduleIds network.connections = Except.ok edges) :
    NetworkGraphAnalyzer.create network policy true =
      if hasCycle (graphOf network edges) (idAt network.moduleIds) then
        Except.error (StructuralError.cycleDetected (idAt network.moduleIds
          (cycleVertex (graphOf network edges)
            (kahn (graphOf network edges) (idAt network.moduleIds)))))
      else
        Except.ok { moduleIdLookup := network.moduleIds, graph := graphOf network edges,
                    order := (kahn (graphOf network edges) (idAt network.moduleIds)).filter
                      (fun v => policy.isIncluded network (graphOf network edges) v) } := by
  simp only [NetworkGraphAnalyzer.create, h, graphOf, if_true]

theorem filter_executeAll (network : NetworkState) (g : DependencyGraph) (l : List Nat) :
    l.filter (fun v => ExecuteAllModules.Instance.isIncluded network g v) = l := by
  apply List.filter_eq_self.mpr
  intro v _
  rfl

theorem schedule_of_collect_error {network : NetworkState} {err : StructuralError}
    (h : collectEdges network.moduleIds network.connections = Except.error err) :
    BoostGraphSerialScheduler.schedule network = Except.error err := by
  simp only [BoostGraphSerialScheduler.schedule, create_of_collect_error _ _ h]

theorem schedule_of_incomplete {network : NetworkState} {edges : List (Nat × Nat)}
    (h : collectEdges network.moduleIds network.connections = Except.ok edges)
    (hlen : (kahn (graphOf network edges) (idAt network.moduleIds)).length <
      network.moduleIds.length) :
    BoostGraphSerialScheduler.schedule network =
      Except.error (StructuralError.cycleDetected (idAt network.moduleIds
        (cycleVertex (graphOf network edges)
          (kahn (graphOf network edges) (idAt network.moduleIds))))) := by
  have hc : hasCycle (graphOf network edges) (idAt network.moduleIds) = true := by
    simp only [hasCycle, decide_eq_true_eq]
    exact hlen
  simp only [BoostGraphSerialScheduler.schedule, create_of_collect_ok _ h, hc, if_true]

theorem schedule_of_complete {network : NetworkState} {edges : List (Nat × Nat)}
    (h : collectEdges network.moduleIds network.connections = Except.ok edges)
    (hlen : (kahn (graphOf network edges) (idAt network.moduleIds)).length =
      network.moduleIds.length) :
    BoostGraphSerialScheduler.schedule network =
      Except.ok (ModuleExecutionOrder.mk
        ((kahn (graphOf network edges) (idAt network.moduleIds)).map
          (idAt network.moduleIds))) := by
  have hc : hasCycle (graphOf network edges) (idAt network.moduleIds) = false := by
    simp only [hasCycle, decide_eq_false_iff_not]
    show ¬ (_ < network.moduleIds.length)
    omega
  simp only [BoostGraphSerialScheduler.schedule, create_of_collect_ok _ h, hc,
    filter_executeAll, NetworkGraphAnalyzer.topologicalRange, NetworkGraphAnalyzer.moduleAt]
  rfl

/-- What lies behind a successful call: the edges were collected, Kahn's algorithm emitted every
vertex, and the returned list is its sequence read through the reverse lookup. -/
theorem schedule_ok_inv {network : NetworkState} {order : ModuleExecutionOrder}
    (h : BoostGraphSerialScheduler.schedule network = Except.ok order) :
    ∃ edges, collectEdges network.moduleIds network.connections = Except.ok edges ∧
      (kahn (graphOf network edges) (idAt network.moduleIds)).length =
        network.moduleIds.length ∧
      order.list = (kahn (graphOf network edges) (idAt network.moduleIds)).map
        (idAt network.moduleIds) := by
  cases hcol : collectEdges network.moduleIds network.connections with
  | error err =>
    rw [schedule_of_collect_error hcol] at h
    simp at h
  | ok edges =>
    refine ⟨edges, rfl, ?_⟩
    have hle := (kahn_spec (g := graphOf network edges) (idAt network.moduleIds)
      (collectEdges_ok_nodup hcol)).1.length_le
    have hle2 : (kahn (graphOf network edges) (idAt network.moduleIds)).length ≤
        network.moduleIds.length := hle
    by_cases hlen : (kahn (graphOf network edges) (idAt network.moduleIds)).length =
        network.moduleIds.length
    · refine ⟨hlen, ?_⟩
      rw [schedule_of_complete hcol hlen] at h
      simp only [Except.ok.injEq] at h
      rw [← h]
    · have hlt : (kahn (graphOf network edges) (idAt network.moduleIds)).length <
          network.moduleIds.length := by omega
      rw [schedule_of_incomplete hcol hlt] at h
      simp at h

/-- An acyclic snapshot without dangling connections is scheduled successfully. -/
theorem schedule_ok_of_acyclic {network : NetworkState} (hacy : Acyclic network)
    (hnd : NoDangling network) :
    ∃ order, BoostGraphSerialScheduler.schedule network = Except.ok order := by
  obtain ⟨edges, hcol⟩ := collectEdges_of_noDangling hnd
  have hlen := kahn_length_of_acyclic (g := graphOf network edges) (idAt network.moduleIds)
    (collectEdges_ok_nodup hcol) (edgesInRange_of_collect hcol)
    (graphAcyclic_of_acyclic hcol hacy)
  exact ⟨_, schedule_of_complete hcol hlen⟩

/-- A returned list is a permutation of the identifiers of the snapshot. -/
theorem schedule_ok_perm {network : NetworkState} {order : ModuleExecutionOrder}
    (h : BoostGraphSerialScheduler.schedule network = Except.ok order) :
    order.list.Perm network.moduleIds := by
  obtain ⟨edges, hcol, hlen, hlist⟩ := schedule_ok_inv h
  have htr := (kahn_spec (g := graphOf network edges) (idAt network.moduleIds)
    (collectEdges_ok_nodup hcol)).1
  have h1 := (htr.perm_range hlen).map (idAt network.moduleIds)
  rw [← hlist] at h1
  have h2 : (List.range (graphOf network edges).vertexCount).map (idAt network.moduleIds) =
      network.moduleIds := map_idAt_range network.moduleIds
  rw [h2] at h1
  exact h1

/-- What a successfully constructed analyzer holds when the order is precomputed. -/
theorem create_ok_inv {network : NetworkState} {policy : ExecutionPolicy}
    {a : NetworkGraphAnalyzer}
    (h : NetworkGraphAnalyzer.create network policy true = Except.ok a) :
    ∃ edges, collectEdges network.moduleIds network.connections = Except.ok edges ∧
      (kahn (graphOf network edges) (idAt network.moduleIds)).length =
        network.moduleIds.length ∧
      a = { moduleIdLookup := network.moduleIds, graph := graphOf network edges,
            order := (kahn (graphOf network edges) (idAt network.moduleIds)).filter
              (fun v => policy.isIncluded network (graphOf network edges) v) } := by
  cases hcol : collectEdges network.moduleIds network.connections with
  | error err =>
    rw [create_of_collect_error _ _ hcol] at h
    simp at h
  | ok edges =>
    refine ⟨edges, rfl, ?_⟩
    rw [create_of_collect_ok _ hcol] at h
    have hle : (kahn (graphOf network edges) (idAt network.moduleIds)).length ≤
        network.moduleIds.length :=
      (kahn_spec (g := graphOf network edges) (idAt network.moduleIds)
        (collectEdges_ok_nodup hcol)).1.length_le
    split at h
    · simp at h
    · rename_i hc
      simp only [Except.ok.injEq] at h
      refine ⟨?_, h.symm⟩
      simp only [hasCycle, decide_eq_true_eq] at hc
      have hc2 : ¬ ((kahn (graphOf network edges) (idAt network.moduleIds)).length <
          network.moduleIds.length) := hc
      omega

/-! ## Positions in the returned list -/

theorem indexOf_map_of_inj {f : Nat → Nat} {a : Nat} :
    ∀ {l : List Nat}, (∀ x ∈ l, f x = f a → x = a) → (l.map f).indexOf (f a) = l.indexOf a
  | [], _ => rfl
  | b :: l, h => by
    have ih : (l.map f).indexOf (f a) = l.indexOf a :=
      indexOf_map_of_inj (fun x hx => h x (List.mem_cons_of_mem _ hx))
    by_cases hb : b = a
    · subst hb
      simp
    · have hfb : f b ≠ f a := fun hfb => hb (h b (List.mem_cons_self _ _) hfb)
      rw [List.map_cons, List.indexOf_cons_ne _ hfb, List.indexOf_cons_ne _ hb, ih]

/-- Under unique identifiers the reverse lookup is injective on vertices. -/
theorem idAt_inj {ids : List ModuleId} (hnd : ids.Nodup) {x y : Nat} (hx : x < ids.length)
    (hy : y < ids.length) (h : idAt ids x = idAt ids y) : x = y := by
  rw [← indexOf_idAt hnd hx, ← indexOf_idAt hnd hy, h]

/-- A snapshot whose connections all lead from a smaller to a larger identifier is acyclic. -/
theorem acyclic_of_increasing {network : NetworkState}
    (h : ∀ c ∈ network.connections, c.sourceModule < c.destModule) : Acyclic network := by
  have hlt : ∀ a b, Relation.TransGen (Connected network) a b → a < b := by
    intro a b hab
    induction hab with
    | single hc =>
      obtain ⟨c, hc, rfl, rfl⟩ := hc
      exact h c hc
    | tail _ hc ih =>
      obtain ⟨c, hc, rfl, rfl⟩ := hc
      exact Nat.lt_trans ih (h c hc)
  rintro ⟨m, hm⟩
  exact Nat.lt_irrefl _ (hlt m m hm)

/-! ## The claims about `schedule` -/

/-- C1: whenever `schedule` succeeds on a network (whose module identifiers are unique, the
data-model invariant), every connection from module u to module v has both u and v in the
returned order, with the position of u strictly less than the position of v. -/
theorem schedule_respects_connections (network : NetworkState) (order : ModuleExecutionOrder)
    (huniq : UniqueIds network)
    (h : BoostGraphSerialScheduler.schedule network = Except.ok order)
    (c : Connection) (hc : c ∈ network.connections) :
    c.sourceModule ∈ order.list ∧ c.destModule ∈ order.list ∧
      order.list.indexOf c.sourceModule < order.list.indexOf c.destModule := by
  obtain ⟨edges, hcol, hlen, hlist⟩ := schedule_ok_inv h
  have htr := (kahn_spec (g := graphOf network edges) (idAt network.moduleIds)
    (collectEdges_ok_nodup hcol)).1
  have hdang := noDangling_of_collect hcol c hc
  have hedge : EdgeRel (graphOf network edges) (network.moduleIds.indexOf c.sourceModule)
      (network.moduleIds.indexOf c.destModule) :=
    edge_of_connected hcol ⟨c, hc, rfl, rfl⟩
  have hrange := edgesInRange_of_collect hcol _ hedge
  have hall : ∀ x, x < network.moduleIds.length →
      x ∈ kahn (graphOf network edges) (idAt network.moduleIds) := fun x hx =>
    (htr.perm_range hlen).mem_iff.mpr (List.mem_range.mpr hx)
  have hvmem := hall _ hrange.2
  obtain ⟨humem, hidx⟩ := htr.edge_before hedge hvmem
  have hinj : ∀ a, a < network.moduleIds.length →
      ∀ x ∈ kahn (graphOf network edges) (idAt network.moduleIds),
        idAt network.moduleIds x = idAt network.moduleIds a → x = a := fun a ha x hx hxa =>
    idAt_inj huniq (htr.lt hx) ha hxa
  have hsrc := idAt_indexOf hdang.1
  have hdst := idAt_indexOf hdang.2
  rw [hlist]
  refine ⟨?_, ?_, ?_⟩
  · rw [← hsrc]; exact List.mem_map_of_mem _ humem
  · rw [← hdst]; exact List.mem_map_of_mem _ hvmem
  · have h1 := indexOf_map_of_inj (f := idAt network.moduleIds) (hinj _ hrange.1)
    have h2 := indexOf_map_of_inj (f := idAt network.moduleIds) (hinj _ hrange.2)
    rw [hsrc] at h1
    rw [hdst] at h2
    rw [h1, h2]
    exact hidx

theorem schedule_respects_connections_witness :
    UniqueIds twoPairs ∧
    BoostGraphSerialScheduler.schedule twoPairs = Except.ok ⟨[1, 2, 3, 4]⟩ ∧
    (3 ∈ [1, 2, 3, 4] ∧ 4 ∈ [1, 2, 3, 4] ∧
      List.indexOf 3 [1, 2, 3, 4] < List.indexOf 4 [1, 2, 3, 4]) :=
  ⟨by decide, rfl,
    schedule_respects_connections twoPairs ⟨[1, 2, 3, 4]⟩ (by decide) rfl (mkConn 3 4)
      (by decide)⟩

/-- C2: for every acyclic network the list `schedule` returns is a permutation of the network's
module identifiers: a list is returned whenever no connection dangles, and every returned list
holds each module of the snapshot exactly once (identifiers being unique) and nothing else. -/
theorem schedule_permutation (network : NetworkState) (hacy : Acyclic network) :
    (NoDangling network →
      ∃ order, BoostGraphSerialScheduler.schedule network = Except.ok order) ∧
    ∀ order, BoostGraphSerialScheduler.schedule network = Except.ok order →
      order.list.Perm network.moduleIds ∧
      (∀ x, x ∈ order.list ↔ ∃ m ∈ network.modules, m.id = x) ∧
      (UniqueIds network → ∀ m ∈ network.modules, order.list.count m.id = 1) := by
  refine ⟨fun hnd => schedule_ok_of_acyclic hacy hnd, ?_⟩
  intro order h
  have hperm : order.list.Perm network.moduleIds := schedule_ok_perm h
  refine ⟨hperm, ?_, ?_⟩
  · intro x
    rw [hperm.mem_iff]
    simp [NetworkState.moduleIds]
  · intro huniq m hm
    rw [hperm.count_eq]
    apply List.count_eq_one_of_mem huniq
    exact List.mem_map_of_mem _ hm

theorem schedule_permutation_witness :
    Acyclic twoPairsInterleaved ∧
    BoostGraphSerialScheduler.schedule twoPairsInterleaved = Except.ok ⟨[1, 2, 3, 4]⟩ ∧
    List.Perm [1, 2, 3, 4] twoPairsInterleaved.moduleIds :=
  ⟨acyclic_of_increasing (by decide), rfl,
    ((schedule_permutation twoPairsInterleaved (acyclic_of_increasing (by decide))).2
      ⟨[1, 2, 3, 4]⟩ rfl).1⟩

/-- C3: for every network whose dependency graph contains a cycle, `schedule` fails with a
structural error, so no order is returned, not even a partial one; when no connection dangles
the error is the cycle error and the module it names is a module of the snapshot that lies on
a dependency cycle. -/
theorem schedule_rejects_cycle (network : NetworkState) (hcyc : HasDependencyCycle network) :
    ∃ err, BoostGraphSerialScheduler.schedule network = Except.error err ∧
      (NoDangling network →
        ∃ m, err = StructuralError.cycleDetected m ∧ m ∈ network.moduleIds ∧
          Relation.TransGen (Connected network) m m) := by
  cases hcol : collectEdges network.moduleIds network.connections with
  | error err =>
    refine ⟨err, schedule_of_collect_error hcol, ?_⟩
    intro hnd
    obtain ⟨es, hes⟩ := collectEdges_of_noDangling hnd
    rw [hes] at hcol
    simp at hcol
  | ok edges =>
    have hnodup := collectEdges_ok_nodup hcol
    have hin := edgesInRange_of_collect hcol
    have hspec := kahn_spec (g := graphOf network edges) (idAt network.moduleIds) hnodup
    have hle : (kahn (graphOf network edges) (idAt network.moduleIds)).length ≤
        network.moduleIds.length := hspec.1.length_le
    have hne : (kahn (graphOf network edges) (idAt network.moduleIds)).length ≠
        network.moduleIds.length := fun heq =>
      hasDependencyCycle_of_graph hcol hcyc
        (graphAcyclic_of_kahn_length (idAt network.moduleIds) hnodup hin heq)
    have hlt : (kahn (graphOf network edges) (idAt network.moduleIds)).length <
        network.moduleIds.length := by omega
    have hstuck : ∀ v, ¬ Ready (graphOf network edges)
        (kahn (graphOf network edges) (idAt network.moduleIds)) v := by
      rcases hspec.2 with h | h
      · exact absurd h hne
      · exact h
    obtain ⟨hclt, hcpath⟩ := cycleVertex_on_cycle hin hlt hstuck
    refine ⟨_, schedule_of_incomplete hcol hlt, fun _ => ⟨_, rfl, idAt_mem hclt, ?_⟩⟩
    exact Relation.TransGen.lift (idAt network.moduleIds)
      (fun _ _ he => connected_of_edge hcol he) hcpath

theorem threeCycle_hasCycle : HasDependencyCycle threeCycle :=
  ⟨1, Relation.TransGen.tail
    (Relation.TransGen.tail
      (Relation.TransGen.single ⟨mkConn 1 2, by decide, rfl, rfl⟩)
      ⟨mkConn 2 3, by decide, rfl, rfl⟩)
    ⟨mkConn 3 1, by decide, rfl, rfl⟩⟩

theorem selfLoop_hasCycle : HasDependencyCycle selfLoop :=
  ⟨2, Relation.TransGen.single ⟨mkConn 2 2, by decide, rfl, rfl⟩⟩

theorem schedule_rejects_cycle_witness :
    HasDependencyCycle threeCycle ∧ HasDependencyCycle selfLoop ∧
    BoostGraphSerialScheduler.schedule threeCycle =
      Except.error (StructuralError.cycleDetected 1) ∧
    BoostGraphSerialScheduler.schedule selfLoop =
      Except.error (StructuralError.cycleDetected 2) ∧
    (∃ err, BoostGraphSerialScheduler.schedule threeCycle = Except.error err ∧
      (NoDangling threeCycle →
        ∃ m, err = StructuralError.cycleDetected m ∧ m ∈ threeCycle.moduleIds ∧
          Relation.TransGen (Connected threeCycle) m m)) ∧
    (∃ err, BoostGraphSerialScheduler.schedule selfLoop = Except.error err ∧
      (NoDangling selfLoop →
        ∃ m, err = StructuralError.cycleDetected m ∧ m ∈ selfLoop.moduleIds ∧
          Relation.TransGen (Connected selfLoop) m m)) :=
  ⟨threeCycle_hasCycle, selfLoop_hasCycle, rfl, rfl,
    schedule_rejects_cycle threeCycle threeCycle_hasCycle,
    schedule_rejects_cycle selfLoop selfLoop_hasCycle⟩

/-- C4: for the network with zero modules and zero connections `schedule` succeeds and returns
an order whose module list is empty. -/
theorem schedule_empty_network :
    BoostGraphSerialScheduler.schedule { modules := [], connections := [] } =
      Except.ok { list := [] } := rfl

/-- C8: for every network that has a connection whose source or destination identifier is not
a module of the snapshot, `schedule` fails with the dangling-connection error naming the first
such connection, instead of returning an order computed without it. -/
theorem schedule_rejects_dangling (network : NetworkState)
    (h : ∃ c ∈ network.connections,
      c.sourceModule ∉ network.moduleIds ∨ c.destModule ∉ network.moduleIds) :
    ∃ c ∈ network.connections,
      (c.sourceModule ∉ network.moduleIds ∨ c.destModule ∉ network.moduleIds) ∧
      BoostGraphSerialScheduler.schedule network =
        Except.error (StructuralError.danglingConnection c) := by
  obtain ⟨c, hc, hd, herr⟩ := collectEdges_of_dangling h
  exact ⟨c, hc, hd, schedule_of_collect_error herr⟩

theorem schedule_rejects_dangling_witness :
    (∃ c ∈ staleConnection.connections,
      c.sourceModule ∉ staleConnection.moduleIds ∨ c.destModule ∉ staleConnection.moduleIds) ∧
    ∃ c ∈ staleConnection.connections,
      (c.sourceModule ∉ staleConnection.moduleIds ∨
        c.destModule ∉ staleConnection.moduleIds) ∧
      BoostGraphSerialScheduler.schedule staleConnection =
        Except.error (StructuralError.danglingConnection c) :=
  ⟨⟨mkConn 3 11, by decide, by decide⟩,
    schedule_rejects_dangling staleConnection ⟨mkConn 3 11, by decide, by decide⟩⟩

/-- C6: when the analyzer `schedule` builds is `a`, the returned list is the topological range
of `a` mapped element by element through `moduleAt`: it has the length of the range, its i-th
element is `moduleAt` of the i-th vertex of the range, and that vertex is an index of the
reverse lookup, so `moduleAt` reads a stored identifier. -/
theorem schedule_maps_topological_range (network : NetworkState) (a : NetworkGraphAnalyzer)
    (h : NetworkGraphAnalyzer.create network ExecuteAllModules.Instance true = Except.ok a) :
    ∃ order, BoostGraphSerialScheduler.schedule network = Except.ok order ∧
      order.list = a.topologicalRange.map a.moduleAt ∧
      order.list.length = a.topologicalRange.length ∧
      ∀ (i : Nat) (hi : i < a.topologicalRange.length),
        order.list[i]? = some (a.moduleAt (a.topologicalRange.get ⟨i, hi⟩)) ∧
        a.moduleIdLookup[a.topologicalRange.get ⟨i, hi⟩]? =
          some (a.moduleAt (a.topologicalRange.get ⟨i, hi⟩)) := by
  refine ⟨⟨a.topologicalRange.map a.moduleAt⟩, ?_, rfl, ?_, ?_⟩
  · simp only [BoostGraphSerialScheduler.schedule, h]
  · simp
  · intro i hi
    constructor
    · simp [List.getElem?_map, List.getElem?_eq_getElem hi]
    · obtain ⟨edges, hcol, _, ha⟩ := create_ok_inv h
      have htr := (kahn_spec (g := graphOf network edges) (idAt network.moduleIds)
        (collectEdges_ok_nodup hcol)).1
      have hmem : a.topologicalRange.get ⟨i, hi⟩ ∈ a.topologicalRange := List.get_mem _ _ _
      have hlt : a.topologicalRange.get ⟨i, hi⟩ < a.moduleIdLookup.length := by
        generalize a.topologicalRange.get ⟨i, hi⟩ = v at hmem
        subst ha
        exact htr.lt (List.mem_of_mem_filter hmem)
      exact getElem?_idAt hlt

theorem schedule_maps_topological_range_witness :
    NetworkGraphAnalyzer.create twoPairsInterleaved ExecuteAllModules.Instance true =
      Except.ok { moduleIdLookup := [4, 3, 2, 1],
                  graph := { vertexCount := 4, edges := [(3, 0), (2, 1)] },
                  order := [3, 2, 1, 0] } ∧
    ∃ order, BoostGraphSerialScheduler.schedule twoPairsInterleaved = Except.ok order ∧
      order.list = [1, 2, 3, 4] :=
  ⟨rfl, (schedule_maps_topological_range twoPairsInterleaved
      { moduleIdLookup := [4, 3, 2, 1],
        graph := { vertexCount := 4, edges := [(3, 0), (2, 1)] },
        order := [3, 2, 1, 0] } rfl).imp (fun _ hp => ⟨hp.1, hp.2.1⟩)⟩

/-- C7: `schedule` builds its analyzer with the `ExecuteAllModules` policy, which is the
Execute-All variant; that policy includes every module, so the analyzer's range is the whole
topological order and every module of the snapshot is in a returned list. -/
theorem schedule_uses_executeAll (network : NetworkState) :
    BoostGraphSerialScheduler.schedule network =
      Except.map (fun a => ModuleExecutionOrder.mk (a.topologicalRange.map a.moduleAt))
        (NetworkGraphAnalyzer.create network ExecutionPolicy.executeAll true) ∧
    (∀ (g : DependencyGraph) (v : Nat),
      ExecuteAllModules.Instance.isIncluded network g v = true) ∧
    (∀ (g : DependencyGraph) (l : List Nat),
      l.filter (fun v => ExecuteAllModules.Instance.isIncluded network g v) = l) ∧
    (∀ order, BoostGraphSerialScheduler.schedule network = Except.ok order →
      ∀ m ∈ network.modules, m.id ∈ order.list) := by
  refine ⟨?_, fun _ _ => rfl, fun g l => filter_executeAll network g l, ?_⟩
  · unfold BoostGraphSerialScheduler.schedule ExecuteAllModules.Instance
    cases NetworkGraphAnalyzer.create network ExecutionPolicy.executeAll true <;> rfl
  · intro order h m hm
    rw [(schedule_ok_perm h).mem_iff]
    exact List.mem_map_of_mem _ hm

/-! ## The tie-break in terms of modules -/

/-- The tie-break of a trace, read through the reverse lookup. -/
theorem trace_tie_break {network : NetworkState} {edges : List (Nat × Nat)}
    (hcol : collectEdges network.moduleIds network.connections = Except.ok edges)
    (huniq : UniqueIds network) {l : List Nat}
    (htr : KahnTrace (graphOf network edges) (idAt network.moduleIds) l)
    {pre post : List Nat} {v : Nat} (hsplit : l = pre ++ v :: post) :
    ModuleReady network (pre.map (idAt network.moduleIds)) (idAt network.moduleIds v) ∧
      ∀ m, ModuleReady network (pre.map (idAt network.moduleIds)) m →
        idAt network.moduleIds v ≤ m := by
  obtain ⟨⟨hvlt, hvpre, hpreds⟩, hmin⟩ := htr pre v post hsplit
  have hvlt2 : v < network.moduleIds.length := hvlt
  have hprelt : ∀ x ∈ pre, x < network.moduleIds.length := fun x hx =>
    htr.lt (by rw [hsplit]; exact List.mem_append_left _ hx)
  have hdang := noDangling_of_collect hcol
  have hin := edgesInRange_of_collect hcol
  refine ⟨⟨idAt_mem hvlt2, ?_, ?_⟩, ?_⟩
  · intro hmem
    obtain ⟨x, hx, hxe⟩ := List.mem_map.mp hmem
    have : x = v := idAt_inj huniq (hprelt x hx) hvlt2 hxe
    subst this
    exact hvpre hx
  · intro c hc hdst
    have hedge := edge_of_connected hcol (a := c.sourceModule) (b := c.destModule)
      ⟨c, hc, rfl, rfl⟩
    rw [hdst, indexOf_idAt huniq hvlt2] at hedge
    have hsrc := hpreds _ hedge
    have := List.mem_map_of_mem (idAt network.moduleIds) hsrc
    rwa [idAt_indexOf (hdang c hc).1] at this
  · rintro m ⟨hm, hmpre, hmpreds⟩
    have hmlt : network.moduleIds.indexOf m < network.moduleIds.length :=
      List.indexOf_lt_length.mpr hm
    have hready : Ready (graphOf network edges) pre (network.moduleIds.indexOf m) := by
      refine ⟨hmlt, ?_, ?_⟩
      · intro hmem
        apply hmpre
        have := List.mem_map_of_mem (idAt network.moduleIds) hmem
        rwa [idAt_indexOf hm] at this
      · intro u hu
        have hult : u < network.moduleIds.length := (hin _ hu).1
        obtain ⟨c, hc, hcs, hcd⟩ := connected_of_edge hcol hu
        rw [idAt_indexOf hm] at hcd
        have hsrc := hmpreds c hc hcd
        rw [hcs] at hsrc
        obtain ⟨y, hy, hye⟩ := List.mem_map.mp hsrc
        have : y = u := idAt_inj huniq (hprelt y hy) hult hye
        subst this
        exact hy
    have := hmin _ hready
    rwa [idAt_indexOf hm] at this

/-- C9: for every acyclic network (with unique identifiers) the order `schedule` returns
follows the identifier tie-break: an order is returned whenever no connection dangles, and at
every position of a returned order the module emitted is ready after the modules before it
and has the smallest identifier among the modules that are ready there (not yet emitted, all
upstream modules emitted).  For the two unconnected pairs A→B and C→D the order is A, B, C,
D when the identifiers ascend in that sequence and A, C, D, B when they ascend as A, C, D, B. -/
theorem schedule_tie_break (network : NetworkState) (hacy : Acyclic network)
    (huniq : UniqueIds network) :
    (NoDangling network →
      ∃ order, BoostGraphSerialScheduler.schedule network = Except.ok order) ∧
    (∀ order, BoostGraphSerialScheduler.schedule network = Except.ok order →
      ∀ (i : Nat) (hi : i < order.list.length),
        ModuleReady network (order.list.take i) (order.list.get ⟨i, hi⟩) ∧
        ∀ m, ModuleReady network (order.list.take i) m → order.list.get ⟨i, hi⟩ ≤ m) ∧
    BoostGraphSerialScheduler.schedule twoPairs = Except.ok ⟨[1, 2, 3, 4]⟩ ∧
    BoostGraphSerialScheduler.schedule twoPairsInterleaved = Except.ok ⟨[1, 2, 3, 4]⟩ := by
  refine ⟨fun hnd => schedule_ok_of_acyclic hacy hnd, ?_, rfl, rfl⟩
  intro order h i hi
  obtain ⟨edges, hcol, hlen, hlist⟩ := schedule_ok_inv h
  have htr := (kahn_spec (g := graphOf network edges) (idAt network.moduleIds)
    (collectEdges_ok_nodup hcol)).1
  obtain ⟨list⟩ := order
  simp only at hlist hi ⊢
  subst hlist
  have hi2 : i < (kahn (graphOf network edges) (idAt network.moduleIds)).length := by
    simpa using hi
  have hsplit : kahn (graphOf network edges) (idAt network.moduleIds) =
      (kahn (graphOf network edges) (idAt network.moduleIds)).take i ++
        (kahn (graphOf network edges) (idAt network.moduleIds))[i] ::
          (kahn (graphOf network edges) (idAt network.moduleIds)).drop (i + 1) := by
    rw [← List.drop_eq_getElem_cons hi2, List.take_append_drop]
  have key := trace_tie_break hcol huniq htr hsplit
  rw [List.map_take] at key
  simpa using key

theorem schedule_tie_break_witness :
    Acyclic twoPairsInterleaved ∧ UniqueIds twoPairsInterleaved ∧
    BoostGraphSerialScheduler.schedule twoPairsInterleaved = Except.ok ⟨[1, 2, 3, 4]⟩ ∧
    (ModuleReady twoPairsInterleaved [1] 2 ∧
      ∀ m, ModuleReady twoPairsInterleaved [1] m → 2 ≤ m) :=
  ⟨acyclic_of_increasing (by decide), by decide, rfl,
    (schedule_tie_break twoPairsInterleaved (acyclic_of_increasing (by decide))
      (by decide)).2.1 ⟨[1, 2, 3, 4]⟩ rfl 1 (by decide)⟩

/-! ## Successive calls and re-enumerated snapshots -/

/-- The policy slot is read: a call made with another policy object in the slot returns another
list for the same snapshot. -/
theorem scheduleIn_reads_slot :
    (BoostGraphSerialScheduler.scheduleIn
      { executeAllInstance := some ExecutionPolicy.executeAffected } twoPairs).1 =
        Except.ok ⟨[]⟩ ∧
    BoostGraphSerialScheduler.schedule twoPairs = Except.ok ⟨[1, 2, 3, 4]⟩ := ⟨rfl, rfl⟩

theorem mem_expandAffected {g : DependencyGraph} {s : List Nat} {w : Nat} :
    w ∈ expandAffected g s ↔
      w < g.vertexCount ∧ (w ∈ s ∨ ∃ u ∈ s, (u, w) ∈ g.edges) := by
  unfold expandAffected
  rw [List.mem_filter, List.mem_range, Bool.or_eq_true, decide_eq_true_iff, List.any_eq_true]
  constructor
  · rintro ⟨hlt, h | ⟨e, he, hp⟩⟩
    · exact ⟨hlt, Or.inl h⟩
    · rw [Bool.and_eq_true, decide_eq_true_iff, decide_eq_true_iff] at hp
      refine ⟨hlt, Or.inr ⟨e.1, hp.1, ?_⟩⟩
      rw [← hp.2]
      exact he
  · rintro ⟨hlt, h | ⟨u, hu, he⟩⟩
    · exact ⟨hlt, Or.inl h⟩
    · refine ⟨hlt, Or.inr ⟨(u, w), he, ?_⟩⟩
      simp [hu]

theorem expandAffected_sub (g : DependencyGraph) (s : List Nat) :
    expandAffected g s ⊆ List.range g.vertexCount := fun _ hw =>
  List.mem_range.mpr (mem_expandAffected.mp hw).1

theorem expandAffected_nodup (g : DependencyGraph) (s : List Nat) :
    (expandAffected g s).Nodup :=
  (List.nodup_range g.vertexCount).filter _

theorem sub_expandAffected {g : DependencyGraph} {s : List Nat}
    (hs : s ⊆ List.range g.vertexCount) : s ⊆ expandAffected g s := fun _ hw =>
  mem_expandAffected.mpr ⟨List.mem_range.mp (hs hw), Or.inl hw⟩

theorem expandAffected_of_closed {g : DependencyGraph} {s : List Nat}
    (hs : s ⊆ List.range g.vertexCount) (hc : EdgeClosed g s) (w : Nat) :
    w ∈ expandAffected g s ↔ w ∈ s := by
  constructor
  · intro hw
    rcases (mem_expandAffected.mp hw).2 with h | ⟨u, hu, he⟩
    · exact h
    · exact hc u hu w he
  · exact fun hw => sub_expandAffected hs hw

theorem propagate_sub_nodup {g : DependencyGraph} :
    ∀ (k : Nat) {s : List Nat}, s ⊆ List.range g.vertexCount → s.Nodup →
      propagate g k s ⊆ List.range g.vertexCount ∧ (propagate g k s).Nodup
  | 0, _, hs, hnd => ⟨hs, hnd⟩
  | k + 1, s, _, _ =>
    propagate_sub_nodup k (expandAffected_sub g s) (expandAffected_nodup g s)

theorem sub_propagate {g : DependencyGraph} :
    ∀ (k : Nat) {s : List Nat}, s ⊆ List.range g.vertexCount → s ⊆ propagate g k s
  | 0, _, _ => fun _ hw => hw
  | k + 1, s, hs => fun _ hw =>
    sub_propagate k (expandAffected_sub g s) (sub_expandAffected hs hw)

theorem propagate_of_closed {g : DependencyGraph} :
    ∀ (k : Nat) {s : List Nat}, s ⊆ List.range g.vertexCount → EdgeClosed g s →
      ∀ w, w ∈ propagate g k s ↔ w ∈ s
  | 0, _, _, _ => fun _ => Iff.rfl
  | k + 1, s, hs, hc => by
    intro w
    have hmem := expandAffected_of_closed hs hc
    have hc2 : EdgeClosed g (expandAffected g s) := by
      intro u hu x he
      exact (hmem x).mpr (hc u ((hmem u).mp hu) x he)
    have := propagate_of_closed k (expandAffected_sub g s) hc2 w
    rw [hmem w] at this
    exact this

/-- Every affected vertex is reached from a starting vertex. -/
theorem propagate_sound {g : DependencyGraph} :
    ∀ (k : Nat) {s : List Nat} {w : Nat}, w ∈ propagate g k s →
      ∃ f ∈ s, Relation.ReflTransGen (EdgeRel g) f w
  | 0, _, w, hw => ⟨w, hw, Relation.ReflTransGen.refl⟩
  | k + 1, s, _, hw => by
    obtain ⟨f, hf, hfw⟩ := propagate_sound k (s := expandAffected g s) hw
    rcases (mem_expandAffected.mp hf).2 with h | ⟨u, hu, he⟩
    · exact ⟨f, h, hfw⟩
    · exact ⟨u, hu, Relation.ReflTransGen.head he hfw⟩

/-- After `k` rounds the set is closed under edges or has grown by at least `k` vertices. -/
theorem propagate_closed_or_grows {g : DependencyGraph} (hin : EdgesInRange g) :
    ∀ (k : Nat) {s : List Nat}, s ⊆ List.range g.vertexCount → s.Nodup →
      EdgeClosed g (propagate g k s) ∨ s.length + k ≤ (propagate g k s).length
  | 0, _, _, _ => Or.inr (Nat.le_refl _)
  | k + 1, s, hs, hnd => by
    have hle : s.length ≤ (expandAffected g s).length :=
      (List.subperm_of_subset hnd (sub_expandAffected hs)).length_le
    by_cases hgrow : s.length < (expandAffected g s).length
    · rcases propagate_closed_or_grows hin k (expandAffected_sub g s)
        (expandAffected_nodup g s) with h | h
      · exact Or.inl h
      · right
        show s.length + (k + 1) ≤ (propagate g k (expandAffected g s)).length
        omega
    · left
      have hperm : s.Perm (expandAffected g s) :=
        (List.subperm_of_subset hnd (sub_expandAffected hs)).perm_of_length_le (by omega)
      have hc : EdgeClosed g s := by
        intro u hu w he
        have hw : w ∈ expandAffected g s := by
          exact mem_expandAffected.mpr ⟨(hin _ he).2, Or.inr ⟨u, hu, he⟩⟩
        exact hperm.mem_iff.mpr hw
      intro u hu w he
      have hmem := propagate_of_closed (k + 1) hs hc
      exact (hmem w).mpr (hc u ((hmem u).mp hu) w he)

/-- After one round per vertex the set is closed under the edges of the graph. -/
theorem propagate_closed {g : DependencyGraph} (hin : EdgesInRange g) {s : List Nat}
    (hs : s ⊆ List.range g.vertexCount) (hnd : s.Nodup) :
    EdgeClosed g (propagate g g.vertexCount s) := by
  rcases propagate_closed_or_grows hin g.vertexCount hs hnd with h | h
  · exact h
  · obtain ⟨hsub, hnodup⟩ := propagate_sub_nodup (g := g) g.vertexCount hs hnd
    have hsp := List.subperm_of_subset hnodup hsub
    have hperm : (propagate g g.vertexCount s).Perm (List.range g.vertexCount) := by
      apply hsp.perm_of_length_le
      simp only [List.length_range]
      omega
    intro u _ w he
    exact hperm.mem_iff.mpr (List.mem_range.mpr (hin _ he).2)

/-- The vertices the propagation ends with are exactly those reached from a starting vertex. -/
theorem mem_propagate_iff {g : DependencyGraph} (hin : EdgesInRange g) {s : List Nat}
    (hs : s ⊆ List.range g.vertexCount) (hnd : s.Nodup) (w : Nat) :
    w ∈ propagate g g.vertexCount s ↔ ∃ f ∈ s, Relation.ReflTransGen (EdgeRel g) f w := by
  constructor
  · exact propagate_sound g.vertexCount
  · rintro ⟨f, hf, hfw⟩
    have hclosed := propagate_closed hin hs hnd
    induction hfw with
    | refl => exact sub_propagate g.vertexCount hs hf
    | tail _ he ih => exact hclosed _ ih _ he

theorem mem_flaggedVertices {network : NetworkState} {v : Nat} :
    v ∈ flaggedVertices network ↔
      ∃ m, network.modules[v]? = some m ∧ m.needsExecution = true := by
  unfold flaggedVertices
  rw [List.mem_filter, List.mem_range]
  constructor
  · rintro ⟨hlt, h⟩
    rw [List.getElem?_eq_getElem hlt] at h
    exact ⟨network.modules[v], List.getElem?_eq_getElem hlt, h⟩
  · rintro ⟨m, hm, hflag⟩
    have hlt : v < network.modules.length := by
      by_contra hcon
      rw [List.getElem?_eq_none (by omega)] at hm
      simp at hm
    refine ⟨hlt, ?_⟩
    rw [hm]
    exact hflag

theorem moduleIds_length (network : NetworkState) :
    network.moduleIds.length = network.modules.length := by
  simp [NetworkState.moduleIds]

/-- The affected vertices are the vertices reached from a flagged vertex along edges. -/
theorem mem_affectedVertices {network : NetworkState} {edges : List (Nat × Nat)}
    (hcol : collectEdges network.moduleIds network.connections = Except.ok edges) (w : Nat) :
    w ∈ affectedVertices network (graphOf network edges) ↔
      ∃ f ∈ flaggedVertices network,
        Relation.ReflTransGen (EdgeRel (graphOf network edges)) f w := by
  have hs : flaggedVertices network ⊆ List.range (graphOf network edges).vertexCount := by
    intro v hv
    have := List.mem_range.mp (List.mem_of_mem_filter hv)
    rw [← moduleIds_length] at this
    exact List.mem_range.mpr this
  have hnd : (flaggedVertices network).Nodup := (List.nodup_range _).filter _
  exact mem_propagate_iff (edgesInRange_of_collect hcol) hs hnd w

theorem moduleIds_getElem? {network : NetworkState} {v : Nat} {m : ModuleState}
    (h : network.modules[v]? = some m) : network.moduleIds[v]? = some m.id := by
  simp [NetworkState.moduleIds, List.getElem?_map, h]

/-- Under unique identifiers the vertex of a module holds that module. -/
theorem modules_getElem?_indexOf {network : NetworkState} (huniq : UniqueIds network)
    {m : ModuleState} (hm : m ∈ network.modules) :
    network.modules[network.moduleIds.indexOf m.id]? = some m := by
  obtain ⟨j, hj, hjm⟩ := List.mem_iff_getElem.mp hm
  have hj2 : j < network.moduleIds.length := by rw [moduleIds_length]; exact hj
  have hid : network.moduleIds[j] = m.id := by
    simp [NetworkState.moduleIds, hjm]
  have hidx : network.moduleIds.indexOf m.id = j := by
    rw [← hid]
    exact List.indexOf_getElem huniq j hj2
  rw [hidx, List.getElem?_eq_getElem hj, hjm]

/-- The inclusion test of Execute-Affected on the vertex of a module is the closure rule. -/
theorem isIncluded_executeAffected_iff {network : NetworkState} {edges : List (Nat × Nat)}
    (hcol : collectEdges network.moduleIds network.connections = Except.ok edges)
    (huniq : UniqueIds network) {m : ModuleState} (hm : m ∈ network.modules) :
    ExecutionPolicy.executeAffected.isIncluded network (graphOf network edges)
        (network.moduleIds.indexOf m.id) = true ↔ Affected network m := by
  have hmid : m.id ∈ network.moduleIds := List.mem_map_of_mem _ hm
  show decide (_ ∈ affectedVertices network (graphOf network edges)) = true ↔ _
  rw [decide_eq_true_iff, mem_affectedVertices hcol]
  constructor
  · rintro ⟨fv, hfv, hpath⟩
    obtain ⟨f, hf, hflag⟩ := mem_flaggedVertices.mp hfv
    have hfid : idAt network.moduleIds fv = f.id := idAt_of_getElem? (moduleIds_getElem? hf)
    rcases Relation.reflTransGen_iff_eq_or_transGen.mp hpath with heq | htrans
    · left
      have hm2 := modules_getElem?_indexOf huniq hm
      rw [heq, hf] at hm2
      simp only [Option.some.injEq] at hm2
      rw [← hm2]
      exact hflag
    · right
      refine ⟨f, List.getElem?_mem hf, hflag, ?_⟩
      have := Relation.TransGen.lift (idAt network.moduleIds)
        (fun _ _ he => connected_of_edge hcol he) htrans
      rwa [hfid, idAt_indexOf hmid] at this
  · rintro (hflag | ⟨f, hf, hflag, hpath⟩)
    · exact ⟨_, mem_flaggedVertices.mpr ⟨m, modules_getElem?_indexOf huniq hm, hflag⟩,
        Relation.ReflTransGen.refl⟩
    · refine ⟨network.moduleIds.indexOf f.id,
        mem_flaggedVertices.mpr ⟨f, modules_getElem?_indexOf huniq hf, hflag⟩, ?_⟩
      apply Relation.TransGen.to_reflTransGen
      exact Relation.TransGen.lift (fun a => network.moduleIds.indexOf a)
        (fun _ _ hab => edge_of_connected hcol hab) hpath

/-- C10: under the Execute-Affected policy (on a network with unique identifiers and no
dangling connection) a module is included if and only if its needs-execution flag is set or it
is reachable along connections from a module whose flag is set: this is what the policy's
inclusion test answers on the dependency graph, and, when the network is acyclic so that a pass
takes place, it is exactly when the module is in the analyzer's emitted range; in particular a
clean module with a flagged upstream module is included. -/
theorem executeAffected_included (network : NetworkState) (hnd : NoDangling network)
    (huniq : UniqueIds network) :
    ∃ edges, collectEdges network.moduleIds network.connections = Except.ok edges ∧
      (∀ m ∈ network.modules,
        (ExecutionPolicy.executeAffected.isIncluded network (graphOf network edges)
            (network.moduleIds.indexOf m.id) = true ↔ Affected network m)) ∧
      (Acyclic network →
        ∃ a, NetworkGraphAnalyzer.create network ExecutionPolicy.executeAffected true =
            Except.ok a ∧ a.graph = graphOf network edges ∧
          ∀ m ∈ network.modules,
            (m.id ∈ a.topologicalRange.map a.moduleAt ↔ Affected network m) ∧
            (m.needsExecution = false →
              (∃ f ∈ network.modules, f.needsExecution = true ∧
                Relation.TransGen (Connected network) f.id m.id) →
              m.id ∈ a.topologicalRange.map a.moduleAt)) := by
  obtain ⟨edges, hcol⟩ := collectEdges_of_noDangling hnd
  refine ⟨edges, hcol, fun m hm => isIncluded_executeAffected_iff hcol huniq hm, ?_⟩
  intro hacy
  have hnodup := collectEdges_ok_nodup hcol
  have hlen := kahn_length_of_acyclic (g := graphOf network edges) (idAt network.moduleIds)
    hnodup (edgesInRange_of_collect hcol) (graphAcyclic_of_acyclic hcol hacy)
  have htr := (kahn_spec (g := graphOf network edges) (idAt network.moduleIds) hnodup).1
  have hc : hasCycle (graphOf network edges) (idAt network.moduleIds) = false := by
    simp only [hasCycle, decide_eq_false_iff_not]
    omega
  refine ⟨_, by rw [create_of_collect_ok _ hcol, hc]; rfl, rfl, ?_⟩
  intro m hm
  have hmid : m.id ∈ network.moduleIds := List.mem_map_of_mem _ hm
  have hlt : network.moduleIds.indexOf m.id < network.moduleIds.length :=
    List.indexOf_lt_length.mpr hmid
  have hincl := isIncluded_executeAffected_iff hcol huniq hm
  have hpass : m.id ∈ ((kahn (graphOf network edges) (idAt network.moduleIds)).filter
      (fun v => ExecutionPolicy.executeAffected.isIncluded network (graphOf network edges)
        v)).map (idAt network.moduleIds) ↔ Affected network m := by
    rw [← hincl, List.mem_map]
    constructor
    · rintro ⟨v, hv, hvid⟩
      obtain ⟨hvk, hvi⟩ := List.mem_filter.mp hv
      have hvlt : v < network.moduleIds.length := htr.lt hvk
      have : v = network.moduleIds.indexOf m.id := by
        rw [← hvid, indexOf_idAt huniq hvlt]
      rw [← this]
      exact hvi
    · intro hi
      refine ⟨_, List.mem_filter.mpr ⟨?_, hi⟩, idAt_indexOf hmid⟩
      exact (htr.perm_range hlen).mem_iff.mpr (List.mem_range.mpr hlt)
  exact ⟨hpass, fun _ hup => hpass.mpr (Or.inr hup)⟩

theorem executeAffected_included_witness :
    NoDangling flaggedChain ∧ UniqueIds flaggedChain ∧ Acyclic flaggedChain ∧
    NetworkGraphAnalyzer.create flaggedChain ExecutionPolicy.executeAffected true =
      Except.ok { moduleIdLookup := [1, 2, 3],
                  graph := { vertexCount := 3, edges := [(0, 1), (1, 2)] },
                  order := [0, 1, 2] } ∧
    NetworkGraphAnalyzer.create cleanUpstream ExecutionPolicy.executeAffected true =
      Except.ok { moduleIdLookup := [1, 2, 3],
                  graph := { vertexCount := 3, edges := [(0, 1), (1, 2)] },
                  order := [1, 2] } ∧
    ∃ edges, collectEdges flaggedChain.moduleIds flaggedChain.connections = Except.ok edges ∧
      (∀ m ∈ flaggedChain.modules,
        (ExecutionPolicy.executeAffected.isIncluded flaggedChain (graphOf flaggedChain edges)
            (flaggedChain.moduleIds.indexOf m.id) = true ↔ Affected flaggedChain m)) ∧
      (Acyclic flaggedChain →
        ∃ a, NetworkGraphAnalyzer.create flaggedChain ExecutionPolicy.executeAffected true =
            Except.ok a ∧ a.graph = graphOf flaggedChain edges ∧
          ∀ m ∈ flaggedChain.modules,
            (m.id ∈ a.topologicalRange.map a.moduleAt ↔ Affected flaggedChain m) ∧
            (m.needsExecution = false →
              (∃ f ∈ flaggedChain.modules, f.needsExecution = true ∧
                Relation.TransGen (Connected flaggedChain) f.id m.id) →
              m.id ∈ a.topologicalRange.map a.moduleAt)) :=
  ⟨by decide, by decide, acyclic_of_increasing (by decide), rfl, rfl,
    executeAffected_included flaggedChain (by decide) (by decide)⟩

/-! ## ErodeFieldData -/

theorem runImpl_null (algo : ErodeFieldDataAlgo) (clone : CloneOutcome) (output : FieldHandle) :
    algo.runImpl clone none output =
      { returned := false, output := output, errors := ["No input field"], entered := none } :=
  rfl

theorem runImpl_nonlinear (algo : ErodeFieldDataAlgo) (clone : CloneOutcome)
    (output : FieldHandle) {field : Field} (h : field.info.is_nonlinear = true) :
    algo.runImpl clone (some field) output =
      { returned := false, output := output,
        errors := ["This function has not yet been defined for non-linear elements"],
        entered := none } := by
  simp [ErodeFieldDataAlgo.runImpl, h]

theorem runImpl_nodata (algo : ErodeFieldDataAlgo) (clone : CloneOutcome)
    (output : FieldHandle) {field : Field} (h1 : field.info.is_nonlinear = false)
    (h2 : field.info.is_nodata = true) :
    algo.runImpl clone (some field) output =
      { returned := false, output := output,
        errors := ["There is no data defined in the input field"], entered := none } := by
  simp [ErodeFieldDataAlgo.runImpl, h1, h2]

theorem runImpl_nonscalar (algo : ErodeFieldDataAlgo) (clone : CloneOutcome)
    (output : FieldHandle) {field : Field} (h1 : field.info.is_nonlinear = false)
    (h2 : field.info.is_nodata = false) (h3 : field.info.is_scalar = false) :
    algo.runImpl clone (some field) output =
      { returned := false, output := output,
        errors := ["The field data is not scalar data"], entered := none } := by
  simp [ErodeFieldDataAlgo.runImpl, h1, h2, h3]

/-- When the four checks pass, `runImpl` is the dispatch to an erosion routine. -/
theorem runImpl_checks_pass (algo : ErodeFieldDataAlgo) (clone : CloneOutcome)
    (output : FieldHandle) {field : Field} (h1 : field.info.is_nonlinear = false)
    (h2 : field.info.is_nodata = false) (h3 : field.info.is_scalar = true) :
    algo.runImpl clone (some field) output =
      if field.info.is_constantdata then
        match runImplTypeDispatch field.info with
        | some DATA => detail.ErodeFieldDataElemV DATA algo clone field output
        | none => { returned := false, output := output, errors := [], entered := none }
      else if field.info.is_lineardata then
        match runImplTypeDispatch field.info with
        | some DATA => detail.ErodeFieldDataNodeV DATA algo clone field output
        | none => { returned := false, output := output, errors := [], entered := none }
      else
        { returned := false, output := output, errors := [], entered := none } := by
  simp [ErodeFieldDataAlgo.runImpl, h1, h2, h3]

/-- A failing check leaves no trace of an erosion routine. -/
theorem runImpl_entered (algo : ErodeFieldDataAlgo) (clone : CloneOutcome)
    (input output : FieldHandle) (h : (algo.runImpl clone input output).entered ≠ none) :
    ∃ field, input = some field ∧ field.info.is_nonlinear = false ∧
      field.info.is_nodata = false ∧ field.info.is_scalar = true := by
  cases input with
  | none => exact absurd rfl h
  | some field =>
    refine ⟨field, rfl, ?_⟩
    cases h1 : field.info.is_nonlinear with
    | true => rw [runImpl_nonlinear algo clone output h1] at h; exact absurd rfl h
    | false =>
      cases h2 : field.info.is_nodata with
      | true => rw [runImpl_nodata algo clone output h1 h2] at h; exact absurd rfl h
      | false =>
        cases h3 : field.info.is_scalar with
        | false => rw [runImpl_nonscalar algo clone output h1 h2 h3] at h; exact absurd rfl h
        | true => exact ⟨rfl, rfl, rfl⟩

/-- C11: `runImpl` returns false and leaves the output handle as it was whenever the input
field is null, has non-linear elements, has no data or has non-scalar data; the checks are made
in that order, so the reported error is that of the first failing check; and an erosion routine
is entered only when all four checks pass, in which case `runImpl` is the dispatch to it. -/
theorem runImpl_input_checks (algo : ErodeFieldDataAlgo) (clone : CloneOutcome)
    (output : FieldHandle) :
    algo.runImpl clone none output =
      { returned := false, output := output, errors := ["No input field"],
        entered := none } ∧
    (∀ field : Field, field.info.is_nonlinear = true →
      algo.runImpl clone (some field) output =
        { returned := false, output := output,
          errors := ["This function has not yet been defined for non-linear elements"],
          entered := none }) ∧
    (∀ field : Field, field.info.is_nonlinear = false → field.info.is_nodata = true →
      algo.runImpl clone (some field) output =
        { returned := false, output := output,
          errors := ["There is no data defined in the input field"], entered := none }) ∧
    (∀ field : Field, field.info.is_nonlinear = false → field.info.is_nodata = false →
      field.info.is_scalar = false →
      algo.runImpl clone (some field) output =
        { returned := false, output := output,
          errors := ["The field data is not scalar data"], entered := none }) ∧
    (∀ field : Field,
      (field.info.is_nonlinear = true ∨ field.info.is_nodata = true ∨
        field.info.is_scalar = false) →
      (algo.runImpl clone (some field) output).returned = false ∧
      (algo.runImpl clone (some field) output).output = output ∧
      (algo.runImpl clone (some field) output).entered = none) ∧
    (∀ input : FieldHandle, (algo.runImpl clone input output).entered ≠ none →
      ∃ field, input = some field ∧ field.info.is_nonlinear = false ∧
        field.info.is_nodata = false ∧ field.info.is_scalar = true) ∧
    (∀ field : Field, field.info.is_nonlinear = false → field.info.is_nodata = false →
      field.info.is_scalar = true → field.info.is_constantdata = true →
      ∀ DATA, runImplTypeDispatch field.info = some DATA →
        algo.runImpl clone (some field) output =
          detail.ErodeFieldDataElemV DATA algo clone field output) ∧
    (∀ field : Field, field.info.is_nonlinear = false → field.info.is_nodata = false →
      field.info.is_scalar = true → field.info.is_constantdata = false →
      field.info.is_lineardata = true →
      ∀ DATA, runImplTypeDispatch field.info = some DATA →
        algo.runImpl clone (some field) output =
          detail.ErodeFieldDataNodeV DATA algo clone field output) := by
  refine ⟨rfl, fun _ h => runImpl_nonlinear algo clone output h,
    fun _ h1 h2 => runImpl_nodata algo clone output h1 h2,
    fun _ h1 h2 h3 => runImpl_nonscalar algo clone output h1 h2 h3, ?_,
    fun input h => runImpl_entered algo clone input output h, ?_, ?_⟩
  · intro field hfail
    cases h1 : field.info.is_nonlinear with
    | true => rw [runImpl_nonlinear algo clone output h1]; exact ⟨rfl, rfl, rfl⟩
    | false =>
      cases h2 : field.info.is_nodata with
      | true => rw [runImpl_nodata algo clone output h1 h2]; exact ⟨rfl, rfl, rfl⟩
      | false =>
        cases h3 : field.info.is_scalar with
        | false => rw [runImpl_nonscalar algo clone output h1 h2 h3]; exact ⟨rfl, rfl, rfl⟩
        | true => simp [h1, h2, h3] at hfail
  · intro field h1 h2 h3 h4 DATA hd
    rw [runImpl_checks_pass algo clone output h1 h2 h3]
    simp [h4, hd]
  · intro field h1 h2 h3 h4 h5 DATA hd
    rw [runImpl_checks_pass algo clone output h1 h2 h3]
    simp [h4, h5, hd]

theorem runImpl_input_checks_witness :
    vectorField.info.is_nonlinear = true ∧ vectorField.info.is_scalar = false ∧
    ErodeFieldDataAlgo.new.runImpl { outputOk := true, bufferOk := true }
        (some vectorField) none =
      { returned := false, output := none,
        errors := ["This function has not yet been defined for non-linear elements"],
        entered := none } ∧
    (ErodeFieldDataAlgo.new.runImpl { outputOk := true, bufferOk := true }
        (some pathField) none).entered =
      some (ErosionRoutine.ErodeFieldDataNodeV ScalarType.double) ∧
    (ErodeFieldDataAlgo.new.runImpl { outputOk := true, bufferOk := true }
        (some pathField) none).output = some { pathField with fdata := [1, 1, 1] } :=
  ⟨rfl, rfl,
    (runImpl_input_checks ErodeFieldDataAlgo.new { outputOk := true, bufferOk := true }
      none).2.1 vectorField rfl,
    rfl, by decide⟩

/-- C12: `run` raises the algorithm processing error if and only if `runImpl` returns false on
the input field (called with a fresh null output handle); otherwise it returns an output whose
`OutputField` entry is exactly the output handle `runImpl` produced. -/
theorem run_throws_iff_runImpl_false (algo : ErodeFieldDataAlgo) (clone : CloneOutcome)
    (input : AlgorithmInput) :
    ((∃ err, (algo.run clone input).1 = Except.error err) ↔
      (algo.runImpl clone (input.get AlgorithmParameterName.InputField) none).returned =
        false) ∧
    ((algo.runImpl clone (input.get AlgorithmParameterName.InputField) none).returned =
        false →
      (algo.run clone input).1 = Except.error
        (AlgorithmError.AlgorithmProcessingException "False returned on legacy run call.")) ∧
    ((algo.runImpl clone (input.get AlgorithmParameterName.InputField) none).returned = true →
      ∃ output, (algo.run clone input).1 = Except.ok output ∧
        output.entry AlgorithmParameterName.OutputField =
          some (algo.runImpl clone (input.get AlgorithmParameterName.InputField) none).output ∧
        output.entries = [(AlgorithmParameterName.OutputField,
          (algo.runImpl clone (input.get AlgorithmParameterName.InputField) none).output)]) := by
  cases hr : (algo.runImpl clone (input.get AlgorithmParameterName.InputField) none).returned with
  | false =>
    have hrun : (algo.run clone input).1 = Except.error
        (AlgorithmError.AlgorithmProcessingException "False returned on legacy run call.") := by
      simp [ErodeFieldDataAlgo.run, hr]
    refine ⟨⟨fun _ => rfl, fun _ => ⟨_, hrun⟩⟩, fun _ => hrun, fun h => ?_⟩
    simp at h
  | true =>
    have hrun : (algo.run clone input).1 = Except.ok
        { entries := [(AlgorithmParameterName.OutputField,
          (algo.runImpl clone (input.get AlgorithmParameterName.InputField) none).output)] } := by
      simp [ErodeFieldDataAlgo.run, hr, AlgorithmOutput.assign]
    refine ⟨⟨?_, fun h => by simp at h⟩, fun h => by simp at h, fun _ => ⟨_, hrun, ?_, rfl⟩⟩
    · rintro ⟨err, herr⟩
      rw [hrun] at herr
      simp at herr
    · simp [AlgorithmOutput.entry]

theorem run_throws_iff_runImpl_false_witness :
    (ErodeFieldDataAlgo.new.run { outputOk := true, bufferOk := true }
      { get := fun _ => some vectorField }).1 =
        Except.error
          (AlgorithmError.AlgorithmProcessingException "False returned on legacy run call.") ∧
    (ErodeFieldDataAlgo.new.run { outputOk := true, bufferOk := true }
      { get := fun _ => some pathField }).1 =
        Except.ok { entries := [(AlgorithmParameterName.OutputField,
          some { pathField with fdata := [1, 1, 1] })] } :=
  ⟨(run_throws_iff_runImpl_false ErodeFieldDataAlgo.new { outputOk := true, bufferOk := true }
      { get := fun _ => some vectorField }).2.1 rfl, rfl⟩

/-! ## GenericIEPluginManager -/

theorem PluginMap.find_eq_none {table : PluginMap} {name : String}
    (h : name ∉ table.keys) : table.find name = none := by
  unfold PluginMap.find
  rw [List.find?_eq_none]
  intro e he hname
  apply h
  simp only [decide_eq_true_eq] at hname
  rw [← hname]
  exact List.mem_map_of_mem _ he

/-- With distinct keys, `find` returns the entry stored under the name. -/
theorem PluginMap.find_of_mem {name : String} {ptr : PluginPtr} :
    ∀ {entries : List (String × PluginPtr)}, (entries.map (fun e => e.1)).Nodup →
      (name, ptr) ∈ entries →
      PluginMap.find { entries := entries } name = some (name, ptr)
  | [], _, h => by simp at h
  | e :: rest, hnd, h => by
    rw [List.map_cons, List.nodup_cons] at hnd
    unfold PluginMap.find
    rw [List.find?_cons]
    rcases List.mem_cons.mp h with heq | hmem
    · subst heq
      simp
    · have hne : e.1 ≠ name := by
        intro heq
        apply hnd.1
        rw [heq]
        exact List.mem_map_of_mem (fun e => e.1) hmem
      simp only [hne, decide_False]
      exact PluginMap.find_of_mem hnd.2 hmem

/-- C15: `get_plugin(name)` returns null when the table has not been created or when `name` is
not a key of the table, and otherwise exactly the pointer stored under `name`; `numPlugins`
returns 0 when the table has not been created and the size of the table otherwise. -/
theorem get_plugin_and_numPlugins (name : String) :
    (∀ self : GenericIEPluginManager, self.pluginTable_ = none →
      self.get_plugin name = 0 ∧ self.numPlugins = 0) ∧
    (∀ (self : GenericIEPluginManager) (table : PluginMap), self.pluginTable_ = some table →
      name ∉ table.keys → self.get_plugin name = 0) ∧
    (∀ (self : GenericIEPluginManager) (table : PluginMap) (ptr : PluginPtr),
      self.pluginTable_ = some table → table.keys.Nodup → (name, ptr) ∈ table.entries →
      self.get_plugin name = ptr) ∧
    (∀ (self : GenericIEPluginManager) (table : PluginMap), self.pluginTable_ = some table →
      self.numPlugins = table.size) := by
  refine ⟨?_, ?_, ?_, ?_⟩
  · intro self h
    simp [GenericIEPluginManager.get_plugin, GenericIEPluginManager.numPlugins, h]
  · intro self table h hkey
    simp [GenericIEPluginManager.get_plugin, h, PluginMap.find_eq_none hkey]
  · intro self table ptr h hnd hmem
    obtain ⟨entries⟩ := table
    simp [GenericIEPluginManager.get_plugin, h, PluginMap.find_of_mem hnd hmem]
  · intro self table h
    simp [GenericIEPluginManager.numPlugins, h]

theorem get_plugin_and_numPlugins_witness :
    GenericIEPluginManager.get_plugin { pluginTable_ := none } "NrrdFile" = 0 ∧
    GenericIEPluginManager.get_plugin { pluginTable_ := some exampleTable } "Unknown" = 0 ∧
    GenericIEPluginManager.get_plugin { pluginTable_ := some exampleTable } "NrrdFile" = 8192 ∧
    GenericIEPluginManager.numPlugins { pluginTable_ := some exampleTable } = 2 :=
  ⟨((get_plugin_and_numPlugins "NrrdFile").1 { pluginTable_ := none } rfl).1,
    (get_plugin_and_numPlugins "Unknown").2.1 { pluginTable_ := some exampleTable }
      exampleTable rfl (by decide),
    (get_plugin_and_numPlugins "NrrdFile").2.2.1 { pluginTable_ := some exampleTable }
      exampleTable 8192 rfl (by decide) (by decide),
    (get_plugin_and_numPlugins "NrrdFile").2.2.2 { pluginTable_ := some exampleTable }
      exampleTable rfl⟩

/-! ## ColorMap: arithmetic on finite values -/

theorem Double.fin_add_fin (a b : ℚ) : Double.fin a + Double.fin b = Double.fin (a + b) := rfl

theorem Double.fin_sub_fin (a b : ℚ) : Double.fin a - Double.fin b = Double.fin (a - b) := by
  show Double.fin (a + -b) = Double.fin (a - b)
  rw [sub_eq_add_neg]

theorem Double.fin_mul_fin (a b : ℚ) : Double.fin a * Double.fin b = Double.fin (a * b) := rfl

theorem Double.lt_fin_fin (a b : ℚ) : (Double.fin a).lt (Double.fin b) = decide (a < b) := rfl

theorem Double.le_fin_fin (a b : ℚ) : (Double.fin a).le (Double.fin b) = decide (a ≤ b) := rfl

/-- The closing clamp `std::min(std::max(0., v), 1.)` yields a finite value of the unit
interval for every `v`, NaN and the infinities included. -/
theorem clamp_unit_interval (v : Double) :
    ∃ q : ℚ, Double.min (Double.max (Double.fin 0) v) (Double.fin 1) = Double.fin q ∧
      0 ≤ q ∧ q ≤ 1 := by
  cases v with
  | nan => exact ⟨0, by decide, le_refl 0, zero_le_one⟩
  | negInf => exact ⟨0, by decide, le_refl 0, zero_le_one⟩
  | posInf => exact ⟨1, by decide, zero_le_one, le_refl 1⟩
  | fin q =>
    by_cases h0 : (0 : ℚ) < q
    · by_cases h1 : (1 : ℚ) < q
      · refine ⟨1, ?_, zero_le_one, le_refl 1⟩
        simp [Double.min, Double.max, Double.lt_fin_fin, h0, h1]
      · refine ⟨q, ?_, le_of_lt h0, not_lt.mp h1⟩
        simp [Double.min, Double.max, Double.lt_fin_fin, h0, h1]
    · refine ⟨0, ?_, le_refl 0, zero_le_one⟩
      simp [Double.min, Double.max, Double.lt_fin_fin, h0]

/-! ## ColorMap -/

/-- C14: for every raw input value (NaN and the infinities included), every colour map, that
is every resolution, shift, invert flag, rescale scale and rescale shift, and whatever `tan`,
`pow` and the int conversion return, `getTransformedValue` returns a finite value in the closed
interval [0, 1]. -/
theorem getTransformedValue_unit_interval (env : Externals) (self : ColorMap) (f : Double) :
    ∃ q : ℚ, self.getTransformedValue env f = Double.fin q ∧ 0 ≤ q ∧ q ≤ 1 := by
  unfold ColorMap.getTransformedValue
  exact clamp_unit_interval _

theorem alpha_of_no_points (env : Externals) (self : ColorMap) (h : self.alphaLookup_ = [])
    (t : Double) : self.alpha env t = Double.fin 0.5 := by
  simp [ColorMap.alpha, h]

/-- C16: `getColorMapVal(v)` transforms `v` with `getTransformedValue` to `f` and returns the
colour whose red, green and blue are those of the colour strategy at `f` and whose alpha is
`alpha(f)`; for a map built with no alpha points that alpha is 0.5; and `valueToColor(scalar)`
is `getColorMapVal(scalar)`. -/
theorem getColorMapVal_components (env : Externals) (self : ColorMap) (v : Double) :
    self.getColorMapVal env v =
      { r := (self.color_.getColorMapVal env (self.getTransformedValue env v)).r
        g := (self.color_.getColorMapVal env (self.getTransformedValue env v)).g
        b := (self.color_.getColorMapVal env (self.getTransformedValue env v)).b
        a := self.alpha env (self.getTransformedValue env v) } ∧
    (self.alphaLookup_ = [] →
      (∀ t, self.alpha env t = Double.fin 0.5) ∧
      (self.getColorMapVal env v).a = Double.fin 0.5) ∧
    (∀ (name : String) (res : Nat) (shift : Double) (invert : Bool)
        (rescale_scale rescale_shift : Double),
      ((StandardColorMapFactory.create name res shift invert rescale_scale rescale_shift
        []).getColorMapVal env v).a = Double.fin 0.5) ∧
    self.valueToColor env v = self.getColorMapVal env v := by
  refine ⟨rfl, ?_, ?_, rfl⟩
  · intro h
    exact ⟨alpha_of_no_points env self h, alpha_of_no_points env self h _⟩
  · intro name res shift invert rescale_scale rescale_shift
    exact alpha_of_no_points env
      (StandardColorMapFactory.create name res shift invert rescale_scale rescale_shift [])
      rfl
      ((StandardColorMapFactory.create name res shift invert rescale_scale rescale_shift
        []).getTransformedValue env v)

theorem getColorMapVal_components_witness :
    ((StandardColorMapFactory.create "Rainbow" 256 (Double.fin 0) false (Double.fin 1)
      (Double.fin 0) []).getColorMapVal sampleExternals (Double.fin 0.5)).a = Double.fin 0.5 ∧
    (StandardColorMapFactory.create "Rainbow" 256 (Double.fin 0) false (Double.fin 1)
      (Double.fin 0) []).valueToColor sampleExternals (Double.fin 0.5) =
    (StandardColorMapFactory.create "Rainbow" 256 (Double.fin 0) false (Double.fin 1)
      (Double.fin 0) []).getColorMapVal sampleExternals (Double.fin 0.5) :=
  ⟨((getColorMapVal_components sampleExternals
      (StandardColorMapFactory.create "Rainbow" 256 (Double.fin 0) false (Double.fin 1)
        (Double.fin 0) []) (Double.fin 0.5)).2.1 rfl).2,
    (getColorMapVal_components sampleExternals
      (StandardColorMapFactory.create "Rainbow" 256 (Double.fin 0) false (Double.fin 1)
        (Double.fin 0) []) (Double.fin 0.5)).2.2.2⟩

/-- An unregistered name is not found in the factory map. -/
theorem factory_find_unregistered {name : String} (h : name ∉ detail.registeredNames) :
    detail.colorMapFactoryMap.find? (fun e => decide (e.1 = name)) = none := by
  rw [List.find?_eq_none]
  intro e he hname
  apply h
  simp only [decide_eq_true_eq] at hname
  rw [← hname]
  exact List.mem_map_of_mem (fun e => e.1) he

set_option maxRecDepth 100000 in
/-- Every entry of the factory map is the one found under its own name. -/
theorem factory_find_registered :
    ∀ e ∈ detail.colorMapFactoryMap,
      detail.colorMapFactoryMap.find? (fun x => decide (x.1 = e.1)) = some e := by
  decide

set_option maxRecDepth 100000 in
/-- The registered names are pairwise distinct. -/
theorem registeredNames_nodup : detail.registeredNames.Nodup := by
  decide

/-- C13: `create` called with a name that is not registered returns a colour map whose strategy
is Rainbow, so that its colours are those of the map created with the name "Rainbow" and the
same other parameters; for every registered name the strategy is the one registered under that
name; in both cases the getters report the requested name, resolution, shift, invert flag and
rescale parameters. -/
theorem create_strategy_and_getters (name : String) (res : Nat) (shift : Double)
    (invert : Bool) (rescale_scale rescale_shift : Double) (alphaPoints : List Double) :
    (name ∉ detail.registeredNames →
      (StandardColorMapFactory.create name res shift invert rescale_scale rescale_shift
        alphaPoints).color_ = ColorMapStrategy.Rainbow ∧
      ∀ (env : Externals) (v : Double),
        (StandardColorMapFactory.create name res shift invert rescale_scale rescale_shift
          alphaPoints).getColorMapVal env v =
        (StandardColorMapFactory.create "Rainbow" res shift invert rescale_scale rescale_shift
          alphaPoints).getColorMapVal env v) ∧
    (∀ e ∈ detail.colorMapFactoryMap, name = e.1 →
      (StandardColorMapFactory.create name res shift invert rescale_scale rescale_shift
        alphaPoints).color_ = e.2) ∧
    (StandardColorMapFactory.create name res shift invert rescale_scale rescale_shift
      alphaPoints).getColorMapName = name ∧
    (StandardColorMapFactory.create name res shift invert rescale_scale rescale_shift
      alphaPoints).getColorMapResolution = res ∧
    (StandardColorMapFactory.create name res shift invert rescale_scale rescale_shift
      alphaPoints).getColorMapShift = shift ∧
    (StandardColorMapFactory.create name res shift invert rescale_scale rescale_shift
      alphaPoints).getColorMapInvert = invert ∧
    (StandardColorMapFactory.create name res shift invert rescale_scale rescale_shift
      alphaPoints).getColorMapRescaleScale = rescale_scale ∧
    (StandardColorMapFactory.create name res shift invert rescale_scale rescale_shift
      alphaPoints).getColorMapRescaleShift = rescale_shift := by
  refine ⟨?_, ?_, rfl, rfl, rfl, rfl, rfl, rfl⟩
  · intro h
    have hcolor : (StandardColorMapFactory.create name res shift invert rescale_scale
        rescale_shift alphaPoints).color_ = ColorMapStrategy.Rainbow := by
      simp only [StandardColorMapFactory.create, factory_find_unregistered h]
    have hrainbow : (StandardColorMapFactory.create "Rainbow" res shift invert rescale_scale
        rescale_shift alphaPoints).color_ = ColorMapStrategy.Rainbow := by
      have := factory_find_registered ("Rainbow", ColorMapStrategy.Rainbow) (by decide)
      simp only [StandardColorMapFactory.create, this]
    refine ⟨hcolor, ?_⟩
    intro env v
    simp only [ColorMap.getColorMapVal, ColorMap.applyAlpha, hcolor, hrainbow]
    rfl
  · intro e he hname
    subst hname
    simp only [StandardColorMapFactory.create, factory_find_registered e he]

theorem create_strategy_and_getters_witness :
    "Jet" ∉ detail.registeredNames ∧
    (StandardColorMapFactory.create "Jet" 256 (Double.fin 0) false (Double.fin 1)
      (Double.fin 0) []).color_ = ColorMapStrategy.Rainbow ∧
    (StandardColorMapFactory.create "Old Rainbow" 256 (Double.fin 0) false (Double.fin 1)
      (Double.fin 0) []).color_ = ColorMapStrategy.OldRainbow ∧
    (StandardColorMapFactory.create "Jet" 256 (Double.fin 0) false (Double.fin 1)
      (Double.fin 0) []).getColorMapName = "Jet" :=
  ⟨by decide,
    ((create_strategy_and_getters "Jet" 256 (Double.fin 0) false (Double.fin 1) (Double.fin 0)
      []).1 (by decide)).1,
    (create_strategy_and_getters "Old Rainbow" 256 (Double.fin 0) false (Double.fin 1)
      (Double.fin 0) []).2.1 ("Old Rainbow", ColorMapStrategy.OldRainbow) (by decide) rfl,
    (create_strategy_and_getters "Jet" 256 (Double.fin 0) false (Double.fin 1) (Double.fin 0)
      []).2.2.1⟩

/-! ## ColorMap: the Rainbow, Old Rainbow and Blackbody strategies -/

/-- The Rainbow strategy on a finite value, piece by piece. -/
theorem rainbow_of_fin (env : Externals) (f : ℚ) :
    detail.Rainbow.getColorMapVal env (Double.fin f) =
      if f < 1 / 4 then
        ColorRGB.rgb env (Double.fin 0) (Double.fin (f * 3)) (Double.fin (1 - f))
      else if f < 1 / 2 then
        ColorRGB.rgb env (Double.fin 0) (Double.fin (f + 1 / 2)) (Double.fin (3 / 2 - f * 3))
      else if f < 3 / 4 then
        ColorRGB.rgb env (Double.fin (4 * f - 2)) (Double.fin (2 - 2 * f)) (Double.fin 0)
      else
        ColorRGB.rgb env (Double.fin 1) (Double.fin (2 - 2 * f)) (Double.fin 0) := by
  have e1 : (0.25 : ℚ) = 1 / 4 := by norm_num
  have e2 : (0.5 : ℚ) = 1 / 2 := by norm_num
  have e3 : (0.75 : ℚ) = 3 / 4 := by norm_num
  have e4 : (1.5 : ℚ) = 3 / 2 := by norm_num
  unfold detail.Rainbow.getColorMapVal
  simp only [Double.lt_fin_fin, Double.le_fin_fin, Double.fin_mul_fin, Double.fin_add_fin,
    Double.fin_sub_fin, e1, e2, e3, e4, Bool.and_eq_true, decide_eq_true_eq]
  by_cases h1 : f < 1 / 4
  · rw [if_pos h1, if_pos h1]
  · have h1' : (1 : ℚ) / 4 ≤ f := not_lt.mp h1
    by_cases h2 : f < 1 / 2
    · rw [if_neg h1, if_pos ⟨h1', h2⟩, if_neg h1, if_pos h2]
    · have h2' : (1 : ℚ) / 2 ≤ f := not_lt.mp h2
      have h12 : ¬ ((1 : ℚ) / 4 ≤ f ∧ f < 1 / 2) := fun h => h2 h.2
      by_cases h3 : f < 3 / 4
      · rw [if_neg h1, if_neg h12, if_pos ⟨h2', h3⟩, if_neg h1, if_neg h2, if_pos h3]
      · have h23 : ¬ ((1 : ℚ) / 2 ≤ f ∧ f < 3 / 4) := fun h => h3 h.2
        rw [if_neg h1, if_neg h12, if_neg h23, if_neg h1, if_neg h2, if_neg h3]

/-- The Old Rainbow strategy on a finite value, piece by piece. -/
theorem oldRainbow_of_fin (env : Externals) (f : ℚ) :
    detail.OldRainbow.getColorMapVal env (Double.fin f) =
      if f < 1 / 4 then
        ColorRGB.rgb env (Double.fin 0) (Double.fin (4 * f)) (Double.fin 1)
      else if f < 1 / 2 then
        ColorRGB.rgb env (Double.fin 0) (Double.fin 1) (Double.fin ((1 / 2 - f) * 4))
      else if f < 3 / 4 then
        ColorRGB.rgb env (Double.fin ((f - 1 / 2) * 4)) (Double.fin 1) (Double.fin 0)
      else
        ColorRGB.rgb env (Double.fin 1) (Double.fin ((1 - f) * 4)) (Double.fin 0) := by
  have e1 : (0.25 : ℚ) = 1 / 4 := by norm_num
  have e2 : (0.5 : ℚ) = 1 / 2 := by norm_num
  have e3 : (0.75 : ℚ) = 3 / 4 := by norm_num
  unfold detail.OldRainbow.getColorMapVal
  simp only [Double.lt_fin_fin, Double.le_fin_fin, Double.fin_mul_fin, Double.fin_add_fin,
    Double.fin_sub_fin, e1, e2, e3, Bool.and_eq_true, decide_eq_true_eq]
  by_cases h1 : f < 1 / 4
  · rw [if_pos h1, if_pos h1]
  · have h1' : (1 : ℚ) / 4 ≤ f := not_lt.mp h1
    by_cases h2 : f < 1 / 2
    · rw [if_neg h1, if_pos ⟨h1', h2⟩, if_neg h1, if_pos h2]
    · have h2' : (1 : ℚ) / 2 ≤ f := not_lt.mp h2
      have h12 : ¬ ((1 : ℚ) / 4 ≤ f ∧ f < 1 / 2) := fun h => h2 h.2
      by_cases h3 : f < 3 / 4
      · rw [if_neg h1, if_neg h12, if_pos ⟨h2', h3⟩, if_neg h1, if_neg h2, if_pos h3]
      · have h23 : ¬ ((1 : ℚ) / 2 ≤ f ∧ f < 3 / 4) := fun h => h3 h.2
        rw [if_neg h1, if_neg h12, if_neg h23, if_neg h1, if_neg h2, if_neg h3]

/-- The Blackbody strategy on a finite value, piece by piece, with the thresholds and offsets
of the source. -/
theorem blackbody_of_fin (env : Externals) (f : ℚ) :
    detail.Blackbody.getColorMapVal env (Double.fin f) =
      if f < 333333 / 1000000 then
        ColorRGB.rgb env (Double.fin (f * 3)) (Double.fin 0) (Double.fin 0)
      else if f < 6666666 / 10000000 then
        ColorRGB.rgb env (Double.fin 1) (Double.fin ((f - 333333 / 1000000) * 3)) (Double.fin 0)
      else
        ColorRGB.rgb env (Double.fin 1) (Double.fin 1)
          (Double.fin ((f - 6666666 / 10000000) * 3)) := by
  have e1 : (0.333333 : ℚ) = 333333 / 1000000 := by norm_num
  have e2 : (0.6666666 : ℚ) = 6666666 / 10000000 := by norm_num
  unfold detail.Blackbody.getColorMapVal
  simp only [Double.lt_fin_fin, Double.fin_mul_fin, Double.fin_sub_fin, e1, e2,
    decide_eq_true_eq]

set_option maxHeartbeats 1000000 in
theorem rainbow_lipschitz_of_le (env : Externals) {f f' : ℚ} (h : f ≤ f') :
    |(detail.Rainbow.getColorMapVal env (Double.fin f)).r.value -
        (detail.Rainbow.getColorMapVal env (Double.fin f')).r.value| ≤ 4 * (f' - f) ∧
    |(detail.Rainbow.getColorMapVal env (Double.fin f)).g.value -
        (detail.Rainbow.getColorMapVal env (Double.fin f')).g.value| ≤ 4 * (f' - f) ∧
    |(detail.Rainbow.getColorMapVal env (Double.fin f)).b.value -
        (detail.Rainbow.getColorMapVal env (Double.fin f')).b.value| ≤ 4 * (f' - f) := by
  rw [rainbow_of_fin, rainbow_of_fin]
  split_ifs <;> simp only [ColorRGB.rgb, Double.value] <;> refine ⟨?_, ?_, ?_⟩ <;>
    rw [abs_le] <;> constructor <;> linarith

/-- The three components of the Rainbow strategy change by at most four times the change of
the input. -/
theorem rainbow_lipschitz (env : Externals) (f f' : ℚ) :
    |(detail.Rainbow.getColorMapVal env (Double.fin f)).r.value -
        (detail.Rainbow.getColorMapVal env (Double.fin f')).r.value| ≤ 4 * |f - f'| ∧
    |(detail.Rainbow.getColorMapVal env (Double.fin f)).g.value -
        (detail.Rainbow.getColorMapVal env (Double.fin f')).g.value| ≤ 4 * |f - f'| ∧
    |(detail.Rainbow.getColorMapVal env (Double.fin f)).b.value -
        (detail.Rainbow.getColorMapVal env (Double.fin f')).b.value| ≤ 4 * |f - f'| := by
  rcases le_total f f' with h | h
  · have key := rainbow_lipschitz_of_le env h
    rw [abs_of_nonpos (sub_nonpos.mpr h), neg_sub]
    exact key
  · have key := rainbow_lipschitz_of_le env h
    rw [abs_of_nonneg (sub_nonneg.mpr h)]
    rw [abs_sub_comm, abs_sub_comm (detail.Rainbow.getColorMapVal env (Double.fin f)).g.value,
      abs_sub_comm (detail.Rainbow.getColorMapVal env (Double.fin f)).b.value]
    exact key

/-- C17: the Rainbow strategy returns blue (0,0,1) at 0, dark cyan (0,0.75,0.75) at 0.25, green
(0,1,0) at 0.5, orange (1,0.5,0) at 0.75 and red (1,0,0) at 1; at each breakpoint 0.25, 0.5,
0.75 the formula of the piece on the left gives the colour the piece on the right gives there;
and the map is continuous: its components are finite on finite input and change by at most
four times the change of the input. -/
theorem rainbow_colours_and_continuity (env : Externals) :
    detail.Rainbow.getColorMapVal env (Double.fin 0) =
      ColorRGB.rgb env (Double.fin 0) (Double.fin 0) (Double.fin 1) ∧
    detail.Rainbow.getColorMapVal env (Double.fin 0.25) =
      ColorRGB.rgb env (Double.fin 0) (Double.fin 0.75) (Double.fin 0.75) ∧
    detail.Rainbow.getColorMapVal env (Double.fin 0.5) =
      ColorRGB.rgb env (Double.fin 0) (Double.fin 1) (Double.fin 0) ∧
    detail.Rainbow.getColorMapVal env (Double.fin 0.75) =
      ColorRGB.rgb env (Double.fin 1) (Double.fin 0.5) (Double.fin 0) ∧
    detail.Rainbow.getColorMapVal env (Double.fin 1) =
      ColorRGB.rgb env (Double.fin 1) (Double.fin 0) (Double.fin 0) ∧
    ColorRGB.rgb env (Double.fin 0) (Double.fin 0.25 * Double.fin 3)
        (Double.fin 1 - Double.fin 0.25) =
      detail.Rainbow.getColorMapVal env (Double.fin 0.25) ∧
    ColorRGB.rgb env (Double.fin 0) (Double.fin 0.5 + Double.fin 0.5)
        (Double.fin 1.5 - Double.fin 0.5 * Double.fin 3) =
      detail.Rainbow.getColorMapVal env (Double.fin 0.5) ∧
    ColorRGB.rgb env (Double.fin 4 * Double.fin 0.75 - Double.fin 2)
        (Double.fin 2 - Double.fin 2 * Double.fin 0.75) (Double.fin 0) =
      detail.Rainbow.getColorMapVal env (Double.fin 0.75) ∧
    (∀ f : ℚ, ∃ r g b : ℚ, detail.Rainbow.getColorMapVal env (Double.fin f) =
      ColorRGB.rgb env (Double.fin r) (Double.fin g) (Double.fin b)) ∧
    (∀ f f' : ℚ,
      |(detail.Rainbow.getColorMapVal env (Double.fin f)).r.value -
          (detail.Rainbow.getColorMapVal env (Double.fin f')).r.value| ≤ 4 * |f - f'| ∧
      |(detail.Rainbow.getColorMapVal env (Double.fin f)).g.value -
          (detail.Rainbow.getColorMapVal env (Double.fin f')).g.value| ≤ 4 * |f - f'| ∧
      |(detail.Rainbow.getColorMapVal env (Double.fin f)).b.value -
          (detail.Rainbow.getColorMapVal env (Double.fin f')).b.value| ≤ 4 * |f - f'|) := by
  refine ⟨?_, ?_, ?_, ?_, ?_, ?_, ?_, ?_, ?_, fun f f' => rainbow_lipschitz env f f'⟩
  · rw [rainbow_of_fin]; norm_num
  · rw [rainbow_of_fin]; norm_num
  · rw [rainbow_of_fin]; norm_num
  · rw [rainbow_of_fin]; norm_num
  · rw [rainbow_of_fin]; norm_num
  · rw [rainbow_of_fin, Double.fin_mul_fin, Double.fin_sub_fin]; norm_num
  · rw [rainbow_of_fin, Double.fin_mul_fin, Double.fin_sub_fin, Double.fin_add_fin]; norm_num
  · rw [rainbow_of_fin, Double.fin_mul_fin, Double.fin_mul_fin, Double.fin_sub_fin,
      Double.fin_sub_fin]; norm_num
  · intro f
    rw [rainbow_of_fin]
    split_ifs
    · exact ⟨_, _, _, rfl⟩
    · exact ⟨_, _, _, rfl⟩
    · exact ⟨_, _, _, rfl⟩
    · exact ⟨_, _, _, rfl⟩

/-- C18: the Old Rainbow strategy changes one colour at a time: below 0.25 only green varies
(red 0, blue 1), on [0.25, 0.5) only blue varies (red 0, green 1), on [0.5, 0.75) only red
varies (green 1, blue 0), from 0.75 on only green varies (red 1, blue 0), the varying component
being strictly monotone there; and the map is blue (0,0,1), cyan (0,1,1), green (0,1,0),
yellow (1,1,0) and red (1,0,0) at 0, 0.25, 0.5, 0.75 and 1. -/
theorem oldRainbow_one_colour_at_a_time (env : Externals) :
    (∀ f : ℚ, f < 1 / 4 →
      detail.OldRainbow.getColorMapVal env (Double.fin f) =
        ColorRGB.rgb env (Double.fin 0) (Double.fin (4 * f)) (Double.fin 1)) ∧
    (∀ f : ℚ, 1 / 4 ≤ f → f < 1 / 2 →
      detail.OldRainbow.getColorMapVal env (Double.fin f) =
        ColorRGB.rgb env (Double.fin 0) (Double.fin 1) (Double.fin ((1 / 2 - f) * 4))) ∧
    (∀ f : ℚ, 1 / 2 ≤ f → f < 3 / 4 →
      detail.OldRainbow.getColorMapVal env (Double.fin f) =
        ColorRGB.rgb env (Double.fin ((f - 1 / 2) * 4)) (Double.fin 1) (Double.fin 0)) ∧
    (∀ f : ℚ, 3 / 4 ≤ f →
      detail.OldRainbow.getColorMapVal env (Double.fin f) =
        ColorRGB.rgb env (Double.fin 1) (Double.fin ((1 - f) * 4)) (Double.fin 0)) ∧
    (∀ f f' : ℚ, f < f' → f' < 1 / 4 →
      (detail.OldRainbow.getColorMapVal env (Double.fin f)).g.value <
        (detail.OldRainbow.getColorMapVal env (Double.fin f')).g.value) ∧
    (∀ f f' : ℚ, 1 / 4 ≤ f → f < f' → f' < 1 / 2 →
      (detail.OldRainbow.getColorMapVal env (Double.fin f')).b.value <
        (detail.OldRainbow.getColorMapVal env (Double.fin f)).b.value) ∧
    (∀ f f' : ℚ, 1 / 2 ≤ f → f < f' → f' < 3 / 4 →
      (detail.OldRainbow.getColorMapVal env (Double.fin f)).r.value <
        (detail.OldRainbow.getColorMapVal env (Double.fin f')).r.value) ∧
    (∀ f f' : ℚ, 3 / 4 ≤ f → f < f' →
      (detail.OldRainbow.getColorMapVal env (Double.fin f')).g.value <
        (detail.OldRainbow.getColorMapVal env (Double.fin f)).g.value) ∧
    detail.OldRainbow.getColorMapVal env (Double.fin 0) =
      ColorRGB.rgb env (Double.fin 0) (Double.fin 0) (Double.fin 1) ∧
    detail.OldRainbow.getColorMapVal env (Double.fin 0.25) =
      ColorRGB.rgb env (Double.fin 0) (Double.fin 1) (Double.fin 1) ∧
    detail.OldRainbow.getColorMapVal env (Double.fin 0.5) =
      ColorRGB.rgb env (Double.fin 0) (Double.fin 1) (Double.fin 0) ∧
    detail.OldRainbow.getColorMapVal env (Double.fin 0.75) =
      ColorRGB.rgb env (Double.fin 1) (Double.fin 1) (Double.fin 0) ∧
    detail.OldRainbow.getColorMapVal env (Double.fin 1) =
      ColorRGB.rgb env (Double.fin 1) (Double.fin 0) (Double.fin 0) := by
  have p1 : ∀ f : ℚ, f < 1 / 4 →
      detail.OldRainbow.getColorMapVal env (Double.fin f) =
        ColorRGB.rgb env (Double.fin 0) (Double.fin (4 * f)) (Double.fin 1) := by
    intro f h1
    rw [oldRainbow_of_fin, if_pos h1]
  have p2 : ∀ f : ℚ, 1 / 4 ≤ f → f < 1 / 2 →
      detail.OldRainbow.getColorMapVal env (Double.fin f) =
        ColorRGB.rgb env (Double.fin 0) (Double.fin 1) (Double.fin ((1 / 2 - f) * 4)) := by
    intro f h1 h2
    rw [oldRainbow_of_fin, if_neg (not_lt.mpr h1), if_pos h2]
  have p3 : ∀ f : ℚ, 1 / 2 ≤ f → f < 3 / 4 →
      detail.OldRainbow.getColorMapVal env (Double.fin f) =
        ColorRGB.rgb env (Double.fin ((f - 1 / 2) * 4)) (Double.fin 1) (Double.fin 0) := by
    intro f h1 h2
    rw [oldRainbow_of_fin, if_neg (not_lt.mpr (by linarith)), if_neg (not_lt.mpr h1),
      if_pos h2]
  have p4 : ∀ f : ℚ, 3 / 4 ≤ f →
      detail.OldRainbow.getColorMapVal env (Double.fin f) =
        ColorRGB.rgb env (Double.fin 1) (Double.fin ((1 - f) * 4)) (Double.fin 0) := by
    intro f h1
    rw [oldRainbow_of_fin, if_neg (not_lt.mpr (by linarith)),
      if_neg (not_lt.mpr (by linarith)), if_neg (not_lt.mpr h1)]
  refine ⟨p1, p2, p3, p4, ?_, ?_, ?_, ?_, ?_, ?_, ?_, ?_, ?_⟩
  · intro f f' hlt h
    rw [p1 f (by linarith), p1 f' h]
    simp only [ColorRGB.rgb, Double.value]
    linarith
  · intro f f' h hlt h'
    rw [p2 f h (by linarith), p2 f' (by linarith) h']
    simp only [ColorRGB.rgb, Double.value]
    linarith
  · intro f f' h hlt h'
    rw [p3 f h (by linarith), p3 f' (by linarith) h']
    simp only [ColorRGB.rgb, Double.value]
    linarith
  · intro f f' h hlt
    rw [p4 f h, p4 f' (by linarith)]
    simp only [ColorRGB.rgb, Double.value]
    linarith
  · rw [p1 0 (by norm_num)]; norm_num
  · rw [p2 0.25 (by norm_num) (by norm_num)]; norm_num
  · rw [p3 0.5 (by norm_num) (by norm_num)]; norm_num
  · rw [p4 0.75 (by norm_num)]; norm_num
  · rw [p4 1 (by norm_num)]; norm_num

/-- C19 (what the code does): the Blackbody strategy is black (0,0,0) at 0, but its thresholds
0.333333 and 0.6666666 fall short of the thirds: at 1 it returns blue 1.0000002 instead of
white, and its green is 1.0000005 at 0.6666665 and drops to 1 at 0.6666666, so green and blue
leave [0,1] and green is not non-decreasing. -/
theorem blackbody_overshoots (env : Externals) :
    detail.Blackbody.getColorMapVal env (Double.fin 0) =
      ColorRGB.rgb env (Double.fin 0) (Double.fin 0) (Double.fin 0) ∧
    detail.Blackbody.getColorMapVal env (Double.fin 1) =
      ColorRGB.rgb env (Double.fin 1) (Double.fin 1) (Double.fin 1.0000002) ∧
    detail.Blackbody.getColorMapVal env (Double.fin 0.6666665) =
      ColorRGB.rgb env (Double.fin 1) (Double.fin 1.0000005) (Double.fin 0) ∧
    detail.Blackbody.getColorMapVal env (Double.fin 0.6666666) =
      ColorRGB.rgb env (Double.fin 1) (Double.fin 1) (Double.fin 0) ∧
    (1 : ℚ) < 1.0000002 ∧ (1 : ℚ) < 1.0000005 ∧ (0.6666665 : ℚ) < 0.6666666 ∧
    (detail.Blackbody.getColorMapVal env (Double.fin 0.6666666)).g.value <
      (detail.Blackbody.getColorMapVal env (Double.fin 0.6666665)).g.value := by
  refine ⟨?_, ?_, ?_, ?_, by norm_num, by norm_num, by norm_num, ?_⟩
  · rw [blackbody_of_fin]; norm_num
  · rw [blackbody_of_fin]; norm_num
  · rw [blackbody_of_fin]; norm_num
  · rw [blackbody_of_fin]; norm_num
  · rw [blackbody_of_fin, blackbody_of_fin]; norm_num [ColorRGB.rgb, Double.value]

end SCIRun
